import Mathlib

/-!
# Filtered_INS2: linearisation and error injection of the error-state EKF

A shallow embedding of `tool/navigation/Filtered_INS2.h`.

* The template parameter `FloatT` is a field `F`: arithmetic is exact, so every
  statement below is about the formulas the code evaluates, not about rounding.
* The C arrays `A_serialized` and `B_serialized` are functions `Nat → Nat → F`
  that start at zero and are overwritten entry by entry, in the order of the
  source.
* The object is passed explicitly: `INS F` is the base-class part (the nominal
  state), `Filtered_INS2 F Filter` adds the member `m_filter`.
* Headers the class includes but that are not part of the embedded sources
  (`INS.h`, `param/matrix.h`, `param/quaternion.h`, `algorithm/kalman.h`, the
  Earth model) appear either as parameters (`Earth`, `Strapdown`,
  `KalmanFilter`) or as definitions marked `Modelled from the spec`.
-/

namespace Navigation

set_option linter.unusedSectionVars false

variable {F : Type} [Field F]

/-! ## Linear-algebra primitives -/

/-- Three-component vector, `Vector3<FloatT>`; `v i` is `v[i]` / `v.get(i)`. -/
abbrev Vector3 (F : Type) := Fin 3 → F

/-- Direction cosine matrix: the 3x3 result of `Quaternion::getDCM()`, read in
`getA` and `getB` through `dcm(r, c)` with constant indices below 3. -/
abbrev DCM (F : Type) := Fin 3 → Fin 3 → F

/-- Modelled from the spec: `Matrix<FloatT>` of `param/matrix.h`, a dense matrix
whose size is a run-time value. -/
structure Matrix (F : Type) where
  rows : Nat
  columns : Nat
  elem : Fin rows → Fin columns → F

/-- Modelled from the spec: element read `m(r, c)` of `param/matrix.h`. An index
outside the matrix is a dimensional mismatch, which the spec (section 7) has
signalled to the caller: the read yields `none`. -/
def Matrix.entry (m : Matrix F) (r c : Nat) : Option F :=
  if h : r < m.rows ∧ c < m.columns then some (m.elem ⟨r, h.1⟩ ⟨c, h.2⟩) else none

/-- Modelled from the spec: matrix product `a * b` of `param/matrix.h`; operands
whose inner sizes differ are a dimensional mismatch and yield `none`. -/
def Matrix.mul (a b : Matrix F) : Option (Matrix F) :=
  if h : a.columns = b.rows then
    some ⟨a.rows, b.columns, fun i j =>
      Finset.univ.sum fun k : Fin a.columns => a.elem i k * b.elem ⟨k.val, h ▸ k.isLt⟩ j⟩
  else none

/-- The `rows` x `columns` matrix of zeros. -/
def Matrix.zero (rows columns : Nat) : Matrix F := ⟨rows, columns, fun _ _ => 0⟩

/-- Column vector with `n` rows, row `i` holding `x i`. -/
def Matrix.column {n : Nat} (x : Fin n → F) : Matrix F :=
  ⟨n, 1, fun i _ => x i⟩

/-- Column vector with `rows` rows holding `c` in row `k` and zero elsewhere. -/
def Matrix.single (rows k : Nat) (c : F) : Matrix F :=
  ⟨rows, 1, fun i _ => if i.val = k then c else 0⟩

/-- Assignment `A(i, j) = v` into a C array held as a function. -/
def assign (A : Nat → Nat → F) (i j : Nat) (v : F) : Nat → Nat → F :=
  fun r c => if r = i ∧ c = j then v else A r c

/-- Size of the error state and of the matrix P. -/
def P_SIZE : Nat := 10

/-- Size of the process input and of the matrix Q. -/
def Q_SIZE : Nat := 7

/-! ## The input matrix B -/

/-- The array `B_serialized` as `getB(accel, gyro, dcm_n2b)` leaves it. -/
def B_serialized (_accel _gyro : Vector3 F) (dcm_n2b : DCM F) : Nat → Nat → F :=
  let B : Nat → Nat → F := fun _ _ => 0
  let B := assign B 0 0 (dcm_n2b 0 0)
  let B := assign B 0 1 (dcm_n2b 1 0)
  let B := assign B 0 2 (dcm_n2b 2 0)
  let B := assign B 1 0 (dcm_n2b 0 1)
  let B := assign B 1 1 (dcm_n2b 1 1)
  let B := assign B 1 2 (dcm_n2b 2 1)
  let B := assign B 2 0 (dcm_n2b 0 2)
  let B := assign B 2 1 (dcm_n2b 1 2)
  let B := assign B 2 2 (dcm_n2b 2 2)
  let B := assign B 2 6 1
  let B := assign B 7 3 (dcm_n2b 0 0 / 2)
  let B := assign B 7 4 (dcm_n2b 1 0 / 2)
  let B := assign B 7 5 (dcm_n2b 2 0 / 2)
  let B := assign B 8 3 (dcm_n2b 0 1 / 2)
  let B := assign B 8 4 (dcm_n2b 1 1 / 2)
  let B := assign B 8 5 (dcm_n2b 2 1 / 2)
  let B := assign B 9 3 (dcm_n2b 0 2 / 2)
  let B := assign B 9 4 (dcm_n2b 1 2 / 2)
  let B := assign B 9 5 (dcm_n2b 2 2 / 2)
  B

/-- The three-argument `getB(accel, gyro, dcm_n2b)`: the 10 x 7 matrix built
from `B_serialized`. -/
def getB (accel gyro : Vector3 F) (dcm_n2b : DCM F) : Matrix F :=
  ⟨P_SIZE, Q_SIZE, fun i j => B_serialized accel gyro dcm_n2b i.val j.val⟩

/-! ## Quaternions and the nominal state -/

/-- Modelled from the spec: `Quaternion<FloatT>` of `param/quaternion.h`, built as
`Quaternion(q0, q1, q2, q3)` with `q0` the scalar part. -/
structure Quaternion (F : Type) where
  q0 : F
  q1 : F
  q2 : F
  q3 : F

/-- Modelled from the spec: `operator*` of `param/quaternion.h`, the quaternion
(Hamilton) product with the left operand as the left factor. -/
def Quaternion.mul (a b : Quaternion F) : Quaternion F :=
  ⟨a.q0 * b.q0 - a.q1 * b.q1 - a.q2 * b.q2 - a.q3 * b.q3,
   a.q0 * b.q1 + a.q1 * b.q0 + a.q2 * b.q3 - a.q3 * b.q2,
   a.q0 * b.q2 - a.q1 * b.q3 + a.q2 * b.q0 + a.q3 * b.q1,
   a.q0 * b.q3 + a.q1 * b.q2 - a.q2 * b.q1 + a.q3 * b.q0⟩

/-- Squared norm of a quaternion. -/
def Quaternion.abs2 (q : Quaternion F) : F :=
  q.q0 * q.q0 + q.q1 * q.q1 + q.q2 * q.q2 + q.q3 * q.q3

/-- Modelled from the spec: renormalization of a quaternion (section 4.4, "the
quaternion norm must be renormalized"): every component is divided by the norm,
the square root of the squared norm. The square root of `FloatT` is the
parameter `sqrt`. -/
def Quaternion.renormalize (sqrt : F → F) (q : Quaternion F) : Quaternion F :=
  ⟨q.q0 / sqrt q.abs2, q.q1 / sqrt q.abs2, q.q2 / sqrt q.abs2, q.q3 / sqrt q.abs2⟩

/-- The same quaternion in Mathlib's quaternion algebra over `F` (i² = j² = -1),
used to compare `Quaternion.mul` with the Hamilton product. -/
def Quaternion.toAlgebra (q : Quaternion F) : QuaternionAlgebra F (-1) (-1) :=
  ⟨q.q0, q.q1, q.q2, q.q3⟩

/-- Modelled from the spec: the data members of `INS<FloatT>` (`INS.h`) that
`Filtered_INS2` reads and writes. The nominal state is velocity (indices 0-2),
earth-to-nav quaternion (3-6), altitude (7), nav-to-body quaternion (8-11) and
the auxiliary states that enclosing classes append (12 and up); `phi`,
`omega_e2i_4n` and `omega_n2e_4n` are the derived quantities `recalc` caches. -/
structure INS (F : Type) where
  v : Vector3 F
  q_e2n : Quaternion F
  h : F
  q_n2b : Quaternion F
  aux : Nat → F
  phi : F
  omega_e2i_4n : Vector3 F
  omega_n2e_4n : Vector3 F

/-- Modelled from the spec: `INS::get(index)` / reading `(*this)[index]`. -/
def INS.get (s : INS F) : Nat → F
  | 0 => s.v 0
  | 1 => s.v 1
  | 2 => s.v 2
  | 3 => s.q_e2n.q0
  | 4 => s.q_e2n.q1
  | 5 => s.q_e2n.q2
  | 6 => s.q_e2n.q3
  | 7 => s.h
  | 8 => s.q_n2b.q0
  | 9 => s.q_n2b.q1
  | 10 => s.q_n2b.q2
  | 11 => s.q_n2b.q3
  | k + 12 => s.aux k

/-- Modelled from the spec: writing `x` through the reference `(*this)[index]`. -/
def INS.set (s : INS F) (index : Nat) (x : F) : INS F :=
  match index with
  | 0 => { s with v := Function.update s.v 0 x }
  | 1 => { s with v := Function.update s.v 1 x }
  | 2 => { s with v := Function.update s.v 2 x }
  | 3 => { s with q_e2n := { s.q_e2n with q0 := x } }
  | 4 => { s with q_e2n := { s.q_e2n with q1 := x } }
  | 5 => { s with q_e2n := { s.q_e2n with q2 := x } }
  | 6 => { s with q_e2n := { s.q_e2n with q3 := x } }
  | 7 => { s with h := x }
  | 8 => { s with q_n2b := { s.q_n2b with q0 := x } }
  | 9 => { s with q_n2b := { s.q_n2b with q1 := x } }
  | 10 => { s with q_n2b := { s.q_n2b with q2 := x } }
  | 11 => { s with q_n2b := { s.q_n2b with q3 := x } }
  | k + 12 => { s with aux := Function.update s.aux k x }

/-- Earth model constants and radii (`Earth::...`), declared outside the embedded
sources and taken as parameters. -/
structure Earth (F : Type) where
  R_normal : F → F
  R_meridian : F → F
  R_e : F
  Omega_Earth : F

/-- The strapdown mechanizer operations of `INS.h` and `param/quaternion.h` that
`Filtered_INS2` calls as black boxes: `Quaternion::getDCM`, `INS::update`, the
three derived quantities that `INS::recalc` recomputes, and the square root of
`FloatT` that the renormalization of a quaternion takes. -/
structure Strapdown (F : Type) where
  getDCM : Quaternion F → DCM F
  update : INS F → Vector3 F → Vector3 F → F → INS F
  phi : INS F → F
  omega_e2i_4n : INS F → Vector3 F
  omega_n2e_4n : INS F → Vector3 F
  sqrt : F → F

/-- Modelled from the spec: `INS::recalc()` of `INS.h`, the recomputation step of
section 4.4. The multiplicative update of `correct_INS` does not renormalize and
"the quaternion norm must be renormalized either here or by the recomputation
step" (section 4.4; sections 3 and 8 require unit norm after every correction),
so the recomputation step renormalizes both attitude quaternions; it then
recalculates the derived quantities from the renormalized state. Velocity,
altitude and auxiliary states are not written. -/
def INS.recalc (M : Strapdown F) (s : INS F) : INS F :=
  let s := { s with
    q_e2n := s.q_e2n.renormalize M.sqrt
    q_n2b := s.q_n2b.renormalize M.sqrt }
  { s with phi := M.phi s, omega_e2i_4n := M.omega_e2i_4n s, omega_n2e_4n := M.omega_n2e_4n s }

/-- The generic covariance filter (`algorithm/kalman.h`) as a black box over its
own state type: `predict(A, B, deltaT)` and `correct(H, R)`, which returns the
gain K and the updated filter. -/
structure KalmanFilter (F Filter : Type) where
  predict : Filter → Matrix F → Matrix F → F → Filter
  correct : Filter → Matrix F → Matrix F → Filter × Matrix F

/-- The two preprocessor switches of `getA`; the source defines both. -/
structure Config where
  R_STRICT : Bool := true
  CENTRIPETAL : Bool := true

/-! ## The system matrix A -/

/-- The macro `pow2(x)`. -/
def pow2 (x : F) : F := x * x

/-- The array `A_serialized` as `getA(accel, gyro, dcm_e2n, dcm_n2b)` leaves it,
statement by statement. With `R_STRICT` the radii come from `R_normal` and
`R_meridian` at `phi`, otherwise from `R_e`; the block between
`#ifdef CENTRIPETAL` and `#endif` runs when `CENTRIPETAL` is set. -/
def A_serialized (E : Earth F) (cfg : Config) (s : INS F)
    (accel _gyro : Vector3 F) (dcm_e2n dcm_n2b : DCM F) : Nat → Nat → F :=
  let get := s.get
  let A : Nat → Nat → F := fun _ _ => 0
  let omega_1 : Vector3 F := fun i => s.omega_e2i_4n i * 2 + s.omega_n2e_4n i
  let Rn_1 := if cfg.R_STRICT then E.R_normal s.phi + get 7 else E.R_e + get 7
  let Rm_1 := if cfg.R_STRICT then E.R_meridian s.phi + get 7 else E.R_e + get 7
  let Rn_2 := pow2 Rn_1
  let Rm_2 := pow2 Rm_1
  -- velocity rows
  let A := assign A 0 0 (get 2 / Rm_1)
  let A := assign A 0 1 (omega_1 2)
  let A := assign A 0 2 (-omega_1 1)
  let A := assign A 0 3 (E.Omega_Earth * 4 * (dcm_e2n 2 1 * get 1 - dcm_e2n 1 1 * get 2))
  let A := assign A 0 4 (E.Omega_Earth * 4 * (dcm_e2n 1 0 * get 2 - dcm_e2n 2 0 * get 1))
  let A := assign A 0 6 (-get 0 * get 2 / Rm_2)
  let A := assign A 0 8
    ((dcm_n2b 0 2 * accel 0 + dcm_n2b 1 2 * accel 1 + dcm_n2b 2 2 * accel 2) * 2)
  let A := assign A 0 9
    ((dcm_n2b 0 1 * accel 0 + dcm_n2b 1 1 * accel 1 + dcm_n2b 2 1 * accel 2) * -2)
  let A := assign A 1 0 (-omega_1 2)
  let A := assign A 1 1 (get 2 / Rn_1)
  let A := assign A 1 2 (omega_1 0)
  let A := assign A 1 3 (E.Omega_Earth * 4 * (dcm_e2n 0 1 * get 2 - dcm_e2n 2 1 * get 0))
  let A := assign A 1 4 (E.Omega_Earth * 4 * (dcm_e2n 2 0 * get 0 - dcm_e2n 0 0 * get 2))
  let A := assign A 1 6 (-get 1 * get 2 / Rn_2)
  let A := assign A 1 7 (-A 0 8)
  let A := assign A 1 9
    ((dcm_n2b 0 0 * accel 0 + dcm_n2b 1 0 * accel 1 + dcm_n2b 2 0 * accel 2) * 2)
  let A := assign A 2 0 (omega_1 1 - get 0 / Rm_1)
  let A := assign A 2 1 (-omega_1 0 - get 1 / Rn_1)
  let A := assign A 2 3 (E.Omega_Earth * 4 * (dcm_e2n 1 1 * get 0 - dcm_e2n 0 1 * get 1))
  let A := assign A 2 4 (E.Omega_Earth * 4 * (dcm_e2n 0 0 * get 1 - dcm_e2n 1 0 * get 0))
  let A := assign A 2 6 (pow2 (get 0) / Rm_2 + pow2 (get 1) / Rn_2)
  let A := assign A 2 7 (-A 0 9)
  let A := assign A 2 8 (-A 1 9)
  -- #ifdef CENTRIPETAL, with by_delta_r(i, j) = A(i + 0, j + 3)
  let A :=
    if cfg.CENTRIPETAL then
      let A := assign A 0 3
        (dcm_e2n 0 0 * dcm_e2n 1 0 + dcm_e2n 0 1 * dcm_e2n 2 2 + dcm_e2n 0 2 * dcm_e2n 2 1)
      let A := assign A 0 4
        (-dcm_e2n 0 0 * dcm_e2n 2 2 + dcm_e2n 0 1 * dcm_e2n 1 0 - dcm_e2n 0 2 * dcm_e2n 2 0)
      let A := assign A 1 3
        (pow2 (dcm_e2n 1 0) + dcm_e2n 1 1 * dcm_e2n 2 2 + dcm_e2n 1 2 * dcm_e2n 2 1)
      let A := assign A 1 4
        (-dcm_e2n 1 0 * dcm_e2n 2 2 - dcm_e2n 1 1 * dcm_e2n 1 0 - dcm_e2n 1 2 * dcm_e2n 2 0)
      let A := assign A 2 3
        (dcm_e2n 2 0 * dcm_e2n 1 0 + dcm_e2n 2 1 * dcm_e2n 2 2 + dcm_e2n 2 2 * dcm_e2n 2 1)
      let A := assign A 2 4
        (-dcm_e2n 2 0 * dcm_e2n 2 2 - dcm_e2n 2 1 * dcm_e2n 1 0 - dcm_e2n 2 2 * dcm_e2n 2 0)
      let coef := pow2 E.Omega_Earth * 2 * Rn_1
      let A := assign A 0 3 (A 0 3 * coef)
      let A := assign A 0 4 (A 0 4 * coef)
      let A := assign A 1 3 (A 1 3 * coef)
      let A := assign A 1 4 (A 1 4 * coef)
      let A := assign A 2 3 (A 2 3 * coef)
      let A := assign A 2 4 (A 2 4 * coef)
      let A := assign A 0 6
        (A 0 6 - (dcm_e2n 0 0 * dcm_e2n 2 0 - dcm_e2n 0 1 * dcm_e2n 2 1) * pow2 E.Omega_Earth)
      let A := assign A 1 6
        (A 1 6 - (dcm_e2n 1 0 * dcm_e2n 2 0 - dcm_e2n 1 1 * dcm_e2n 2 1) * pow2 E.Omega_Earth)
      let A := assign A 2 6
        (A 2 6 - (dcm_e2n 2 0 * dcm_e2n 2 0 - dcm_e2n 2 1 * dcm_e2n 2 1) * pow2 E.Omega_Earth)
      A
    else A
  -- horizontal position rows
  let A := assign A 3 0 (-dcm_e2n 1 0 / 2 / Rm_1)
  let A := assign A 3 1 (dcm_e2n 0 0 / 2 / Rn_1)
  let A := assign A 3 6 ((dcm_e2n 1 0 * get 0 / Rm_2 - dcm_e2n 0 0 * get 1 / Rn_2) / 2)
  let A := assign A 4 0 (-dcm_e2n 1 1 / 2 / Rm_1)
  let A := assign A 4 1 (dcm_e2n 0 1 / 2 / Rn_1)
  let A := assign A 4 6 ((dcm_e2n 1 1 * get 0 / Rm_2 - dcm_e2n 0 1 * get 1 / Rn_2) / 2)
  let A := assign A 5 0 (-dcm_e2n 1 2 / 2 / Rm_1)
  let A := assign A 5 1 (dcm_e2n 0 2 / 2 / Rn_1)
  let A := assign A 5 6 ((dcm_e2n 1 2 * get 0 / Rm_2 - dcm_e2n 0 2 * get 1 / Rn_2) / 2)
  -- altitude row
  let A := assign A 6 2 (-1)
  -- attitude rows
  let omega_2 : Vector3 F := fun i => s.omega_e2i_4n i + s.omega_n2e_4n i
  let A := assign A 7 1 (-1 / Rn_1 / 2)
  let A := assign A 7 3 (-E.Omega_Earth * dcm_e2n 0 1)
  let A := assign A 7 4 (E.Omega_Earth * dcm_e2n 0 0)
  let A := assign A 7 6 (get 1 / Rn_2 / 2)
  let A := assign A 7 8 (omega_2 2)
  let A := assign A 7 9 (-omega_2 1)
  let A := assign A 8 0 (1 / Rm_1 / 2)
  let A := assign A 8 3 (-E.Omega_Earth * dcm_e2n 1 1)
  let A := assign A 8 4 (E.Omega_Earth * dcm_e2n 1 0)
  let A := assign A 8 6 (-get 0 / Rm_2 / 2)
  let A := assign A 8 7 (-omega_2 2)
  let A := assign A 8 9 (omega_2 0)
  let A := assign A 9 3 (-E.Omega_Earth * dcm_e2n 2 1)
  let A := assign A 9 4 (E.Omega_Earth * dcm_e2n 2 0)
  let A := assign A 9 7 (omega_2 1)
  let A := assign A 9 8 (-omega_2 0)
  A

/-- The four-argument `getA(accel, gyro, dcm_e2n, dcm_n2b)`: the 10 x 10 matrix
built from `A_serialized`. -/
def getA (E : Earth F) (cfg : Config) (s : INS F)
    (accel gyro : Vector3 F) (dcm_e2n dcm_n2b : DCM F) : Matrix F :=
  ⟨P_SIZE, P_SIZE, fun i j => A_serialized E cfg s accel gyro dcm_e2n dcm_n2b i.val j.val⟩

/-- The two-argument `getA(accel, gyro)`: both DCMs come from the nominal
attitude quaternions. -/
def getA_nominal (E : Earth F) (M : Strapdown F) (cfg : Config) (s : INS F)
    (accel gyro : Vector3 F) : Matrix F :=
  getA E cfg s accel gyro (M.getDCM s.q_e2n) (M.getDCM s.q_n2b)

/-- The two-argument `getB(accel, gyro)`: the DCM comes from the nominal
nav-to-body quaternion. -/
def getB_nominal (M : Strapdown F) (s : INS F) (accel gyro : Vector3 F) : Matrix F :=
  getB accel gyro (M.getDCM s.q_n2b)

/-! ## The estimator object: time update and measurement update -/

/-- The object `Filtered_INS2<FloatT, Filter>`: the base-class part `INS<FloatT>`
and the member `m_filter`. -/
structure Filtered_INS2 (F Filter : Type) where
  ins : INS F
  m_filter : Filter

/-- How a call leaves the object: it returns, or an error signalled by a
collaborator propagates out of it (section 7: the estimator neither catches
nor recovers). In both cases `state` is what the object then holds. -/
inductive Outcome (σ : Type) where
  | returned (state : σ)
  | failed (state : σ)

/-- The object state an outcome leaves behind. -/
def Outcome.state {σ : Type} : Outcome σ → σ
  | .returned s => s
  | .failed s => s

/-- Sequencing: the next statement runs only when the previous one returned. -/
def Outcome.andThen {σ : Type} (o : Outcome σ) (f : σ → Outcome σ) : Outcome σ :=
  match o with
  | .returned s => f s
  | .failed s => .failed s

/-- The default `before_update_INS`: does nothing. -/
def before_update_INS {Filter : Type} (_A _B : Matrix F) (_deltaT : F)
    (self : Filtered_INS2 F Filter) : Filtered_INS2 F Filter := self

/-- The default `before_correct_INS`: does nothing, `x_hat` is left as it is. -/
def before_correct_INS {Filter : Type} (_H _R _K _v : Matrix F) (x_hat : Matrix F)
    (self : Filtered_INS2 F Filter) : Filtered_INS2 F Filter × Matrix F := (self, x_hat)

/-- The method `update(accel, gyro, deltaT)`. The virtual hook is a parameter
`hook` acting on the object. -/
def update {Filter : Type} (E : Earth F) (M : Strapdown F) (KF : KalmanFilter F Filter)
    (cfg : Config)
    (hook : Matrix F → Matrix F → F → Filtered_INS2 F Filter → Filtered_INS2 F Filter)
    (self : Filtered_INS2 F Filter) (accel gyro : Vector3 F) (deltaT : F) :
    Filtered_INS2 F Filter :=
  let dcm_e2n := M.getDCM self.ins.q_e2n
  let dcm_n2b := M.getDCM self.ins.q_n2b
  let A := getA E cfg self.ins accel gyro dcm_e2n dcm_n2b
  let B := getB accel gyro dcm_n2b
  let self := { self with m_filter := KF.predict self.m_filter A B deltaT }
  let self := hook A B deltaT self
  { self with ins := M.update self.ins accel gyro deltaT }

/-- The statement `(*this)[index] -= x_hat(row, 0)`. -/
def subtract_at (x_hat : Matrix F) (row index : Nat) (s : INS F) : Outcome (INS F) :=
  match x_hat.entry row 0 with
  | some x => .returned (s.set index (s.get index - x))
  | none => .failed s

/-- A loop `for i in rows: (*this)[i + offset] -= x_hat(i, 0)`. -/
def subtract_loop (x_hat : Matrix F) (offset : Nat) : List Nat → INS F → Outcome (INS F)
  | [], s => .returned s
  | i :: rest, s =>
    (subtract_at x_hat i (i + offset) s).andThen (subtract_loop x_hat offset rest)

/-- The constructor call
`Quaternion(1, -x_hat(r, 0), -x_hat(r + 1, 0), -x_hat(r + 2, 0))`. -/
def delta_q (x_hat : Matrix F) (r : Nat) : Option (Quaternion F) :=
  match x_hat.entry r 0, x_hat.entry (r + 1) 0, x_hat.entry (r + 2) 0 with
  | some a, some b, some c => some ⟨1, -a, -b, -c⟩
  | _, _, _ => none

/-- The method `correct_INS(x_hat)` on the base-class part of the object. -/
def correct_INS (M : Strapdown F) (x_hat : Matrix F) (s : INS F) : Outcome (INS F) :=
  (subtract_loop x_hat 0 (List.range' 0 3) s).andThen fun s =>
  match delta_q x_hat 3 with
  | none => .failed s
  | some delta_q_e2n =>
    let s := { s with q_e2n := delta_q_e2n.mul s.q_e2n }
    (subtract_at x_hat 6 7 s).andThen fun s =>
    match delta_q x_hat 7 with
    | none => .failed s
    | some delta_q_n2b =>
      let s := { s with q_n2b := delta_q_n2b.mul s.q_n2b }
      (subtract_loop x_hat 2 (List.range' 10 (x_hat.rows - 10)) s).andThen fun s =>
      .returned (s.recalc M)

/-- Run a method of the base-class part on the whole object. -/
def onINS {Filter : Type} (self : Filtered_INS2 F Filter) :
    Outcome (INS F) → Outcome (Filtered_INS2 F Filter)
  | .returned ins => .returned { self with ins := ins }
  | .failed ins => .failed { self with ins := ins }

/-- The method `correct(H, z, R)`. The virtual hook is a parameter `hook` that
acts on the object and on `x_hat`, which it receives by reference. -/
def correct {Filter : Type} (M : Strapdown F) (KF : KalmanFilter F Filter)
    (hook : Matrix F → Matrix F → Matrix F → Matrix F → Matrix F →
      Filtered_INS2 F Filter → Filtered_INS2 F Filter × Matrix F)
    (self : Filtered_INS2 F Filter) (H z R : Matrix F) :
    Outcome (Filtered_INS2 F Filter) :=
  let K := (KF.correct self.m_filter H R).2
  let self := { self with m_filter := (KF.correct self.m_filter H R).1 }
  match Matrix.mul K z with
  | none => .failed self
  | some x_hat =>
    let hooked := hook H R K z x_hat self
    let self := hooked.1
    let x_hat := hooked.2
    onINS self (correct_INS M x_hat self.ins)

/-- The entry `x_hat(i, 0)` where there is one, and zero outside the matrix;
used to name the entries of a column vector in statements. -/
def Matrix.col0 (m : Matrix F) (i : Nat) : F := (m.entry i 0).getD 0

/-- Squared Euclidean norm of the first column of a matrix. -/
def Matrix.norm2 (m : Matrix F) : F :=
  (Finset.range m.rows).sum fun i => m.col0 i * m.col0 i

/-! ## Names for the locals of `getA` -/

/-- The local `omega_1` of `getA`: `omega_e2i_4n * 2 + omega_n2e_4n`. -/
def omega_1 (s : INS F) : Vector3 F := fun i => s.omega_e2i_4n i * 2 + s.omega_n2e_4n i

/-- The local `omega_2` of `getA`: `omega_e2i_4n + omega_n2e_4n`. -/
def omega_2 (s : INS F) : Vector3 F := fun i => s.omega_e2i_4n i + s.omega_n2e_4n i

/-- The local `Rn_1` of `getA`: `R_normal(phi) + get(7)` with `R_STRICT`, else the
macro `Rn_1` for `R = R_e + get(7)`. -/
def Rn_1 (E : Earth F) (cfg : Config) (s : INS F) : F :=
  if cfg.R_STRICT then E.R_normal s.phi + s.get 7 else E.R_e + s.get 7

/-- The local `Rm_1` of `getA`: `R_meridian(phi) + get(7)` with `R_STRICT`, else
the macro `Rm_1` for `R = R_e + get(7)`. -/
def Rm_1 (E : Earth F) (cfg : Config) (s : INS F) : F :=
  if cfg.R_STRICT then E.R_meridian s.phi + s.get 7 else E.R_e + s.get 7

/-- The local `coef` of the centripetal block: `pow2(Omega_Earth) * 2 * Rn_1`. -/
def coef (E : Earth F) (cfg : Config) (s : INS F) : F :=
  pow2 E.Omega_Earth * 2 * Rn_1 E cfg s

/-- The sums of products of `dcm_e2n` entries that the centripetal block writes
into `by_delta_r(i, j)` before the multiplication by `coef`. -/
def by_delta_r (dcm_e2n : DCM F) : Fin 3 → Fin 2 → F :=
  ![![dcm_e2n 0 0 * dcm_e2n 1 0 + dcm_e2n 0 1 * dcm_e2n 2 2 + dcm_e2n 0 2 * dcm_e2n 2 1,
      -dcm_e2n 0 0 * dcm_e2n 2 2 + dcm_e2n 0 1 * dcm_e2n 1 0 - dcm_e2n 0 2 * dcm_e2n 2 0],
    ![pow2 (dcm_e2n 1 0) + dcm_e2n 1 1 * dcm_e2n 2 2 + dcm_e2n 1 2 * dcm_e2n 2 1,
      -dcm_e2n 1 0 * dcm_e2n 2 2 - dcm_e2n 1 1 * dcm_e2n 1 0 - dcm_e2n 1 2 * dcm_e2n 2 0],
    ![dcm_e2n 2 0 * dcm_e2n 1 0 + dcm_e2n 2 1 * dcm_e2n 2 2 + dcm_e2n 2 2 * dcm_e2n 2 1,
      -dcm_e2n 2 0 * dcm_e2n 2 2 - dcm_e2n 2 1 * dcm_e2n 1 0 - dcm_e2n 2 2 * dcm_e2n 2 0]]

/-- Cross product of two 3-vectors. -/
def cross (u w : Vector3 F) : Vector3 F :=
  ![u 1 * w 2 - u 2 * w 1, u 2 * w 0 - u 0 * w 2, u 0 * w 1 - u 1 * w 0]

/-- The measured specific force in the navigation frame as `getA` forms it:
`f_k = Σ_j dcm_n2b(j, k) * accel(j)`, that is `transpose(dcm_n2b) * accel`. -/
def lever_force (accel : Vector3 F) (dcm_n2b : DCM F) : Vector3 F :=
  fun k => dcm_n2b 0 k * accel 0 + dcm_n2b 1 k * accel 1 + dcm_n2b 2 k * accel 2

/-! ## Concrete inputs over the rationals -/

/-- The square root of a rational number that is the square of a rational
number, for concrete runs. -/
def ratSqrt (x : ℚ) : ℚ := (Nat.sqrt x.num.toNat : ℚ) / (Nat.sqrt x.den : ℚ)

/-- A mechanizer for concrete runs: identity DCM, propagation adds `deltaT` times
the acceleration to the velocity, derived quantities read off the state, exact
square roots of rational squares. -/
def sampleStrapdown : Strapdown ℚ where
  getDCM := fun _ i j => if i = j then 1 else 0
  update := fun s accel _ deltaT => { s with v := fun i => s.v i + deltaT * accel i }
  phi := fun s => s.h
  omega_e2i_4n := fun s => s.v
  omega_n2e_4n := fun s => s.v
  sqrt := ratSqrt

/-- A nominal state for concrete runs; auxiliary state `k` holds `k`. -/
def sampleINS : INS ℚ where
  v := ![1, 2, 3]
  q_e2n := ⟨1, 0, 0, 0⟩
  h := 100
  q_n2b := ⟨0, 1, 0, 0⟩
  aux := fun k => k
  phi := 0
  omega_e2i_4n := ![0, 0, 0]
  omega_n2e_4n := ![0, 0, 0]

/-- A filter for concrete runs: its state counts the calls, and `correct` returns
the 12 x 1 gain with entries 1, 2, ..., 12. -/
def sampleFilter : KalmanFilter ℚ Nat where
  predict := fun n _ _ _ => n + 1
  correct := fun n _ _ => (n + 1, Matrix.column ![1, 2, 3, 4, 5, 6, 7, 8, 9, 10, 11, 12])

/-- An estimator object for concrete runs. -/
def sampleObject : Filtered_INS2 ℚ Nat := ⟨sampleINS, 0⟩

/-- A filter for concrete runs whose gain is the 10 x 1 column with a single 1 in
row 3. -/
def smallGainFilter : KalmanFilter ℚ Nat where
  predict := fun n _ _ _ => n + 1
  correct := fun n _ _ => (n + 1, Matrix.single 10 3 1)

/-- A filter for concrete runs whose gain has only three rows, all 1. -/
def shortGainFilter : KalmanFilter ℚ Nat where
  predict := fun n _ _ _ => n + 1
  correct := fun n _ _ => (n + 1, Matrix.column ![1, 1, 1])

/-- A spherical Earth for concrete runs: both radii of curvature equal `R_e`,
rotation rate 1. -/
def sampleEarth : Earth ℚ where
  R_normal := fun _ => 1000
  R_meridian := fun _ => 1000
  R_e := 1000
  Omega_Earth := 1

/-- A spherical, non-rotating Earth for concrete runs. -/
def stillEarth : Earth ℚ where
  R_normal := fun _ => 1000
  R_meridian := fun _ => 1000
  R_e := 1000
  Omega_Earth := 0

/-- The identity direction cosine matrix. -/
def identityDCM : DCM ℚ := fun i j => if i = j then 1 else 0

/-- A quarter turn about the third axis, as a direction cosine matrix. -/
def quarterTurnDCM : DCM ℚ := ![![0, -1, 0], ![1, 0, 0], ![0, 0, 1]]

/-- The identity DCM with its third column replaced by (5, 6, 7). -/
def thirdColumnDCM : DCM ℚ := ![![1, 0, 5], ![0, 1, 6], ![0, 0, 7]]

/-- An error estimate with twelve rows. -/
def sampleXhat : Matrix ℚ := Matrix.column ![1, 1, 1, 1 / 2, 0, 0, 5, 0, 1 / 2, 0, 7, 8]

end Navigation

/-! # Complex numbers (`tool/param/complex.h`)

`Complex<FloatT>` over a field `F`. A destructive operator (`+=`, `*=`, `/=`) is
the function from the old value of `*this` to the new one, which is also what
the operator returns. -/

namespace Param

variable {F : Type} [Field F]

/-- The class `Complex<FloatT>`: real part `m_Real`, imaginary part
`m_Imaginary`. -/
structure Complex (F : Type) where
  m_Real : F
  m_Imaginary : F

/-- The constructor `Complex(real)`: the imaginary part is zero. -/
def Complex.ofReal (real : F) : Complex F := ⟨real, 0⟩

/-- The method `abs2()`: `pow(m_Real, 2) + pow(m_Imaginary, 2)`. -/
def Complex.abs2 (z : Complex F) : F := z.m_Real ^ 2 + z.m_Imaginary ^ 2

/-- The method `conjugate()`: a copy whose imaginary part is multiplied by -1. -/
def Complex.conjugate (z : Complex F) : Complex F :=
  { z with m_Imaginary := z.m_Imaginary * -1 }

/-- `operator+=(const FloatT &scalar)`. -/
def Complex.add_assign_scalar (z : Complex F) (scalar : F) : Complex F :=
  { z with m_Real := z.m_Real + scalar }

/-- `operator+(const FloatT &scalar)`: `+=` on a copy. -/
def Complex.add_scalar (z : Complex F) (scalar : F) : Complex F :=
  z.add_assign_scalar scalar

/-- The friend `operator+(scalar, complex)`: `complex + scalar`. -/
def Complex.scalar_add (scalar : F) (complex : Complex F) : Complex F :=
  complex.add_scalar scalar

/-- `operator-=(const FloatT &scalar)`: `(*this) += (-scalar)`. -/
def Complex.sub_assign_scalar (z : Complex F) (scalar : F) : Complex F :=
  z.add_assign_scalar (-scalar)

/-- `operator-(const FloatT &scalar)`: `(*this) + (-scalar)`. -/
def Complex.sub_scalar (z : Complex F) (scalar : F) : Complex F :=
  z.add_scalar (-scalar)

/-- The friend `operator-(scalar, complex)`: `return (complex - scalar);`. -/
def Complex.scalar_sub (scalar : F) (complex : Complex F) : Complex F :=
  complex.sub_scalar scalar

/-- `operator*=(const FloatT &scalar)`. -/
def Complex.mul_assign_scalar (z : Complex F) (scalar : F) : Complex F :=
  ⟨z.m_Real * scalar, z.m_Imaginary * scalar⟩

/-- `operator*(const FloatT &scalar)`: `*=` on a copy. -/
def Complex.mul_scalar (z : Complex F) (scalar : F) : Complex F :=
  z.mul_assign_scalar scalar

/-- The friend `operator*(scalar, complex)`: `complex * scalar`. -/
def Complex.scalar_mul (scalar : F) (complex : Complex F) : Complex F :=
  complex.mul_scalar scalar

/-- `operator/=(const FloatT &scalar)`: `(*this) *= (1/scalar)`. -/
def Complex.div_assign_scalar (z : Complex F) (scalar : F) : Complex F :=
  z.mul_assign_scalar (1 / scalar)

/-- `operator/(const FloatT &scalar)`: `(*this) * (1/scalar)`. -/
def Complex.div_scalar (z : Complex F) (scalar : F) : Complex F :=
  z.mul_scalar (1 / scalar)

/-- The unary `operator-()`: `(*this) * -1`. -/
def Complex.neg (z : Complex F) : Complex F := z.mul_scalar (-1)

/-- `operator+=(const Complex &complex)`. -/
def Complex.add_assign (z complex : Complex F) : Complex F :=
  ⟨z.m_Real + complex.m_Real, z.m_Imaginary + complex.m_Imaginary⟩

/-- `operator+(const Complex &complex)`: `+=` on a copy. -/
def Complex.add (z complex : Complex F) : Complex F := z.add_assign complex

/-- `operator-=(const Complex &complex)`: `(*this) += (-complex)`. -/
def Complex.sub_assign (z complex : Complex F) : Complex F := z.add_assign complex.neg

/-- `operator-(const Complex &complex)`: `(-complex) += (*this)`. -/
def Complex.sub (z complex : Complex F) : Complex F := complex.neg.add_assign z

/-- `operator*(const Complex &complex)`. -/
def Complex.mul (z complex : Complex F) : Complex F :=
  ⟨z.m_Real * complex.m_Real - z.m_Imaginary * complex.m_Imaginary,
   z.m_Real * complex.m_Imaginary + z.m_Imaginary * complex.m_Real⟩

/-- `operator*=(const Complex &complex)`, computed from a copy of `*this`. -/
def Complex.mul_assign (z complex : Complex F) : Complex F :=
  let copy := z
  ⟨copy.m_Real * complex.m_Real - copy.m_Imaginary * complex.m_Imaginary,
   copy.m_Real * complex.m_Imaginary + copy.m_Imaginary * complex.m_Real⟩

/-- `operator/=(const Complex &complex)`:
`(*this) *= (complex.conjugate() / complex.abs2())`. -/
def Complex.div_assign (z complex : Complex F) : Complex F :=
  z.mul_assign (complex.conjugate.div_scalar complex.abs2)

/-- `operator/(const Complex &complex)`: `/=` on a copy. -/
def Complex.div (z complex : Complex F) : Complex F :=
  let copy := z
  copy.div_assign complex

/-- The friend `operator/(scalar, complex)`: `Complex(scalar) / complex`. -/
def Complex.scalar_div (scalar : F) (complex : Complex F) : Complex F :=
  (Complex.ofReal scalar).div complex

end Param

/-! # Firmware (`firmware/main.c`) -/

namespace Firmware

/-- The fields of `struct tm` that `get_fattime` reads through `GET_TM_ITEM`:
the year counts from 1900 and is an `int`, the other fields are unsigned. -/
structure Tm where
  tm_sec : Nat
  tm_min : Nat
  tm_hour : Nat
  tm_mday : Nat
  tm_mon : Nat
  tm_year : Int

/-- Conversion of an `int` value to the 32-bit unsigned `DWORD`. -/
def DWORD (x : Int) : Nat := (x % 2 ^ 32).toNat

/-- The statement `res <<= n` on a `DWORD`. -/
def shl32 (res n : Nat) : Nat := (res <<< n) % 2 ^ 32

/-- The function `get_fattime()`. `res` is the value of the static variable on
entry; `time` is the time the function reads, `none` when there is none
(`timer == 0`, or `gps_utc_valid` false). The result is both the returned value
and the new value of the static variable. -/
def get_fattime (res : Nat) (time : Option Tm) : Nat :=
  match time with
  | none => res
  | some t =>
    let res := DWORD (t.tm_year + 1900 - 1980)
    let res := shl32 res 4
    let res := res ||| DWORD (t.tm_mon + 1)
    let res := shl32 res 5
    let res := res ||| DWORD t.tm_mday
    let res := shl32 res 5
    let res := res ||| DWORD t.tm_hour
    let res := shl32 res 6
    let res := res ||| DWORD t.tm_min
    let res := shl32 res 5
    let res := res ||| DWORD (t.tm_sec / 2)
    res

/-- A time for concrete runs: 2015-06-15 12:34:56. -/
def sampleTime : Tm := ⟨56, 34, 12, 15, 5, 115⟩

/-! ## The timer-3 interrupt -/

/-- The four `static u8` variables of `interrupt_timer3`. No other code can name
them. -/
structure Timer3Statics where
  loop_50ms : Nat
  snapshot_gps : Nat
  snapshot_state : Nat
  loop_10s : Nat

/-- The globals and special function registers that `interrupt_timer3` reads or
writes: `global_ms` and `tickcount` are `u32`, the other numbers are `u8`. -/
structure Timer3Globals where
  TMR3CN : Nat
  P2 : Nat
  mpu6000_capture : Bool
  mag3110_capture : Bool
  ms5611_capture : Bool
  global_ms : Nat
  tickcount : Nat
  timeout_10ms : Nat
  sys_state : Nat
  gps_num_of_sat : Nat

/-- What one run of `interrupt_timer3` leaves: the globals and the statics. -/
structure Timer3Step where
  globals : Timer3Globals
  statics : Timer3Statics

/-- The initial values of the statics: all four are initialised with 0. -/
def Timer3Statics.init : Timer3Statics := ⟨0, 0, 0, 0⟩

/-- The first part of `interrupt_timer3()`, up to the end of the `switch` on
`tickcount`: the interrupt flag is cleared, the capture flags are raised and the
clocks advance. `u32` increments are taken modulo 2^32, the `u8` increment
modulo 2^8. The macro `u32_lsbyte` comes from a header that is not among the
sources and is a parameter. -/
def timer3_tick (u32_lsbyte : Nat → Nat) (g : Timer3Globals) : Timer3Globals :=
  let g := { g with TMR3CN := g.TMR3CN &&& 0x7F }
  let g := { g with mpu6000_capture := true }
  let g := { g with global_ms := (g.global_ms + 10) % 2 ^ 32 }
  let g := { g with tickcount := (g.tickcount + 1) % 2 ^ 32 }
  let g := { g with timeout_10ms := (g.timeout_10ms + 1) % 2 ^ 8 }
  if u32_lsbyte g.tickcount % 16 = 4 then { g with mag3110_capture := true }
  else if u32_lsbyte g.tickcount % 16 = 8 then { g with ms5611_capture := true }
  else if u32_lsbyte g.tickcount % 16 = 12 then { g with ms5611_capture := true }
  else g

/-- The last part of `interrupt_timer3()`, the statement
`switch(++loop_10s % 5)` that runs on every fifth call. The constant
`SYS_PERIODIC_ACTIVE` comes from a header that is not among the sources and is a
parameter. -/
def timer3_blink (SYS_PERIODIC_ACTIVE : Nat) (g : Timer3Globals) (st : Timer3Statics) :
    Timer3Step :=
  let st := { st with loop_10s := (st.loop_10s + 1) % 2 ^ 8 }
  if st.loop_10s % 5 = 0 then
    let r : Timer3Step :=
      if st.loop_10s % 8 = 0 then
        let st := { st with snapshot_state := (SYS_PERIODIC_ACTIVE ||| g.sys_state) % 2 ^ 8 }
        let g := { g with sys_state := 0 }
        if st.loop_10s ≥ 200 then
          ⟨g, { st with loop_10s := 0, snapshot_gps := g.gps_num_of_sat }⟩
        else ⟨g, st⟩
      else ⟨g, st⟩
    let r : Timer3Step :=
      if r.statics.snapshot_gps > 0 then
        { r with
          globals := { r.globals with P2 := r.globals.P2 ||| 0x04 }
          statics := { r.statics with snapshot_gps := r.statics.snapshot_gps - 1 } }
      else r
    if r.statics.snapshot_state &&& 0x01 ≠ 0 then
      { r with globals := { r.globals with P2 := r.globals.P2 ||| 0x08 } }
    else r
  else if st.loop_10s % 5 = 1 then
    ⟨{ g with P2 := g.P2 &&& 0xF3 }, { st with snapshot_state := st.snapshot_state >>> 1 }⟩
  else ⟨g, st⟩

/-- The interrupt routine `interrupt_timer3()`: the first part, then
`if(++loop_50ms < 5){return;}`, `loop_50ms = 0` and the last part. Each `switch`
is the chain of tests of its case labels. -/
def interrupt_timer3 (SYS_PERIODIC_ACTIVE : Nat) (u32_lsbyte : Nat → Nat)
    (g : Timer3Globals) (st : Timer3Statics) : Timer3Step :=
  let g := timer3_tick u32_lsbyte g
  let st := { st with loop_50ms := (st.loop_50ms + 1) % 2 ^ 8 }
  if st.loop_50ms < 5 then ⟨g, st⟩
  else
    let st := { st with loop_50ms := 0 }
    timer3_blink SYS_PERIODIC_ACTIVE g st

/-- The result of the `n`-th run of `interrupt_timer3` since start-up, for
`n ≥ 1`; for `n = 0` the state at start-up. Between two runs the rest of the
firmware may change the globals: `env k` is what it does to them before run
`k + 1`. The statics start from their initialisers and only the routine itself
changes them. -/
def timer3_invocations (SYS_PERIODIC_ACTIVE : Nat) (u32_lsbyte : Nat → Nat)
    (env : Nat → Timer3Globals → Timer3Globals) (g0 : Timer3Globals) : Nat → Timer3Step
  | 0 => ⟨g0, Timer3Statics.init⟩
  | n + 1 =>
    let r := timer3_invocations SYS_PERIODIC_ACTIVE u32_lsbyte env g0 n
    interrupt_timer3 SYS_PERIODIC_ACTIVE u32_lsbyte (env n r.globals) r.statics

/-- Globals for concrete runs: everything zero except three satellites in view
and `sys_state = 5`. -/
def sampleGlobals : Timer3Globals := ⟨0, 0, false, false, false, 0, 0, 0, 5, 3⟩

end Firmware

namespace Navigation

set_option linter.unusedSectionVars false

variable {F : Type} [Field F]

/-! ## Theorems -/

/-! ### Reading matrices -/

/-- Inside a matrix with at least one column, `m(r, 0)` reads the entry. -/
theorem Matrix.entry_col0 (m : Matrix F) (r : Nat) (hr : r < m.rows) (hc : 0 < m.columns) :
    m.entry r 0 = some (m.col0 r) := by
  have h : r < m.rows ∧ 0 < m.columns := ⟨hr, hc⟩
  simp [Matrix.col0, Matrix.entry, h]

/-! ### The nominal state as an indexed vector -/

/-- Reading the entry just written. -/
theorem INS.get_set_same (s : INS F) (i : Nat) (x : F) : (s.set i x).get i = x := by
  match i with
  | 0 | 1 | 2 | 3 | 4 | 5 | 6 | 7 | 8 | 9 | 10 | 11 => simp [INS.set, INS.get]
  | k + 12 => simp [INS.set, INS.get]

/-! ### Steps of `correct_INS` -/

/-- With the row present, `(*this)[index] -= x_hat(row, 0)` returns. -/
theorem subtract_at_present (x_hat : Matrix F) (row index : Nat) (s : INS F)
    (hr : row < x_hat.rows) (hc : 0 < x_hat.columns) :
    subtract_at x_hat row index s
      = .returned (s.set index (s.get index - x_hat.col0 row)) := by
  simp [subtract_at, Matrix.entry_col0 x_hat row hr hc]

/-- With the three rows present, the correction quaternion is built. -/
theorem delta_q_present (x_hat : Matrix F) (r : Nat)
    (hr : r + 2 < x_hat.rows) (hc : 0 < x_hat.columns) :
    delta_q x_hat r
      = some ⟨1, -x_hat.col0 r, -x_hat.col0 (r + 1), -x_hat.col0 (r + 2)⟩ := by
  simp [delta_q, Matrix.entry_col0 x_hat r (by omega) hc,
    Matrix.entry_col0 x_hat (r + 1) (by omega) hc, Matrix.entry_col0 x_hat (r + 2) hr hc]

/-- The auxiliary-state loop over rows `a + 10, ..., a + 10 + n - 1`, all present:
it returns, and only the auxiliary states `a, ..., a + n - 1` are written. -/
theorem subtract_loop_aux (x_hat : Matrix F) (hc : 0 < x_hat.columns) (n : Nat) :
    ∀ (a : Nat) (s : INS F), a + 10 + n ≤ x_hat.rows →
      subtract_loop x_hat 2 (List.range' (a + 10) n) s
        = .returned { s with aux := fun k =>
            if a ≤ k ∧ k < a + n then s.aux k - x_hat.col0 (k + 10) else s.aux k } := by
  induction n with
  | zero =>
    intro a s _
    have h : (fun k => if a ≤ k ∧ k < a + 0 then s.aux k - x_hat.col0 (k + 10) else s.aux k)
        = s.aux := by
      funext k
      have hk : ¬(a ≤ k ∧ k < a + 0) := by omega
      simp [hk]
    simp only [List.range'_zero, subtract_loop, h]
  | succ n ih =>
    intro a s hle
    have step : subtract_at x_hat (a + 10) (a + 10 + 2) s
        = .returned { s with aux := Function.update s.aux a (s.aux a - x_hat.col0 (a + 10)) } :=
      subtract_at_present x_hat (a + 10) (a + 10 + 2) s (by omega) hc
    have hrange : List.range' (a + 10) (n + 1) = (a + 10) :: List.range' (a + 1 + 10) n := by
      rw [List.range'_succ]
    rw [hrange, subtract_loop, step, Outcome.andThen, ih (a + 1) _ (by omega)]
    congr 1
    congr 1
    funext k
    by_cases hk : k = a
    · subst hk
      simp
    · have h1 : (a + 1 ≤ k ∧ k < a + 1 + n) ↔ (a ≤ k ∧ k < a + (n + 1)) := by omega
      simp [Function.update_noteq hk, h1]

/-- Closed form of `correct_INS` on a column vector with at least ten rows: the
call returns, and the object then holds the state written out here. -/
theorem correct_INS_returned (M : Strapdown F) (x_hat : Matrix F) (s : INS F)
    (hr : 10 ≤ x_hat.rows) (hc : 0 < x_hat.columns) :
    correct_INS M x_hat s = .returned (INS.recalc M
      { s with
        v := fun i => s.v i - x_hat.col0 i.val
        q_e2n := Quaternion.mul ⟨1, -x_hat.col0 3, -x_hat.col0 4, -x_hat.col0 5⟩ s.q_e2n
        h := s.h - x_hat.col0 6
        q_n2b := Quaternion.mul ⟨1, -x_hat.col0 7, -x_hat.col0 8, -x_hat.col0 9⟩ s.q_n2b
        aux := fun k =>
          if k + 10 < x_hat.rows then s.aux k - x_hat.col0 (k + 10) else s.aux k }) := by
  have hv : Function.update (Function.update (Function.update s.v 0 (s.v 0 - x_hat.col0 0))
      1 (s.v 1 - x_hat.col0 1)) 2 (s.v 2 - x_hat.col0 2) = fun i => s.v i - x_hat.col0 i.val := by
    funext i
    fin_cases i <;> simp
  have hloop := subtract_loop_aux x_hat hc (x_hat.rows - 10) 0
  simp only [Nat.zero_add] at hloop
  have haux : ∀ k, k < x_hat.rows - 10 ↔ k + 10 < x_hat.rows := by
    intro k
    omega
  simp only [correct_INS, List.range', subtract_loop, Outcome.andThen,
    subtract_at_present x_hat 0 _ _ (by omega) hc,
    subtract_at_present x_hat 1 _ _ (by omega) hc,
    subtract_at_present x_hat 2 _ _ (by omega) hc,
    subtract_at_present x_hat 6 _ _ (by omega) hc,
    delta_q_present x_hat 3 (by omega) hc, delta_q_present x_hat 7 (by omega) hc]
  rw [hloop _ (by omega)]
  simp [INS.set, INS.get, hv, haux]

/-! ### A null error estimate -/

/-- The entries of a column with a single nonzero row. -/
theorem Matrix.single_col0 (rows k i : Nat) (c : F) :
    (Matrix.single rows k c).col0 i = if i < rows ∧ i = k then c else 0 := by
  unfold Matrix.col0 Matrix.entry
  by_cases h : i < rows
  · have h2 : i < (Matrix.single rows k c).rows ∧ 0 < (Matrix.single rows k c).columns :=
      ⟨h, Nat.one_pos⟩
    simp [dif_pos h2, Matrix.single, h]
  · have h2 : ¬(i < (Matrix.single rows k c).rows ∧ 0 < (Matrix.single rows k c).columns) :=
      fun hh => h hh.1
    simp [dif_neg h2, h]

/-! ### Norms -/

/-- Squared norm after the multiplicative update: the correction
`(1, -a, -b, -c)` scales the squared norm by `1 + a² + b² + c²`. -/
theorem Quaternion.abs2_delta_mul (a b c : F) (q : Quaternion F) :
    (Quaternion.mul ⟨1, -a, -b, -c⟩ q).abs2 = (1 + (a * a + b * b + c * c)) * q.abs2 := by
  simp only [Quaternion.mul, Quaternion.abs2]
  ring

/-- A renormalized quaternion has unit norm, provided the square root is exact
at its squared norm and the quaternion is not zero. -/
theorem Quaternion.abs2_renormalize (sqrt : F → F) (q : Quaternion F)
    (hs : sqrt q.abs2 * sqrt q.abs2 = q.abs2) (h0 : q.abs2 ≠ 0) :
    (q.renormalize sqrt).abs2 = 1 := by
  have hr : sqrt q.abs2 ≠ 0 := by
    intro h
    rw [h, mul_zero] at hs
    exact h0 hs.symm
  have e : (q.renormalize sqrt).abs2 = q.abs2 / (sqrt q.abs2 * sqrt q.abs2) := by
    simp only [Quaternion.renormalize, Quaternion.abs2]
    field_simp
  rw [e, hs, div_self h0]

/-- The sample square root is exact on squares of nonnegative rationals. -/
theorem ratSqrt_mul_self (a : ℚ) (ha : 0 ≤ a) : ratSqrt (a * a) = a := by
  have hn : 0 ≤ a.num := Rat.num_nonneg.mpr ha
  obtain ⟨n, hn'⟩ := Int.eq_ofNat_of_zero_le hn
  unfold ratSqrt
  rw [Rat.mul_self_num, Rat.mul_self_den, hn']
  have e : ((n : Int) * (n : Int)).toNat = n * n := by
    rw [← Int.natCast_mul, Int.toNat_natCast]
  rw [e, Nat.sqrt_eq, Nat.sqrt_eq]
  have h := Rat.num_div_den a
  rw [hn', Int.cast_natCast] at h
  exact h

/-- The sample square root at the values that occur in the concrete runs. -/
theorem ratSqrt_values :
    ratSqrt 1 = 1 ∧ ratSqrt 4 = 2 ∧ ratSqrt (1 + 21 / 220 * (21 / 220)) = 221 / 220 := by
  refine ⟨?_, ?_, ?_⟩
  · have h := ratSqrt_mul_self 1 (by norm_num)
    rwa [mul_one] at h
  · have h := ratSqrt_mul_self 2 (by norm_num)
    have e : (2 : ℚ) * 2 = 4 := by norm_num
    rwa [e] at h
  · have h := ratSqrt_mul_self (221 / 220) (by norm_num)
    have e : (221 / 220 : ℚ) * (221 / 220) = 1 + 21 / 220 * (21 / 220) := by norm_num
    rwa [e] at h

/-- The small sample estimate: the gain of `smallGainFilter` times the 1 x 1
measurement `c` is the column with `c` in row 3. -/
theorem smallGain_product (n : Nat) (H R : Matrix ℚ) (c : ℚ) :
    Matrix.mul (smallGainFilter.correct n H R).2 (Matrix.column ![c])
      = some (Matrix.single 10 3 c) := by
  simp only [Matrix.mul, smallGainFilter, Matrix.single, Matrix.column, dite_true,
    Option.some.injEq, Matrix.mk.injEq, heq_eq_eq, true_and]
  funext i j
  by_cases h : i.val = 3 <;> simp [h]

/-- The squared norm of the small sample estimate is 441/48400. -/
theorem smallGain_norm2 : (Matrix.single 10 3 (21 / 220 : ℚ)).norm2 = 441 / 48400 := by
  have hrows : (Matrix.single 10 3 (21 / 220 : ℚ)).rows = 10 := rfl
  simp only [Matrix.norm2, hrows, Finset.sum_range_succ, Finset.sum_range_zero,
    Matrix.single_col0]
  norm_num

/-- The entries of the sample estimate. -/
theorem sampleXhat_col0 :
    sampleXhat.col0 0 = 1 ∧ sampleXhat.col0 1 = 1 ∧ sampleXhat.col0 2 = 1 ∧
    sampleXhat.col0 3 = 1 / 2 ∧ sampleXhat.col0 4 = 0 ∧ sampleXhat.col0 5 = 0 ∧
    sampleXhat.col0 6 = 5 ∧ sampleXhat.col0 7 = 0 ∧ sampleXhat.col0 8 = 1 / 2 ∧
    sampleXhat.col0 9 = 0 ∧ sampleXhat.col0 10 = 7 ∧ sampleXhat.col0 11 = 8 :=
  ⟨rfl, rfl, rfl, rfl, rfl, rfl, rfl, rfl, rfl, rfl, rfl, rfl⟩

/-! ### An error estimate with missing rows -/

/-- Reading a row the matrix does not have fails. -/
theorem Matrix.entry_absent (m : Matrix F) (r c : Nat) (hr : m.rows ≤ r) :
    m.entry r c = none := by
  have h : ¬(r < m.rows ∧ c < m.columns) := fun hh => absurd hh.1 (by omega)
  simp [Matrix.entry, h]

/-- With the row missing, `(*this)[index] -= x_hat(row, 0)` fails and writes
nothing. -/
theorem subtract_at_absent (x_hat : Matrix F) (row index : Nat) (s : INS F)
    (hr : x_hat.rows ≤ row) : subtract_at x_hat row index s = .failed s := by
  simp [subtract_at, Matrix.entry_absent x_hat row 0 hr]

/-- With one of the three rows missing, no correction quaternion is built. -/
theorem delta_q_absent (x_hat : Matrix F) (r : Nat) (hr : x_hat.rows ≤ r + 2) :
    delta_q x_hat r = none := by
  unfold delta_q
  rw [Matrix.entry_absent x_hat (r + 2) 0 hr]
  cases x_hat.entry r 0 <;> cases x_hat.entry (r + 1) 0 <;> rfl

/-- Closed form of `correct_INS` on a column vector with fewer than ten rows: the
call fails, and the corrections before the first missing row stay applied. -/
theorem correct_INS_failed (M : Strapdown F) (x_hat : Matrix F) (s : INS F)
    (hr : x_hat.rows < 10) (hc : 0 < x_hat.columns) :
    correct_INS M x_hat s = .failed
      { s with
        v := fun i => if i.val < x_hat.rows then s.v i - x_hat.col0 i.val else s.v i
        q_e2n := if 6 ≤ x_hat.rows
          then Quaternion.mul ⟨1, -x_hat.col0 3, -x_hat.col0 4, -x_hat.col0 5⟩ s.q_e2n
          else s.q_e2n
        h := if 7 ≤ x_hat.rows then s.h - x_hat.col0 6 else s.h } := by
  have hcases : x_hat.rows = 0 ∨ x_hat.rows = 1 ∨ x_hat.rows = 2 ∨
      (3 ≤ x_hat.rows ∧ x_hat.rows < 6) ∨ x_hat.rows = 6 ∨ (7 ≤ x_hat.rows ∧ x_hat.rows < 10) := by
    omega
  rcases hcases with h | h | h | h | h | h
  · have hv : (fun i : Fin 3 => if i.val < x_hat.rows then s.v i - x_hat.col0 i.val else s.v i)
        = s.v := by
      funext i
      simp [h]
    simp only [correct_INS, List.range', subtract_loop, Outcome.andThen,
      subtract_at_absent x_hat 0 _ _ (by omega)]
    simp [hv, h]
  · simp only [correct_INS, List.range', subtract_loop, Outcome.andThen,
      subtract_at_present x_hat 0 _ _ (by omega) hc, subtract_at_absent x_hat 1 _ _ (by omega)]
    have hv : (fun i : Fin 3 => if i.val < x_hat.rows then s.v i - x_hat.col0 i.val else s.v i)
        = Function.update s.v 0 (s.v 0 - x_hat.col0 0) := by
      funext i
      fin_cases i <;> simp [h]
    rw [hv]
    simp [h, INS.set, INS.get]
  · simp only [correct_INS, List.range', subtract_loop, Outcome.andThen,
      subtract_at_present x_hat 0 _ _ (by omega) hc,
      subtract_at_present x_hat 1 _ _ (by omega) hc, subtract_at_absent x_hat 2 _ _ (by omega)]
    have hv : (fun i : Fin 3 => if i.val < x_hat.rows then s.v i - x_hat.col0 i.val else s.v i)
        = Function.update (Function.update s.v 0 (s.v 0 - x_hat.col0 0)) 1
            (s.v 1 - x_hat.col0 1) := by
      funext i
      fin_cases i <;> simp [h]
    rw [hv]
    simp [h, INS.set, INS.get]
  all_goals
    have hv : (fun i : Fin 3 => if i.val < x_hat.rows then s.v i - x_hat.col0 i.val else s.v i)
        = Function.update (Function.update (Function.update s.v 0 (s.v 0 - x_hat.col0 0)) 1
            (s.v 1 - x_hat.col0 1)) 2 (s.v 2 - x_hat.col0 2) := by
      funext i
      have hi : i.val < x_hat.rows := by omega
      fin_cases i <;> simp [hi]
    simp only [correct_INS, List.range', subtract_loop, Outcome.andThen,
      subtract_at_present x_hat 0 _ _ (by omega) hc,
      subtract_at_present x_hat 1 _ _ (by omega) hc,
      subtract_at_present x_hat 2 _ _ (by omega) hc]
  · have h6 : ¬(6 ≤ x_hat.rows) := by omega
    have h7 : ¬(7 ≤ x_hat.rows) := by omega
    simp [delta_q_absent x_hat 3 (by omega), hv, h6, h7, INS.set, INS.get]
  · have h6 : 6 ≤ x_hat.rows := by omega
    have h7 : ¬(7 ≤ x_hat.rows) := by omega
    simp only [delta_q_present x_hat 3 (by omega) hc, subtract_at_absent x_hat 6 _ _ (by omega),
      Outcome.andThen]
    simp [hv, h6, h7, INS.set, INS.get]
  · have h6 : 6 ≤ x_hat.rows := by omega
    have h7 : 7 ≤ x_hat.rows := by omega
    simp only [delta_q_present x_hat 3 (by omega) hc,
      subtract_at_present x_hat 6 _ _ (by omega) hc, delta_q_absent x_hat 7 (by omega),
      Outcome.andThen]
    simp [hv, h6, h7, INS.set, INS.get]

/-! ### Reading `getB` -/

/-- Reading `getB` inside its 10 x 7 range gives the array entry. -/
theorem getB_entry (accel gyro : Vector3 F) (dcm_n2b : DCM F) (r c : Nat)
    (hr : r < 10) (hc : c < 7) :
    (getB accel gyro dcm_n2b).entry r c = some (B_serialized accel gyro dcm_n2b r c) := by
  have h : r < (getB accel gyro dcm_n2b).rows ∧ c < (getB accel gyro dcm_n2b).columns :=
    ⟨hr, hc⟩
  simp only [Matrix.entry, dif_pos h]
  rfl

/-! ### Reading `getA` -/

/-- A read succeeds only inside the matrix: the row is below the row count. -/
theorem Matrix.lt_rows_of_entry (m : Matrix F) (r c : Nat) (x : F) (h : m.entry r c = some x) :
    r < m.rows := by
  unfold Matrix.entry at h
  split at h
  · next hlt => exact hlt.1
  · cases h

/-- A read succeeds only inside the matrix: the column is below the column
count. -/
theorem Matrix.lt_columns_of_entry (m : Matrix F) (r c : Nat) (x : F)
    (h : m.entry r c = some x) : c < m.columns := by
  unfold Matrix.entry at h
  split at h
  · next hlt => exact hlt.2
  · cases h

/-- Reading `getA` inside its 10 x 10 range gives the array entry. -/
theorem getA_entry (E : Earth F) (cfg : Config) (s : INS F) (accel gyro : Vector3 F)
    (dcm_e2n dcm_n2b : DCM F) (r c : Nat) (hr : r < 10) (hc : c < 10) :
    (getA E cfg s accel gyro dcm_e2n dcm_n2b).entry r c
      = some (A_serialized E cfg s accel gyro dcm_e2n dcm_n2b r c) := by
  have h : r < (getA E cfg s accel gyro dcm_e2n dcm_n2b).rows ∧
      c < (getA E cfg s accel gyro dcm_e2n dcm_n2b).columns := ⟨hr, hc⟩
  simp only [Matrix.entry, dif_pos h]
  rfl

/-- Columns 3 and 4 of `A` without the centripetal block: the values the
statements of lines 144-174 and 244-267 of the source leave. -/
theorem A_serialized_earth_rate_columns (E : Earth F) (rs : Bool) (s : INS F)
    (accel gyro : Vector3 F) (dcm_e2n dcm_n2b : DCM F) :
    A_serialized E ⟨rs, false⟩ s accel gyro dcm_e2n dcm_n2b 0 3
      = E.Omega_Earth * 4 * (dcm_e2n 2 1 * s.get 1 - dcm_e2n 1 1 * s.get 2) ∧
    A_serialized E ⟨rs, false⟩ s accel gyro dcm_e2n dcm_n2b 0 4
      = E.Omega_Earth * 4 * (dcm_e2n 1 0 * s.get 2 - dcm_e2n 2 0 * s.get 1) ∧
    A_serialized E ⟨rs, false⟩ s accel gyro dcm_e2n dcm_n2b 1 3
      = E.Omega_Earth * 4 * (dcm_e2n 0 1 * s.get 2 - dcm_e2n 2 1 * s.get 0) ∧
    A_serialized E ⟨rs, false⟩ s accel gyro dcm_e2n dcm_n2b 1 4
      = E.Omega_Earth * 4 * (dcm_e2n 2 0 * s.get 0 - dcm_e2n 0 0 * s.get 2) ∧
    A_serialized E ⟨rs, false⟩ s accel gyro dcm_e2n dcm_n2b 2 3
      = E.Omega_Earth * 4 * (dcm_e2n 1 1 * s.get 0 - dcm_e2n 0 1 * s.get 1) ∧
    A_serialized E ⟨rs, false⟩ s accel gyro dcm_e2n dcm_n2b 2 4
      = E.Omega_Earth * 4 * (dcm_e2n 0 0 * s.get 1 - dcm_e2n 1 0 * s.get 0) :=
  ⟨rfl, rfl, rfl, rfl, rfl, rfl⟩

/-- Columns 3 and 4 of the attitude rows of `A`, in every configuration. -/
theorem A_serialized_attitude_earth_rate (E : Earth F) (cfg : Config) (s : INS F)
    (accel gyro : Vector3 F) (dcm_e2n dcm_n2b : DCM F) :
    A_serialized E cfg s accel gyro dcm_e2n dcm_n2b 7 3 = -E.Omega_Earth * dcm_e2n 0 1 ∧
    A_serialized E cfg s accel gyro dcm_e2n dcm_n2b 7 4 = E.Omega_Earth * dcm_e2n 0 0 ∧
    A_serialized E cfg s accel gyro dcm_e2n dcm_n2b 8 3 = -E.Omega_Earth * dcm_e2n 1 1 ∧
    A_serialized E cfg s accel gyro dcm_e2n dcm_n2b 8 4 = E.Omega_Earth * dcm_e2n 1 0 ∧
    A_serialized E cfg s accel gyro dcm_e2n dcm_n2b 9 3 = -E.Omega_Earth * dcm_e2n 2 1 ∧
    A_serialized E cfg s accel gyro dcm_e2n dcm_n2b 9 4 = E.Omega_Earth * dcm_e2n 2 0 := by
  obtain ⟨rs, ce⟩ := cfg
  cases ce <;> exact ⟨rfl, rfl, rfl, rfl, rfl, rfl⟩

/-- The rotation entries of the velocity rows and of the attitude rows of `A`
and the curvature terms of the velocity block, in every configuration. -/
theorem A_serialized_rotation_blocks (E : Earth F) (cfg : Config) (s : INS F)
    (accel gyro : Vector3 F) (dcm_e2n dcm_n2b : DCM F) :
    (A_serialized E cfg s accel gyro dcm_e2n dcm_n2b 0 0 = s.v 2 / Rm_1 E cfg s ∧
      A_serialized E cfg s accel gyro dcm_e2n dcm_n2b 0 1 = omega_1 s 2 ∧
      A_serialized E cfg s accel gyro dcm_e2n dcm_n2b 0 2 = -omega_1 s 1 ∧
      A_serialized E cfg s accel gyro dcm_e2n dcm_n2b 1 0 = -omega_1 s 2 ∧
      A_serialized E cfg s accel gyro dcm_e2n dcm_n2b 1 1 = s.v 2 / Rn_1 E cfg s ∧
      A_serialized E cfg s accel gyro dcm_e2n dcm_n2b 1 2 = omega_1 s 0 ∧
      A_serialized E cfg s accel gyro dcm_e2n dcm_n2b 2 0 = omega_1 s 1 - s.v 0 / Rm_1 E cfg s ∧
      A_serialized E cfg s accel gyro dcm_e2n dcm_n2b 2 1 = -omega_1 s 0 - s.v 1 / Rn_1 E cfg s ∧
      A_serialized E cfg s accel gyro dcm_e2n dcm_n2b 2 2 = 0) ∧
    (A_serialized E cfg s accel gyro dcm_e2n dcm_n2b 7 7 = 0 ∧
      A_serialized E cfg s accel gyro dcm_e2n dcm_n2b 7 8 = omega_2 s 2 ∧
      A_serialized E cfg s accel gyro dcm_e2n dcm_n2b 7 9 = -omega_2 s 1 ∧
      A_serialized E cfg s accel gyro dcm_e2n dcm_n2b 8 7 = -omega_2 s 2 ∧
      A_serialized E cfg s accel gyro dcm_e2n dcm_n2b 8 8 = 0 ∧
      A_serialized E cfg s accel gyro dcm_e2n dcm_n2b 8 9 = omega_2 s 0 ∧
      A_serialized E cfg s accel gyro dcm_e2n dcm_n2b 9 7 = omega_2 s 1 ∧
      A_serialized E cfg s accel gyro dcm_e2n dcm_n2b 9 8 = -omega_2 s 0 ∧
      A_serialized E cfg s accel gyro dcm_e2n dcm_n2b 9 9 = 0) := by
  obtain ⟨rs, ce⟩ := cfg
  cases ce <;> exact ⟨⟨rfl, rfl, rfl, rfl, rfl, rfl, rfl, rfl, rfl⟩,
    ⟨rfl, rfl, rfl, rfl, rfl, rfl, rfl, rfl, rfl⟩⟩

/-- The accelerometer-lever entries `A[0..2][7..9]`, in every configuration. -/
theorem A_serialized_lever_block (E : Earth F) (cfg : Config) (s : INS F)
    (accel gyro : Vector3 F) (dcm_e2n dcm_n2b : DCM F) :
    A_serialized E cfg s accel gyro dcm_e2n dcm_n2b 0 7 = 0 ∧
    A_serialized E cfg s accel gyro dcm_e2n dcm_n2b 0 8
      = (dcm_n2b 0 2 * accel 0 + dcm_n2b 1 2 * accel 1 + dcm_n2b 2 2 * accel 2) * 2 ∧
    A_serialized E cfg s accel gyro dcm_e2n dcm_n2b 0 9
      = (dcm_n2b 0 1 * accel 0 + dcm_n2b 1 1 * accel 1 + dcm_n2b 2 1 * accel 2) * -2 ∧
    A_serialized E cfg s accel gyro dcm_e2n dcm_n2b 1 7
      = -((dcm_n2b 0 2 * accel 0 + dcm_n2b 1 2 * accel 1 + dcm_n2b 2 2 * accel 2) * 2) ∧
    A_serialized E cfg s accel gyro dcm_e2n dcm_n2b 1 8 = 0 ∧
    A_serialized E cfg s accel gyro dcm_e2n dcm_n2b 1 9
      = (dcm_n2b 0 0 * accel 0 + dcm_n2b 1 0 * accel 1 + dcm_n2b 2 0 * accel 2) * 2 ∧
    A_serialized E cfg s accel gyro dcm_e2n dcm_n2b 2 7
      = -((dcm_n2b 0 1 * accel 0 + dcm_n2b 1 1 * accel 1 + dcm_n2b 2 1 * accel 2) * -2) ∧
    A_serialized E cfg s accel gyro dcm_e2n dcm_n2b 2 8
      = -((dcm_n2b 0 0 * accel 0 + dcm_n2b 1 0 * accel 1 + dcm_n2b 2 0 * accel 2) * 2) ∧
    A_serialized E cfg s accel gyro dcm_e2n dcm_n2b 2 9 = 0 := by
  obtain ⟨rs, ce⟩ := cfg
  cases ce <;> exact ⟨rfl, rfl, rfl, rfl, rfl, rfl, rfl, rfl, rfl⟩

/-- The velocity columns of the position rows 3-5 and of the attitude rows 7-9 of
`A`, in every configuration. -/
theorem A_serialized_velocity_columns (E : Earth F) (cfg : Config) (s : INS F)
    (accel gyro : Vector3 F) (dcm_e2n dcm_n2b : DCM F) :
    (A_serialized E cfg s accel gyro dcm_e2n dcm_n2b 3 0 = -dcm_e2n 1 0 / 2 / Rm_1 E cfg s ∧
      A_serialized E cfg s accel gyro dcm_e2n dcm_n2b 3 1 = dcm_e2n 0 0 / 2 / Rn_1 E cfg s ∧
      A_serialized E cfg s accel gyro dcm_e2n dcm_n2b 3 2 = 0 ∧
      A_serialized E cfg s accel gyro dcm_e2n dcm_n2b 4 0 = -dcm_e2n 1 1 / 2 / Rm_1 E cfg s ∧
      A_serialized E cfg s accel gyro dcm_e2n dcm_n2b 4 1 = dcm_e2n 0 1 / 2 / Rn_1 E cfg s ∧
      A_serialized E cfg s accel gyro dcm_e2n dcm_n2b 4 2 = 0 ∧
      A_serialized E cfg s accel gyro dcm_e2n dcm_n2b 5 0 = -dcm_e2n 1 2 / 2 / Rm_1 E cfg s ∧
      A_serialized E cfg s accel gyro dcm_e2n dcm_n2b 5 1 = dcm_e2n 0 2 / 2 / Rn_1 E cfg s ∧
      A_serialized E cfg s accel gyro dcm_e2n dcm_n2b 5 2 = 0) ∧
    (A_serialized E cfg s accel gyro dcm_e2n dcm_n2b 7 0 = 0 ∧
      A_serialized E cfg s accel gyro dcm_e2n dcm_n2b 7 1 = -1 / Rn_1 E cfg s / 2 ∧
      A_serialized E cfg s accel gyro dcm_e2n dcm_n2b 7 2 = 0 ∧
      A_serialized E cfg s accel gyro dcm_e2n dcm_n2b 8 0 = 1 / Rm_1 E cfg s / 2 ∧
      A_serialized E cfg s accel gyro dcm_e2n dcm_n2b 8 1 = 0 ∧
      A_serialized E cfg s accel gyro dcm_e2n dcm_n2b 8 2 = 0 ∧
      A_serialized E cfg s accel gyro dcm_e2n dcm_n2b 9 0 = 0 ∧
      A_serialized E cfg s accel gyro dcm_e2n dcm_n2b 9 1 = 0 ∧
      A_serialized E cfg s accel gyro dcm_e2n dcm_n2b 9 2 = 0) := by
  obtain ⟨rs, ce⟩ := cfg
  cases ce <;> exact ⟨⟨rfl, rfl, rfl, rfl, rfl, rfl, rfl, rfl, rfl⟩,
    ⟨rfl, rfl, rfl, rfl, rfl, rfl, rfl, rfl, rfl⟩⟩

/-- Column 6 of `A` in rows 3-9, in every configuration, and in rows 0-2
without and with the centripetal block. -/
theorem A_serialized_altitude_column (E : Earth F) (rs : Bool) (s : INS F)
    (accel gyro : Vector3 F) (dcm_e2n dcm_n2b : DCM F) :
    (∀ ce : Bool,
      A_serialized E ⟨rs, ce⟩ s accel gyro dcm_e2n dcm_n2b 3 6
        = (dcm_e2n 1 0 * s.v 0 / pow2 (Rm_1 E ⟨rs, ce⟩ s)
            - dcm_e2n 0 0 * s.v 1 / pow2 (Rn_1 E ⟨rs, ce⟩ s)) / 2 ∧
      A_serialized E ⟨rs, ce⟩ s accel gyro dcm_e2n dcm_n2b 4 6
        = (dcm_e2n 1 1 * s.v 0 / pow2 (Rm_1 E ⟨rs, ce⟩ s)
            - dcm_e2n 0 1 * s.v 1 / pow2 (Rn_1 E ⟨rs, ce⟩ s)) / 2 ∧
      A_serialized E ⟨rs, ce⟩ s accel gyro dcm_e2n dcm_n2b 5 6
        = (dcm_e2n 1 2 * s.v 0 / pow2 (Rm_1 E ⟨rs, ce⟩ s)
            - dcm_e2n 0 2 * s.v 1 / pow2 (Rn_1 E ⟨rs, ce⟩ s)) / 2 ∧
      A_serialized E ⟨rs, ce⟩ s accel gyro dcm_e2n dcm_n2b 7 6
        = s.v 1 / pow2 (Rn_1 E ⟨rs, ce⟩ s) / 2 ∧
      A_serialized E ⟨rs, ce⟩ s accel gyro dcm_e2n dcm_n2b 8 6
        = -s.v 0 / pow2 (Rm_1 E ⟨rs, ce⟩ s) / 2 ∧
      A_serialized E ⟨rs, ce⟩ s accel gyro dcm_e2n dcm_n2b 9 6 = 0) ∧
    (A_serialized E ⟨rs, false⟩ s accel gyro dcm_e2n dcm_n2b 0 6
        = -s.v 0 * s.v 2 / pow2 (Rm_1 E ⟨rs, false⟩ s) ∧
      A_serialized E ⟨rs, false⟩ s accel gyro dcm_e2n dcm_n2b 1 6
        = -s.v 1 * s.v 2 / pow2 (Rn_1 E ⟨rs, false⟩ s) ∧
      A_serialized E ⟨rs, false⟩ s accel gyro dcm_e2n dcm_n2b 2 6
        = pow2 (s.v 0) / pow2 (Rm_1 E ⟨rs, false⟩ s)
          + pow2 (s.v 1) / pow2 (Rn_1 E ⟨rs, false⟩ s)) ∧
    (A_serialized E ⟨rs, true⟩ s accel gyro dcm_e2n dcm_n2b 0 6
        = A_serialized E ⟨rs, false⟩ s accel gyro dcm_e2n dcm_n2b 0 6
          - (dcm_e2n 0 0 * dcm_e2n 2 0 - dcm_e2n 0 1 * dcm_e2n 2 1) * pow2 E.Omega_Earth ∧
      A_serialized E ⟨rs, true⟩ s accel gyro dcm_e2n dcm_n2b 1 6
        = A_serialized E ⟨rs, false⟩ s accel gyro dcm_e2n dcm_n2b 1 6
          - (dcm_e2n 1 0 * dcm_e2n 2 0 - dcm_e2n 1 1 * dcm_e2n 2 1) * pow2 E.Omega_Earth ∧
      A_serialized E ⟨rs, true⟩ s accel gyro dcm_e2n dcm_n2b 2 6
        = A_serialized E ⟨rs, false⟩ s accel gyro dcm_e2n dcm_n2b 2 6
          - (dcm_e2n 2 0 * dcm_e2n 2 0 - dcm_e2n 2 1 * dcm_e2n 2 1) * pow2 E.Omega_Earth) := by
  refine ⟨?_, ⟨rfl, rfl, rfl⟩, ⟨rfl, rfl, rfl⟩⟩
  intro ce
  cases ce <;> exact ⟨rfl, rfl, rfl, rfl, rfl, rfl⟩

/-- The entries of the identity DCM. -/
theorem identityDCM_entries :
    identityDCM 0 0 = 1 ∧ identityDCM 0 1 = 0 ∧ identityDCM 0 2 = 0 ∧
    identityDCM 1 0 = 0 ∧ identityDCM 1 1 = 1 ∧ identityDCM 1 2 = 0 ∧
    identityDCM 2 0 = 0 ∧ identityDCM 2 1 = 0 ∧ identityDCM 2 2 = 1 :=
  ⟨rfl, rfl, rfl, rfl, rfl, rfl, rfl, rfl, rfl⟩

/-- The entries of the quarter-turn DCM. -/
theorem quarterTurnDCM_entries :
    quarterTurnDCM 0 0 = 0 ∧ quarterTurnDCM 0 1 = -1 ∧ quarterTurnDCM 0 2 = 0 ∧
    quarterTurnDCM 1 0 = 1 ∧ quarterTurnDCM 1 1 = 0 ∧ quarterTurnDCM 1 2 = 0 ∧
    quarterTurnDCM 2 0 = 0 ∧ quarterTurnDCM 2 1 = 0 ∧ quarterTurnDCM 2 2 = 1 :=
  ⟨rfl, rfl, rfl, rfl, rfl, rfl, rfl, rfl, rfl⟩

/-! ## The time update -/

/-- C1: `update(accel, gyro, deltaT)` builds A and B from the nominal state as it
is before propagation (the matrices the two-argument `getA` and `getB` return
on that state), gives them with `deltaT` first to the filter's `predict`, then
to the hook `before_update_INS`, and only then propagates with `INS::update`.
With the default hook the resulting nominal state is `INS::update` of the
original one and the resulting filter is `predict` of the original one. -/
theorem update_predicts_before_propagation {Filter : Type} (E : Earth F) (M : Strapdown F)
    (KF : KalmanFilter F Filter) (cfg : Config)
    (hook : Matrix F → Matrix F → F → Filtered_INS2 F Filter → Filtered_INS2 F Filter)
    (self : Filtered_INS2 F Filter) (accel gyro : Vector3 F) (deltaT : F) :
    (getA_nominal E M cfg self.ins accel gyro
        = getA E cfg self.ins accel gyro (M.getDCM self.ins.q_e2n) (M.getDCM self.ins.q_n2b) ∧
      getB_nominal M self.ins accel gyro = getB accel gyro (M.getDCM self.ins.q_n2b)) ∧
    update E M KF cfg hook self accel gyro deltaT
      = ⟨M.update
          (hook (getA_nominal E M cfg self.ins accel gyro) (getB_nominal M self.ins accel gyro)
            deltaT
            ⟨self.ins, KF.predict self.m_filter (getA_nominal E M cfg self.ins accel gyro)
              (getB_nominal M self.ins accel gyro) deltaT⟩).ins
          accel gyro deltaT,
        (hook (getA_nominal E M cfg self.ins accel gyro) (getB_nominal M self.ins accel gyro)
          deltaT
          ⟨self.ins, KF.predict self.m_filter (getA_nominal E M cfg self.ins accel gyro)
            (getB_nominal M self.ins accel gyro) deltaT⟩).m_filter⟩ ∧
    (update E M KF cfg before_update_INS self accel gyro deltaT).ins
      = M.update self.ins accel gyro deltaT ∧
    (update E M KF cfg before_update_INS self accel gyro deltaT).m_filter
      = KF.predict self.m_filter (getA_nominal E M cfg self.ins accel gyro)
          (getB_nominal M self.ins accel gyro) deltaT :=
  ⟨⟨rfl, rfl⟩, rfl, rfl, rfl⟩

/-! ## The measurement update -/

/-- C2: `correct(H, z, R)` takes the gain K from the filter's `correct(H, R)`,
forms `x_hat = K * z`, hands `(H, R, K, z, x_hat)` to the hook
`before_correct_INS`, and runs `correct_INS` on the `x_hat` the hook leaves.
With the default hook the injected vector is `K * z` itself and the filter is
the one `correct(H, R)` left. -/
theorem correct_injects_hooked_x_hat {Filter : Type} (M : Strapdown F)
    (KF : KalmanFilter F Filter)
    (hook : Matrix F → Matrix F → Matrix F → Matrix F → Matrix F →
      Filtered_INS2 F Filter → Filtered_INS2 F Filter × Matrix F)
    (self : Filtered_INS2 F Filter) (H z R x_hat : Matrix F)
    (hx : Matrix.mul (KF.correct self.m_filter H R).2 z = some x_hat) :
    correct M KF hook self H z R
      = onINS
          (hook H R (KF.correct self.m_filter H R).2 z x_hat
            { self with m_filter := (KF.correct self.m_filter H R).1 }).1
          (correct_INS M
            (hook H R (KF.correct self.m_filter H R).2 z x_hat
              { self with m_filter := (KF.correct self.m_filter H R).1 }).2
            (hook H R (KF.correct self.m_filter H R).2 z x_hat
              { self with m_filter := (KF.correct self.m_filter H R).1 }).1.ins) ∧
    correct M KF before_correct_INS self H z R
      = onINS { self with m_filter := (KF.correct self.m_filter H R).1 }
          (correct_INS M x_hat self.ins) ∧
    (correct M KF before_correct_INS self H z R).state.m_filter
      = (KF.correct self.m_filter H R).1 := by
  refine ⟨?_, ?_, ?_⟩
  · simp only [correct, hx]
  · simp only [correct, hx, before_correct_INS]
  · simp only [correct, hx, before_correct_INS]
    cases correct_INS M x_hat self.ins <;> rfl

/-- C2, at a concrete input: the sample gain (12 x 1) times the 1 x 1 measurement
`1` is defined, and `correct` injects it. -/
theorem correct_injects_hooked_x_hat_witness :
    Matrix.mul (sampleFilter.correct sampleObject.m_filter (Matrix.zero 1 10)
        (Matrix.zero 1 1)).2 (Matrix.column ![1])
      = some (Matrix.column ![1, 2, 3, 4, 5, 6, 7, 8, 9, 10, 11, 12]) ∧
    correct sampleStrapdown sampleFilter before_correct_INS sampleObject
        (Matrix.zero 1 10) (Matrix.column ![1]) (Matrix.zero 1 1)
      = onINS ⟨sampleINS, 1⟩
          (correct_INS sampleStrapdown
            (Matrix.column ![1, 2, 3, 4, 5, 6, 7, 8, 9, 10, 11, 12]) sampleINS) :=
  ⟨by simp [Matrix.mul, sampleFilter, Matrix.column],
    (correct_injects_hooked_x_hat sampleStrapdown sampleFilter before_correct_INS sampleObject
      (Matrix.zero 1 10) (Matrix.column ![1]) (Matrix.zero 1 1)
      (Matrix.column ![1, 2, 3, 4, 5, 6, 7, 8, 9, 10, 11, 12])
      (by simp [Matrix.mul, sampleFilter, Matrix.column])).2.1⟩

/-! ## Error injection -/

/-- C3: for `x_hat` with at least ten rows, `correct_INS(x_hat)` returns and has
replaced nominal entry `i` by `entry i - x_hat[i]` for `i = 0, 1, 2`, nominal
entry 7 by `entry 7 - x_hat[6]`, and nominal entry `i + 2` by
`entry (i + 2) - x_hat[i]` for every row `i` with `10 ≤ i`; `x_hat[i]` is the
entry `x_hat(i, 0)`. -/
theorem correct_INS_index_mapping (M : Strapdown F) (x_hat : Matrix F) (s : INS F)
    (hr : 10 ≤ x_hat.rows) (hc : 0 < x_hat.columns) :
    ∃ s', correct_INS M x_hat s = .returned s' ∧
      (∀ i, i < 3 → s'.get i = s.get i - x_hat.col0 i) ∧
      s'.get 7 = s.get 7 - x_hat.col0 6 ∧
      (∀ i, 10 ≤ i → i < x_hat.rows → s'.get (i + 2) = s.get (i + 2) - x_hat.col0 i) ∧
      (∀ i, i < x_hat.rows → x_hat.entry i 0 = some (x_hat.col0 i)) := by
  refine ⟨_, correct_INS_returned M x_hat s hr hc, ?_, rfl, ?_, ?_⟩
  · intro i hi
    interval_cases i <;> rfl
  · intro i h10 hlt
    obtain ⟨k, rfl⟩ : ∃ k, i = k + 10 := ⟨i - 10, by omega⟩
    simp [INS.get, INS.recalc, hlt]
  · intro i hlt
    exact Matrix.entry_col0 x_hat i hlt hc

/-- C3, at a concrete input: the twelve-row sample estimate on the sample state.
Altitude 100 becomes 95, auxiliary entries 12 and 13 (0 and 1) become -7, -7. -/
theorem correct_INS_index_mapping_witness :
    (10 ≤ sampleXhat.rows ∧ 0 < sampleXhat.columns) ∧
    ∃ s', correct_INS sampleStrapdown sampleXhat sampleINS = .returned s' ∧
      s'.get 0 = 0 ∧ s'.get 7 = 95 ∧ s'.get 12 = -7 ∧ s'.get 13 = -7 := by
  refine ⟨⟨by decide, by decide⟩, ?_⟩
  obtain ⟨s', hs, hv, hh, haux, _⟩ :=
    correct_INS_index_mapping sampleStrapdown sampleXhat sampleINS (by decide) (by decide)
  obtain ⟨h0, _, _, _, _, _, h6, _, _, _, h10, h11⟩ := sampleXhat_col0
  refine ⟨s', hs, ?_, ?_, ?_, ?_⟩
  · rw [hv 0 (by decide), h0]
    simp [sampleINS, INS.get]
  · rw [hh, h6]
    norm_num [sampleINS, INS.get]
  · rw [haux 10 (by decide) (by decide), h10]
    simp [sampleINS, INS.get]
  · rw [haux 11 (by decide) (by decide), h11]
    norm_num [sampleINS, INS.get]

/-- C4: for `x_hat` with at least ten rows, `correct_INS` sets `q_e2n` to
`dq1 * q_e2n` with `dq1 = (1, -x_hat[3], -x_hat[4], -x_hat[5])` and `q_n2b` to
`dq2 * q_n2b` with `dq2 = (1, -x_hat[7], -x_hat[8], -x_hat[9])`, the correction
being the left factor: these are the two quaternions of the state `t` that
`correct_INS` hands to `INS::recalc`, the same `t` for every mechanizer. The
product is the Hamilton product of the quaternion algebra over `F`, and each new
quaternion is computed from the old value of the same quaternion. -/
theorem correct_INS_quaternions (M : Strapdown F) (x_hat : Matrix F) (s : INS F)
    (hr : 10 ≤ x_hat.rows) (hc : 0 < x_hat.columns) :
    ∃ t, correct_INS M x_hat s = .returned (INS.recalc M t) ∧
      (∀ M' : Strapdown F, correct_INS M' x_hat s = .returned (INS.recalc M' t)) ∧
      t.q_e2n = Quaternion.mul ⟨1, -x_hat.col0 3, -x_hat.col0 4, -x_hat.col0 5⟩ s.q_e2n ∧
      t.q_n2b = Quaternion.mul ⟨1, -x_hat.col0 7, -x_hat.col0 8, -x_hat.col0 9⟩ s.q_n2b ∧
      t.q_e2n.toAlgebra
        = (⟨1, -x_hat.col0 3, -x_hat.col0 4, -x_hat.col0 5⟩ : QuaternionAlgebra F (-1) (-1))
            * s.q_e2n.toAlgebra ∧
      t.q_n2b.toAlgebra
        = (⟨1, -x_hat.col0 7, -x_hat.col0 8, -x_hat.col0 9⟩ : QuaternionAlgebra F (-1) (-1))
            * s.q_n2b.toAlgebra := by
  refine ⟨_, correct_INS_returned M x_hat s hr hc,
    fun M' => correct_INS_returned M' x_hat s hr hc, rfl, rfl, ?_, ?_⟩
  · ext <;> simp [Quaternion.mul, Quaternion.toAlgebra] <;> ring
  · ext <;> simp [Quaternion.mul, Quaternion.toAlgebra] <;> ring

/-- C4, at a concrete input: on the sample state, `x_hat[3] = 1/2` turns
`q_e2n = (1, 0, 0, 0)` into `(1, -1/2, 0, 0)` and `x_hat[8] = 1/2` turns
`q_n2b = (0, 1, 0, 0)` into `(0, 1, 0, 1/2)` in the state handed to
`INS::recalc`. -/
theorem correct_INS_quaternions_witness :
    (10 ≤ sampleXhat.rows ∧ 0 < sampleXhat.columns) ∧
    ∃ t, correct_INS sampleStrapdown sampleXhat sampleINS
        = .returned (INS.recalc sampleStrapdown t) ∧
      t.q_e2n = ⟨1, -(1 / 2), 0, 0⟩ ∧ t.q_n2b = ⟨0, 1, 0, 1 / 2⟩ := by
  refine ⟨⟨by decide, by decide⟩, ?_⟩
  obtain ⟨t, ht, _, he, hb, _, _⟩ :=
    correct_INS_quaternions sampleStrapdown sampleXhat sampleINS (by decide) (by decide)
  obtain ⟨_, _, _, h3, h4, h5, _, h7, h8, h9, _, _⟩ := sampleXhat_col0
  refine ⟨t, ht, ?_, ?_⟩
  · rw [he, h3, h4, h5]
    simp [sampleINS, Quaternion.mul]
  · rw [hb, h7, h8, h9]
    simp [sampleINS, Quaternion.mul]

/-- C7: unit-norm invariant. If both attitude quaternions have unit norm before
`correct` (default hook, `x_hat = K * z` with at least ten rows), then `correct`
returns and both have unit norm after it, for every `x_hat`, in particular for
every `x_hat` of norm below 0.1: `INS::recalc` renormalizes what the
multiplicative update leaves. The square root is taken to be exact at the two
squared norms that the update produces. -/
theorem correct_keeps_unit_norm {G : Type} [LinearOrderedField G] {Filter : Type}
    (M : Strapdown G) (KF : KalmanFilter G Filter) (self : Filtered_INS2 G Filter)
    (H z R x_hat : Matrix G)
    (hx : Matrix.mul (KF.correct self.m_filter H R).2 z = some x_hat)
    (hr : 10 ≤ x_hat.rows) (hc : 0 < x_hat.columns)
    (he : self.ins.q_e2n.abs2 = 1) (hb : self.ins.q_n2b.abs2 = 1)
    (hse : M.sqrt (1 + (x_hat.col0 3 * x_hat.col0 3 + x_hat.col0 4 * x_hat.col0 4
        + x_hat.col0 5 * x_hat.col0 5))
      * M.sqrt (1 + (x_hat.col0 3 * x_hat.col0 3 + x_hat.col0 4 * x_hat.col0 4
        + x_hat.col0 5 * x_hat.col0 5))
      = 1 + (x_hat.col0 3 * x_hat.col0 3 + x_hat.col0 4 * x_hat.col0 4
        + x_hat.col0 5 * x_hat.col0 5))
    (hsb : M.sqrt (1 + (x_hat.col0 7 * x_hat.col0 7 + x_hat.col0 8 * x_hat.col0 8
        + x_hat.col0 9 * x_hat.col0 9))
      * M.sqrt (1 + (x_hat.col0 7 * x_hat.col0 7 + x_hat.col0 8 * x_hat.col0 8
        + x_hat.col0 9 * x_hat.col0 9))
      = 1 + (x_hat.col0 7 * x_hat.col0 7 + x_hat.col0 8 * x_hat.col0 8
        + x_hat.col0 9 * x_hat.col0 9)) :
    ∃ s', correct M KF before_correct_INS self H z R = .returned s' ∧
      s'.ins.q_e2n.abs2 = 1 ∧ s'.ins.q_n2b.abs2 = 1 := by
  have hcorrect : correct M KF before_correct_INS self H z R
      = onINS ⟨self.ins, (KF.correct self.m_filter H R).1⟩ (correct_INS M x_hat self.ins) := by
    simp only [correct, hx, before_correct_INS]
  rw [hcorrect, correct_INS_returned M x_hat self.ins hr hc]
  have hE := Quaternion.abs2_delta_mul (x_hat.col0 3) (x_hat.col0 4) (x_hat.col0 5)
    self.ins.q_e2n
  have hB := Quaternion.abs2_delta_mul (x_hat.col0 7) (x_hat.col0 8) (x_hat.col0 9)
    self.ins.q_n2b
  rw [he, mul_one] at hE
  rw [hb, mul_one] at hB
  have pos : ∀ a b c : G, 1 + (a * a + b * b + c * c) ≠ 0 := by
    intro a b c
    have ha := mul_self_nonneg a
    have hb := mul_self_nonneg b
    have hc := mul_self_nonneg c
    have : 0 < 1 + (a * a + b * b + c * c) := by linarith
    exact ne_of_gt this
  refine ⟨_, rfl, ?_, ?_⟩
  · show (Quaternion.renormalize M.sqrt
      (Quaternion.mul ⟨1, -x_hat.col0 3, -x_hat.col0 4, -x_hat.col0 5⟩ self.ins.q_e2n)).abs2
        = 1
    exact Quaternion.abs2_renormalize M.sqrt _ (by rw [hE]; exact hse)
      (by rw [hE]; exact pos _ _ _)
  · show (Quaternion.renormalize M.sqrt
      (Quaternion.mul ⟨1, -x_hat.col0 7, -x_hat.col0 8, -x_hat.col0 9⟩ self.ins.q_n2b)).abs2
        = 1
    exact Quaternion.abs2_renormalize M.sqrt _ (by rw [hB]; exact hsb)
      (by rw [hB]; exact pos _ _ _)

/-- C7, at a concrete input: both sample quaternions have unit norm, the estimate
`x_hat = K * z` has the single nonzero entry `x_hat[3] = 21/220`, of norm below
0.1; the update leaves `q_e2n` with squared norm `(221/220)²`, and after
`correct` both quaternions have unit norm. -/
theorem correct_keeps_unit_norm_witness :
    (sampleObject.ins.q_e2n.abs2 = 1 ∧ sampleObject.ins.q_n2b.abs2 = 1) ∧
    Matrix.mul (smallGainFilter.correct sampleObject.m_filter (Matrix.zero 1 10)
        (Matrix.zero 1 1)).2 (Matrix.column ![21 / 220])
      = some (Matrix.single 10 3 (21 / 220)) ∧
    (Matrix.single 10 3 (21 / 220 : ℚ)).norm2 < (1 / 10) ^ 2 ∧
    ∃ s', correct sampleStrapdown smallGainFilter before_correct_INS sampleObject
        (Matrix.zero 1 10) (Matrix.column ![21 / 220]) (Matrix.zero 1 1) = .returned s' ∧
      s'.ins.q_e2n.abs2 = 1 ∧ s'.ins.q_n2b.abs2 = 1 := by
  have n1 : sampleObject.ins.q_e2n.abs2 = 1 := by
    norm_num [sampleObject, sampleINS, Quaternion.abs2]
  have n2 : sampleObject.ins.q_n2b.abs2 = 1 := by
    norm_num [sampleObject, sampleINS, Quaternion.abs2]
  obtain ⟨r1, _, r3⟩ := ratSqrt_values
  refine ⟨⟨n1, n2⟩, smallGain_product _ _ _ _, ?_,
    correct_keeps_unit_norm sampleStrapdown smallGainFilter sampleObject
      (Matrix.zero 1 10) (Matrix.column ![21 / 220]) (Matrix.zero 1 1)
      (Matrix.single 10 3 (21 / 220)) (smallGain_product _ _ _ _) (by decide) (by decide)
      n1 n2 ?_ ?_⟩
  · rw [smallGain_norm2]
    norm_num
  · have e : (1 : ℚ) + ((Matrix.single 10 3 (21 / 220 : ℚ)).col0 3
          * (Matrix.single 10 3 (21 / 220 : ℚ)).col0 3
        + (Matrix.single 10 3 (21 / 220 : ℚ)).col0 4
          * (Matrix.single 10 3 (21 / 220 : ℚ)).col0 4
        + (Matrix.single 10 3 (21 / 220 : ℚ)).col0 5
          * (Matrix.single 10 3 (21 / 220 : ℚ)).col0 5)
        = 1 + 21 / 220 * (21 / 220) := by
      simp [Matrix.single_col0]
    rw [e]
    show ratSqrt _ * ratSqrt _ = _
    rw [r3]
    norm_num
  · have e : (1 : ℚ) + ((Matrix.single 10 3 (21 / 220 : ℚ)).col0 7
          * (Matrix.single 10 3 (21 / 220 : ℚ)).col0 7
        + (Matrix.single 10 3 (21 / 220 : ℚ)).col0 8
          * (Matrix.single 10 3 (21 / 220 : ℚ)).col0 8
        + (Matrix.single 10 3 (21 / 220 : ℚ)).col0 9
          * (Matrix.single 10 3 (21 / 220 : ℚ)).col0 9)
        = 1 := by
      simp [Matrix.single_col0]
    rw [e]
    show ratSqrt _ * ratSqrt _ = _
    rw [r1]
    norm_num

/-- C8 (amended): when `x_hat = K * z` is a column with fewer than ten rows,
`correct` (default hook) reports an error, and what was done before the first
missing row stays done: the filter is the one its `correct(H, R)` left, the
velocity entries below the row count are corrected, `q_e2n` is corrected from
six rows on and the altitude from seven rows on; `q_n2b`, the auxiliary states
and the derived quantities are as before (`recalc` is not reached). -/
theorem correct_short_x_hat {Filter : Type} (M : Strapdown F) (KF : KalmanFilter F Filter)
    (self : Filtered_INS2 F Filter) (H z R x_hat : Matrix F)
    (hx : Matrix.mul (KF.correct self.m_filter H R).2 z = some x_hat)
    (hr : x_hat.rows < 10) (hc : 0 < x_hat.columns) :
    ∃ s', correct M KF before_correct_INS self H z R = .failed s' ∧
      s'.m_filter = (KF.correct self.m_filter H R).1 ∧
      (∀ i, i < 3 → s'.ins.get i
        = if i < x_hat.rows then self.ins.get i - x_hat.col0 i else self.ins.get i) ∧
      s'.ins.q_e2n = (if 6 ≤ x_hat.rows
        then Quaternion.mul ⟨1, -x_hat.col0 3, -x_hat.col0 4, -x_hat.col0 5⟩ self.ins.q_e2n
        else self.ins.q_e2n) ∧
      s'.ins.h = (if 7 ≤ x_hat.rows then self.ins.h - x_hat.col0 6 else self.ins.h) ∧
      s'.ins.q_n2b = self.ins.q_n2b ∧ s'.ins.aux = self.ins.aux ∧
      s'.ins.phi = self.ins.phi ∧ s'.ins.omega_e2i_4n = self.ins.omega_e2i_4n ∧
      s'.ins.omega_n2e_4n = self.ins.omega_n2e_4n := by
  have hcorrect : correct M KF before_correct_INS self H z R
      = onINS ⟨self.ins, (KF.correct self.m_filter H R).1⟩ (correct_INS M x_hat self.ins) := by
    simp only [correct, hx, before_correct_INS]
  rw [hcorrect, correct_INS_failed M x_hat self.ins hr hc]
  refine ⟨_, rfl, rfl, ?_, rfl, rfl, rfl, rfl, rfl, rfl, rfl⟩
  intro i hi
  interval_cases i <;> rfl

/-- C8, counterexample: the gain has three rows, so `x_hat = K * z = (1, 1, 1)`;
`correct` reports an error, yet the three velocity entries, (1, 2, 3) before
the call, are (0, 1, 2) after it. -/
theorem correct_short_x_hat_counterexample :
    Matrix.mul (shortGainFilter.correct sampleObject.m_filter (Matrix.zero 1 10)
        (Matrix.zero 1 1)).2 (Matrix.column ![1]) = some (Matrix.column ![1, 1, 1]) ∧
    (sampleObject.ins.get 0 = 1 ∧ sampleObject.ins.get 1 = 2 ∧ sampleObject.ins.get 2 = 3) ∧
    ∃ s', correct sampleStrapdown shortGainFilter before_correct_INS sampleObject
        (Matrix.zero 1 10) (Matrix.column ![1]) (Matrix.zero 1 1) = .failed s' ∧
      s'.ins.get 0 = 0 ∧ s'.ins.get 1 = 1 ∧ s'.ins.get 2 = 2 ∧ s'.ins ≠ sampleObject.ins := by
  have hx : Matrix.mul (shortGainFilter.correct sampleObject.m_filter (Matrix.zero 1 10)
      (Matrix.zero 1 1)).2 (Matrix.column ![1]) = some (Matrix.column ![1, 1, 1]) := by
    simp [Matrix.mul, shortGainFilter, Matrix.column]
  have hcorrect : correct sampleStrapdown shortGainFilter before_correct_INS sampleObject
        (Matrix.zero 1 10) (Matrix.column ![1]) (Matrix.zero 1 1)
      = onINS ⟨sampleINS, 1⟩
          (correct_INS sampleStrapdown (Matrix.column ![1, 1, 1]) sampleINS) := by
    simp only [correct, hx, before_correct_INS]
    rfl
  have hc0 : (Matrix.column ![(1 : ℚ), 1, 1]).col0 0 = 1 := rfl
  have hc1 : (Matrix.column ![(1 : ℚ), 1, 1]).col0 1 = 1 := rfl
  have hc2 : (Matrix.column ![(1 : ℚ), 1, 1]).col0 2 = 1 := rfl
  have hrows : (Matrix.column ![(1 : ℚ), 1, 1]).rows = 3 := rfl
  have h0 : (1 : ℚ) - 1 = 0 := by norm_num
  have h1 : (2 : ℚ) - 1 = 1 := by norm_num
  have h2 : (3 : ℚ) - 1 = 2 := by norm_num
  refine ⟨hx, ⟨rfl, rfl, rfl⟩, ?_⟩
  rw [hcorrect, correct_INS_failed sampleStrapdown _ sampleINS (by decide) (by decide)]
  refine ⟨_, rfl, ?_, ?_, ?_, ?_⟩
  · simp [onINS, INS.get, hrows, hc0, sampleINS]
  · simp [onINS, INS.get, hrows, hc1, sampleINS]
    norm_num
  · simp [onINS, INS.get, hrows, hc2, sampleINS]
    norm_num
  · intro h
    have hv := congrArg (fun t : INS ℚ => t.v 0) h
    simp [onINS, hrows, hc0, sampleINS, sampleObject] at hv

/-- C8 (amended), at a concrete input: the three-row sample gain. -/
theorem correct_short_x_hat_witness :
    ∃ s', correct sampleStrapdown shortGainFilter before_correct_INS sampleObject
        (Matrix.zero 1 10) (Matrix.column ![1]) (Matrix.zero 1 1) = .failed s' ∧
      s'.m_filter = 1 ∧ s'.ins.q_e2n = sampleINS.q_e2n ∧ s'.ins.h = 100 := by
  obtain ⟨s', hs, hf, _, hq, hh, _⟩ :=
    correct_short_x_hat sampleStrapdown shortGainFilter sampleObject
      (Matrix.zero 1 10) (Matrix.column ![1]) (Matrix.zero 1 1) (Matrix.column ![1, 1, 1])
      (by simp [Matrix.mul, shortGainFilter, Matrix.column]) (by decide) (by decide)
  have hrows : (Matrix.column ![(1 : ℚ), 1, 1]).rows = 3 := rfl
  refine ⟨s', hs, ?_, ?_, ?_⟩
  · rw [hf]
    rfl
  · rw [hq]
    simp [hrows, sampleObject]
  · rw [hh]
    simp [hrows, sampleObject, sampleINS]

/-! ## The input matrix B -/

/-- C9: column 6 of `B = getB(accel, gyro, dcm_n2b)` is the unit vector of row 2:
`B(2,6) = 1` and `B(i,6) = 0` for every other row `i < 10`, whatever the inputs. -/
theorem getB_column6 (accel gyro : Vector3 F) (dcm_n2b : DCM F) :
    (getB accel gyro dcm_n2b).entry 2 6 = some 1 ∧
    ∀ i, i < 10 → i ≠ 2 → (getB accel gyro dcm_n2b).entry i 6 = some 0 := by
  refine ⟨?_, ?_⟩
  · rw [getB_entry _ _ _ _ _ (by norm_num) (by norm_num)]
    simp [B_serialized, assign]
  · intro i hi hne
    rw [getB_entry _ _ _ _ _ hi (by norm_num)]
    interval_cases i <;> simp [B_serialized, assign] at hne ⊢

/-- C10: the accelerometer block of `B` is the transpose of the nav-to-body DCM,
`B(i, j) = dcm_n2b(j, i)`, and the gyroscope block is one half of it,
`B(7+i, 3+j) = dcm_n2b(j, i) / 2`, for all `i, j` in 0..2. -/
theorem getB_blocks (accel gyro : Vector3 F) (dcm_n2b : DCM F) (i j : Fin 3) :
    (getB accel gyro dcm_n2b).entry i.val j.val = some (dcm_n2b j i) ∧
    (getB accel gyro dcm_n2b).entry (7 + i.val) (3 + j.val) = some (dcm_n2b j i / 2) ∧
    (getB accel gyro dcm_n2b).entry (7 + i.val) (3 + j.val)
      = ((getB accel gyro dcm_n2b).entry i.val j.val).map (fun b => b / 2) := by
  have hi := i.isLt
  have hj := j.isLt
  rw [getB_entry _ _ _ _ _ (by omega) (by omega), getB_entry _ _ _ _ _ (by omega) (by omega)]
  fin_cases i <;> fin_cases j <;> simp [B_serialized, assign]

/-- C11: every entry of `B` outside the accelerometer block (rows 0-2, columns
0-2), the gyroscope block (rows 7-9, columns 3-5) and the entry (2,6) is zero. -/
theorem getB_zero_outside_blocks (accel gyro : Vector3 F) (dcm_n2b : DCM F) (r c : Nat)
    (hr : r < 10) (hc : c < 7)
    (hacc : ¬(r < 3 ∧ c < 3)) (hgyro : ¬(7 ≤ r ∧ 3 ≤ c ∧ c < 6)) (hg : ¬(r = 2 ∧ c = 6)) :
    (getB accel gyro dcm_n2b).entry r c = some 0 := by
  rw [getB_entry _ _ _ _ _ hr hc]
  interval_cases r <;> interval_cases c <;>
    simp [B_serialized, assign] at hacc hgyro hg ⊢

/-- C11, at a concrete input: the entry (3, 0) of `B` for the identity DCM. -/
theorem getB_zero_outside_blocks_witness :
    (getB (![0, 0, 1] : Vector3 ℚ) ![0, 0, 0] identityDCM).entry 3 0 = some 0 :=
  getB_zero_outside_blocks ![0, 0, 1] ![0, 0, 0] identityDCM 3 0 (by decide) (by decide)
    (by decide) (by decide) (by decide)

/-! ## The system matrix A -/

/-- C12: for every input and configuration, row 6 of `A = getA(...)` has
`A(6,2) = -1` and `A(6,j) = 0` for every other column `j < 10`. -/
theorem getA_row6 (E : Earth F) (cfg : Config) (s : INS F) (accel gyro : Vector3 F)
    (dcm_e2n dcm_n2b : DCM F) :
    (getA E cfg s accel gyro dcm_e2n dcm_n2b).entry 6 2 = some (-1) ∧
    ∀ j, j < 10 → j ≠ 2 → (getA E cfg s accel gyro dcm_e2n dcm_n2b).entry 6 j = some 0 := by
  obtain ⟨rs, ce⟩ := cfg
  refine ⟨?_, ?_⟩
  · rw [getA_entry _ _ _ _ _ _ _ _ _ (by norm_num) (by norm_num)]
    cases ce <;> rfl
  · intro j hj hne
    rw [getA_entry _ _ _ _ _ _ _ _ _ (by norm_num) hj]
    cases ce <;> interval_cases j <;> first | rfl | exact absurd rfl hne

/-- C13: in every toggle configuration `A` is zero at the entries the
construction never assigns: column 5; row 0 columns 5, 7; row 1 columns 5, 8;
row 2 columns 2, 5, 9; rows 3-5 columns 2, 3, 4, 5, 7, 8, 9; row 7 columns 0, 2,
5, 7; row 8 columns 1, 2, 5, 8; row 9 columns 0, 1, 2, 5, 6, 9. The array starts
from zero on every call, so equal inputs give equal matrices. -/
theorem getA_unassigned_zero (E : Earth F) (cfg : Config) (s : INS F) (accel gyro : Vector3 F)
    (dcm_e2n dcm_n2b : DCM F) :
    (∀ p ∈ [(0, 5), (1, 5), (2, 5), (3, 5), (4, 5), (5, 5), (6, 5), (7, 5), (8, 5), (9, 5), (0,
        7), (1, 8), (2, 2), (2, 9), (3, 2), (3, 3), (3, 4), (3, 7), (3, 8), (3, 9), (4, 2),
        (4, 3), (4, 4), (4, 7), (4, 8), (4, 9), (5, 2), (5, 3), (5, 4), (5, 7), (5, 8), (5,
        9), (7, 0), (7, 2), (7, 7), (8, 1), (8, 2), (8, 8), (9, 0), (9, 1), (9, 2), (9, 6),
        (9, 9)],
      (getA E cfg s accel gyro dcm_e2n dcm_n2b).entry p.1 p.2 = some 0) ∧
    (∀ (E' : Earth F) (cfg' : Config) (s' : INS F) (accel' gyro' : Vector3 F)
      (dcm_e2n' dcm_n2b' : DCM F), E' = E → cfg' = cfg → s' = s → accel' = accel →
      gyro' = gyro → dcm_e2n' = dcm_e2n → dcm_n2b' = dcm_n2b →
      getA E' cfg' s' accel' gyro' dcm_e2n' dcm_n2b'
        = getA E cfg s accel gyro dcm_e2n dcm_n2b) := by
  obtain ⟨rs, ce⟩ := cfg
  refine ⟨?_, ?_⟩
  · simp only [List.forall_mem_cons, List.forall_mem_nil, and_true]
    cases ce <;> exact ⟨rfl, rfl, rfl, rfl, rfl, rfl, rfl, rfl, rfl, rfl, rfl, rfl, rfl, rfl, rfl, rfl, rfl, rfl, rfl, rfl, rfl, rfl, rfl, rfl, rfl, rfl, rfl, rfl, rfl, rfl, rfl, rfl, rfl, rfl, rfl, rfl, rfl, rfl, rfl, rfl, rfl, rfl, rfl, fun _ hx => nomatch hx⟩
  · rintro _ _ _ _ _ _ _ rfl rfl rfl rfl rfl rfl rfl
    rfl

/-- C14, the code at a concrete input (sample Earth with rotation rate 1, sample
state with velocity (1, 2, 3), identity DCMs): without the centripetal block
`A(0,3) = -12`, the centripetal term `coef * by_delta_r(0,0)` is 0, and with the
centripetal block `A(0,3) = 0`, not their sum `-12`. -/
theorem getA_centripetal_overwrites :
    A_serialized sampleEarth ⟨true, false⟩ sampleINS ![0, 0, 1] ![0, 0, 0] identityDCM
        identityDCM 0 3 = -12 ∧
    coef sampleEarth ⟨true, true⟩ sampleINS * by_delta_r identityDCM 0 0 = 0 ∧
    A_serialized sampleEarth ⟨true, true⟩ sampleINS ![0, 0, 1] ![0, 0, 0] identityDCM
        identityDCM 0 3 = 0 ∧
    A_serialized sampleEarth ⟨true, true⟩ sampleINS ![0, 0, 1] ![0, 0, 0] identityDCM
        identityDCM 0 3
      ≠ A_serialized sampleEarth ⟨true, false⟩ sampleINS ![0, 0, 1] ![0, 0, 0] identityDCM
          identityDCM 0 3
        + coef sampleEarth ⟨true, true⟩ sampleINS * by_delta_r identityDCM 0 0 := by
  obtain ⟨d00, d01, d02, d10, d11, d12, d20, d21, d22⟩ := identityDCM_entries
  have h1 : A_serialized sampleEarth ⟨true, false⟩ sampleINS ![0, 0, 1] ![0, 0, 0] identityDCM
      identityDCM 0 3 = -12 := by
    rw [(A_serialized_earth_rate_columns sampleEarth true sampleINS ![0, 0, 1] ![0, 0, 0]
      identityDCM identityDCM).1]
    rw [d21, d11]
    norm_num [sampleEarth, sampleINS, INS.get]
  have h2 : coef sampleEarth ⟨true, true⟩ sampleINS * by_delta_r identityDCM 0 0 = 0 := by
    have hc : by_delta_r identityDCM 0 0
        = identityDCM 0 0 * identityDCM 1 0 + identityDCM 0 1 * identityDCM 2 2
          + identityDCM 0 2 * identityDCM 2 1 := rfl
    rw [hc, d00, d10, d01, d22, d02, d21]
    norm_num
  have h3 : A_serialized sampleEarth ⟨true, true⟩ sampleINS ![0, 0, 1] ![0, 0, 0] identityDCM
      identityDCM 0 3 = 0 := by
    have e : A_serialized sampleEarth ⟨true, true⟩ sampleINS ![0, 0, 1] ![0, 0, 0] identityDCM
        identityDCM 0 3
        = (identityDCM 0 0 * identityDCM 1 0 + identityDCM 0 1 * identityDCM 2 2
            + identityDCM 0 2 * identityDCM 2 1)
          * (pow2 sampleEarth.Omega_Earth * 2
            * (sampleEarth.R_normal sampleINS.phi + sampleINS.get 7)) := rfl
    rw [e, d00, d10, d01, d22, d02, d21]
    norm_num
  refine ⟨h1, h2, h3, ?_⟩
  rw [h1, h2, h3]
  norm_num

/-- C15: reduced physics. With the strict-radius and centripetal switches off,
`Omega_Earth = 0` and `omega_e2i_4n = 0`, every entry of `A` in columns 3, 4, 5
is zero, `omega_1 = omega_2 = omega_n2e_4n`, the rotation entries of the
velocity rows and of the attitude rows are those of the transport rate, and a
nonzero entry of `A` lies in columns 0-2, 6 or 7-9. -/
theorem getA_reduced_physics (E : Earth F) (s : INS F) (accel gyro : Vector3 F)
    (dcm_e2n dcm_n2b : DCM F)
    (hOmega : E.Omega_Earth = 0) (hrate : ∀ i, s.omega_e2i_4n i = 0) :
    (∀ i j, i < 10 → 3 ≤ j → j ≤ 5 →
      (getA E ⟨false, false⟩ s accel gyro dcm_e2n dcm_n2b).entry i j = some 0) ∧
    (omega_1 s = s.omega_n2e_4n ∧ omega_2 s = s.omega_n2e_4n) ∧
    ((getA E ⟨false, false⟩ s accel gyro dcm_e2n dcm_n2b).entry 0 1
        = some (s.omega_n2e_4n 2) ∧
      (getA E ⟨false, false⟩ s accel gyro dcm_e2n dcm_n2b).entry 0 2
        = some (-s.omega_n2e_4n 1) ∧
      (getA E ⟨false, false⟩ s accel gyro dcm_e2n dcm_n2b).entry 1 0
        = some (-s.omega_n2e_4n 2) ∧
      (getA E ⟨false, false⟩ s accel gyro dcm_e2n dcm_n2b).entry 1 2
        = some (s.omega_n2e_4n 0) ∧
      (getA E ⟨false, false⟩ s accel gyro dcm_e2n dcm_n2b).entry 2 0
        = some (s.omega_n2e_4n 1 - s.v 0 / (E.R_e + s.h)) ∧
      (getA E ⟨false, false⟩ s accel gyro dcm_e2n dcm_n2b).entry 2 1
        = some (-s.omega_n2e_4n 0 - s.v 1 / (E.R_e + s.h))) ∧
    ((getA E ⟨false, false⟩ s accel gyro dcm_e2n dcm_n2b).entry 7 8
        = some (s.omega_n2e_4n 2) ∧
      (getA E ⟨false, false⟩ s accel gyro dcm_e2n dcm_n2b).entry 7 9
        = some (-s.omega_n2e_4n 1) ∧
      (getA E ⟨false, false⟩ s accel gyro dcm_e2n dcm_n2b).entry 8 7
        = some (-s.omega_n2e_4n 2) ∧
      (getA E ⟨false, false⟩ s accel gyro dcm_e2n dcm_n2b).entry 8 9
        = some (s.omega_n2e_4n 0) ∧
      (getA E ⟨false, false⟩ s accel gyro dcm_e2n dcm_n2b).entry 9 7
        = some (s.omega_n2e_4n 1) ∧
      (getA E ⟨false, false⟩ s accel gyro dcm_e2n dcm_n2b).entry 9 8
        = some (-s.omega_n2e_4n 0)) ∧
    (∀ i j x, (getA E ⟨false, false⟩ s accel gyro dcm_e2n dcm_n2b).entry i j = some x →
      x ≠ 0 → j ≤ 2 ∨ j = 6 ∨ (7 ≤ j ∧ j ≤ 9)) := by
  have h1 : omega_1 s = s.omega_n2e_4n := by
    funext i
    simp [omega_1, hrate i]
  have h2 : omega_2 s = s.omega_n2e_4n := by
    funext i
    simp [omega_2, hrate i]
  obtain ⟨e03, e04, e13, e14, e23, e24⟩ :=
    A_serialized_earth_rate_columns E false s accel gyro dcm_e2n dcm_n2b
  obtain ⟨e73, e74, e83, e84, e93, e94⟩ :=
    A_serialized_attitude_earth_rate E ⟨false, false⟩ s accel gyro dcm_e2n dcm_n2b
  obtain ⟨⟨_, v01, v02, v10, _, v12, v20, v21, _⟩, ⟨_, a78, a79, a87, _, a89, a97, a98, _⟩⟩ :=
    A_serialized_rotation_blocks E ⟨false, false⟩ s accel gyro dcm_e2n dcm_n2b
  have hzero : ∀ i j, i < 10 → 3 ≤ j → j ≤ 5 →
      A_serialized E ⟨false, false⟩ s accel gyro dcm_e2n dcm_n2b i j = 0 := by
    intro i j hi hj3 hj5
    interval_cases j <;> interval_cases i <;>
      first
        | rfl
        | simp only [e03, e04, e13, e14, e23, e24, e73, e74, e83, e84, e93, e94, hOmega,
            neg_zero, zero_mul]
  have ent : ∀ r c (_ : r < 10) (_ : c < 10) (x : F),
      A_serialized E ⟨false, false⟩ s accel gyro dcm_e2n dcm_n2b r c = x →
      (getA E ⟨false, false⟩ s accel gyro dcm_e2n dcm_n2b).entry r c = some x := by
    intro r c hr hc x h
    rw [getA_entry _ _ _ _ _ _ _ _ _ hr hc, h]
  refine ⟨?_, ⟨h1, h2⟩, ⟨?_, ?_, ?_, ?_, ?_, ?_⟩, ⟨?_, ?_, ?_, ?_, ?_, ?_⟩, ?_⟩
  · intro i j hi hj3 hj5
    exact ent i j hi (by omega) 0 (hzero i j hi hj3 hj5)
  · exact ent 0 1 (by norm_num) (by norm_num) _ (by rw [v01, h1])
  · exact ent 0 2 (by norm_num) (by norm_num) _ (by rw [v02, h1])
  · exact ent 1 0 (by norm_num) (by norm_num) _ (by rw [v10, h1])
  · exact ent 1 2 (by norm_num) (by norm_num) _ (by rw [v12, h1])
  · exact ent 2 0 (by norm_num) (by norm_num) _ (by rw [v20, h1]; rfl)
  · exact ent 2 1 (by norm_num) (by norm_num) _ (by rw [v21, h1]; rfl)
  · exact ent 7 8 (by norm_num) (by norm_num) _ (by rw [a78, h2])
  · exact ent 7 9 (by norm_num) (by norm_num) _ (by rw [a79, h2])
  · exact ent 8 7 (by norm_num) (by norm_num) _ (by rw [a87, h2])
  · exact ent 8 9 (by norm_num) (by norm_num) _ (by rw [a89, h2])
  · exact ent 9 7 (by norm_num) (by norm_num) _ (by rw [a97, h2])
  · exact ent 9 8 (by norm_num) (by norm_num) _ (by rw [a98, h2])
  · intro i j x hx hne
    have hi : i < 10 := Matrix.lt_rows_of_entry _ i j x hx
    have hj : j < 10 := Matrix.lt_columns_of_entry _ i j x hx
    by_contra hcol
    have hj3 : 3 ≤ j := by omega
    have hj5 : j ≤ 5 := by omega
    rw [getA_entry _ _ _ _ _ _ _ _ _ hi hj, hzero i j hi hj3 hj5] at hx
    exact hne (Option.some.inj hx).symm

/-- C15, at a concrete input: the non-rotating sample Earth and the sample state
(whose Earth-rate vector is zero); the entry (0, 3) of `A` is zero. -/
theorem getA_reduced_physics_witness :
    (stillEarth.Omega_Earth = 0 ∧ ∀ i, sampleINS.omega_e2i_4n i = 0) ∧
    (getA stillEarth ⟨false, false⟩ sampleINS ![0, 0, 1] ![0, 0, 0] identityDCM
      identityDCM).entry 0 3 = some 0 :=
  ⟨⟨rfl, by decide⟩,
    (getA_reduced_physics stillEarth sampleINS ![0, 0, 1] ![0, 0, 0] identityDCM identityDCM
      rfl (by decide)).1 0 3 (by decide) (by decide) (by decide)⟩

/-- C16: in strict mode `getA` divides by `Rn_1 = R_normal(phi) + h` and
`Rm_1 = R_meridian(phi) + h`, in simplified mode by `R_e + h` for both, `h`
being nominal entry 7, the entry `correct_INS` corrects with `x_hat[6]`. Where
`R_normal(phi) = R_meridian(phi) = R_e` the two modes return the same matrix. -/
theorem getA_strict_eq_simplified (E : Earth F) (ce : Bool) (s : INS F)
    (accel gyro : Vector3 F) (dcm_e2n dcm_n2b : DCM F)
    (hN : E.R_normal s.phi = E.R_e) (hM : E.R_meridian s.phi = E.R_e) :
    ((getA E ⟨true, ce⟩ s accel gyro dcm_e2n dcm_n2b).entry 1 1
        = some (s.get 2 / (E.R_normal s.phi + s.get 7)) ∧
      (getA E ⟨true, ce⟩ s accel gyro dcm_e2n dcm_n2b).entry 0 0
        = some (s.get 2 / (E.R_meridian s.phi + s.get 7)) ∧
      (getA E ⟨false, ce⟩ s accel gyro dcm_e2n dcm_n2b).entry 1 1
        = some (s.get 2 / (E.R_e + s.get 7)) ∧
      (getA E ⟨false, ce⟩ s accel gyro dcm_e2n dcm_n2b).entry 0 0
        = some (s.get 2 / (E.R_e + s.get 7))) ∧
    (Rn_1 E ⟨true, ce⟩ s = E.R_normal s.phi + s.h ∧
      Rm_1 E ⟨true, ce⟩ s = E.R_meridian s.phi + s.h ∧
      Rn_1 E ⟨false, ce⟩ s = E.R_e + s.h ∧ Rm_1 E ⟨false, ce⟩ s = E.R_e + s.h) ∧
    (∀ (M : Strapdown F) (x_hat : Matrix F), 10 ≤ x_hat.rows → 0 < x_hat.columns →
      ∃ s', correct_INS M x_hat s = .returned s' ∧ s'.h = s.h - x_hat.col0 6) ∧
    getA E ⟨true, ce⟩ s accel gyro dcm_e2n dcm_n2b
      = getA E ⟨false, ce⟩ s accel gyro dcm_e2n dcm_n2b := by
  refine ⟨?_, ⟨rfl, rfl, rfl, rfl⟩, ?_, ?_⟩
  · simp only [getA_entry _ _ _ _ _ _ _ _ _ (show 1 < 10 by norm_num) (show 1 < 10 by norm_num),
      getA_entry _ _ _ _ _ _ _ _ _ (show 0 < 10 by norm_num) (show 0 < 10 by norm_num)]
    cases ce <;> exact ⟨rfl, rfl, rfl, rfl⟩
  · intro M x_hat hr hc
    exact ⟨_, correct_INS_returned M x_hat s hr hc, rfl⟩
  · have key : A_serialized E ⟨true, ce⟩ s accel gyro dcm_e2n dcm_n2b
        = A_serialized E ⟨false, ce⟩ s accel gyro dcm_e2n dcm_n2b := by
      unfold A_serialized
      simp only [hN, hM]
      rfl
    simp only [getA, key]

/-- C16, at a concrete input: on the spherical sample Earth both radii equal
`R_e`, and the two modes give the same matrix. -/
theorem getA_strict_eq_simplified_witness :
    (sampleEarth.R_normal sampleINS.phi = sampleEarth.R_e ∧
      sampleEarth.R_meridian sampleINS.phi = sampleEarth.R_e) ∧
    getA sampleEarth ⟨true, true⟩ sampleINS ![0, 0, 1] ![0, 0, 0] identityDCM identityDCM
      = getA sampleEarth ⟨false, true⟩ sampleINS ![0, 0, 1] ![0, 0, 0] identityDCM identityDCM :=
  ⟨⟨rfl, rfl⟩,
    (getA_strict_eq_simplified sampleEarth true sampleINS ![0, 0, 1] ![0, 0, 0] identityDCM
      identityDCM rfl rfl).2.2.2⟩

/-- C20: in every configuration the velocity block `A[0..2][0..2]` is built from
`omega_1 = 2 * omega_e2i_4n + omega_n2e_4n`: it is the matrix of `u ↦ u × omega_1`
(entries (0,1) = `omega_1[2]`, (0,2) = `-omega_1[1]`, (1,0) = `-omega_1[2]`,
(1,2) = `omega_1[0]`, (2,0) = `omega_1[1]`, (2,1) = `-omega_1[0]`) plus the
curvature terms `v2/Rm_1` at (0,0), `v2/Rn_1` at (1,1), `-v0/Rm_1` at (2,0) and
`-v1/Rn_1` at (2,1), with `A(2,2) = 0`; `v` is the nominal velocity. -/
theorem getA_velocity_block (E : Earth F) (cfg : Config) (s : INS F)
    (accel gyro : Vector3 F) (dcm_e2n dcm_n2b : DCM F) :
    (∀ i, omega_1 s i = 2 * s.omega_e2i_4n i + s.omega_n2e_4n i) ∧
    ((getA E cfg s accel gyro dcm_e2n dcm_n2b).entry 0 0 = some (s.v 2 / Rm_1 E cfg s) ∧
      (getA E cfg s accel gyro dcm_e2n dcm_n2b).entry 0 1 = some (omega_1 s 2) ∧
      (getA E cfg s accel gyro dcm_e2n dcm_n2b).entry 0 2 = some (-omega_1 s 1) ∧
      (getA E cfg s accel gyro dcm_e2n dcm_n2b).entry 1 0 = some (-omega_1 s 2) ∧
      (getA E cfg s accel gyro dcm_e2n dcm_n2b).entry 1 1 = some (s.v 2 / Rn_1 E cfg s) ∧
      (getA E cfg s accel gyro dcm_e2n dcm_n2b).entry 1 2 = some (omega_1 s 0) ∧
      (getA E cfg s accel gyro dcm_e2n dcm_n2b).entry 2 0
        = some (omega_1 s 1 - s.v 0 / Rm_1 E cfg s) ∧
      (getA E cfg s accel gyro dcm_e2n dcm_n2b).entry 2 1
        = some (-omega_1 s 0 - s.v 1 / Rn_1 E cfg s) ∧
      (getA E cfg s accel gyro dcm_e2n dcm_n2b).entry 2 2 = some 0) ∧
    (∀ u : Vector3 F,
      A_serialized E cfg s accel gyro dcm_e2n dcm_n2b 0 0 * u 0
          + A_serialized E cfg s accel gyro dcm_e2n dcm_n2b 0 1 * u 1
          + A_serialized E cfg s accel gyro dcm_e2n dcm_n2b 0 2 * u 2
        = cross u (omega_1 s) 0 + s.v 2 / Rm_1 E cfg s * u 0 ∧
      A_serialized E cfg s accel gyro dcm_e2n dcm_n2b 1 0 * u 0
          + A_serialized E cfg s accel gyro dcm_e2n dcm_n2b 1 1 * u 1
          + A_serialized E cfg s accel gyro dcm_e2n dcm_n2b 1 2 * u 2
        = cross u (omega_1 s) 1 + s.v 2 / Rn_1 E cfg s * u 1 ∧
      A_serialized E cfg s accel gyro dcm_e2n dcm_n2b 2 0 * u 0
          + A_serialized E cfg s accel gyro dcm_e2n dcm_n2b 2 1 * u 1
          + A_serialized E cfg s accel gyro dcm_e2n dcm_n2b 2 2 * u 2
        = cross u (omega_1 s) 2 + (-(s.v 0 / Rm_1 E cfg s) * u 0
          + -(s.v 1 / Rn_1 E cfg s) * u 1)) := by
  obtain ⟨⟨v00, v01, v02, v10, v11, v12, v20, v21, v22⟩, _⟩ :=
    A_serialized_rotation_blocks E cfg s accel gyro dcm_e2n dcm_n2b
  have ent : ∀ r c (_ : r < 10) (_ : c < 10) (x : F),
      A_serialized E cfg s accel gyro dcm_e2n dcm_n2b r c = x →
      (getA E cfg s accel gyro dcm_e2n dcm_n2b).entry r c = some x := by
    intro r c hr hc x h
    rw [getA_entry _ _ _ _ _ _ _ _ _ hr hc, h]
  refine ⟨?_, ⟨?_, ?_, ?_, ?_, ?_, ?_, ?_, ?_, ?_⟩, ?_⟩
  · intro i
    simp only [omega_1]
    ring
  · exact ent 0 0 (by norm_num) (by norm_num) _ v00
  · exact ent 0 1 (by norm_num) (by norm_num) _ v01
  · exact ent 0 2 (by norm_num) (by norm_num) _ v02
  · exact ent 1 0 (by norm_num) (by norm_num) _ v10
  · exact ent 1 1 (by norm_num) (by norm_num) _ v11
  · exact ent 1 2 (by norm_num) (by norm_num) _ v12
  · exact ent 2 0 (by norm_num) (by norm_num) _ v20
  · exact ent 2 1 (by norm_num) (by norm_num) _ v21
  · exact ent 2 2 (by norm_num) (by norm_num) _ v22
  · intro u
    have c0 : cross u (omega_1 s) 0 = u 1 * omega_1 s 2 - u 2 * omega_1 s 1 := rfl
    have c1 : cross u (omega_1 s) 1 = u 2 * omega_1 s 0 - u 0 * omega_1 s 2 := rfl
    have c2 : cross u (omega_1 s) 2 = u 0 * omega_1 s 1 - u 1 * omega_1 s 0 := rfl
    rw [v00, v01, v02, v10, v11, v12, v20, v21, v22, c0, c1, c2]
    refine ⟨?_, ?_, ?_⟩ <;> ring

/-- C21: accelerometer-lever block. With `f = transpose(dcm_n2b) * accel`
(`f_k = Σ_j dcm_n2b(j,k) * accel(j)`), the block `A[0..2][7..9]` applied to any
`u` is `2 * (u × f)`; the block is skew-symmetric with zero diagonal
(`A(0,7) = A(1,8) = A(2,9) = 0`). Holds in every configuration. -/
theorem getA_lever_block (E : Earth F) (cfg : Config) (s : INS F)
    (accel gyro : Vector3 F) (dcm_e2n dcm_n2b : DCM F) :
    (∀ u : Vector3 F, ∀ i : Fin 3,
      A_serialized E cfg s accel gyro dcm_e2n dcm_n2b i.val 7 * u 0
          + A_serialized E cfg s accel gyro dcm_e2n dcm_n2b i.val 8 * u 1
          + A_serialized E cfg s accel gyro dcm_e2n dcm_n2b i.val 9 * u 2
        = 2 * cross u (lever_force accel dcm_n2b) i) ∧
    (∀ i j : Fin 3,
      A_serialized E cfg s accel gyro dcm_e2n dcm_n2b i.val (7 + j.val)
        = -A_serialized E cfg s accel gyro dcm_e2n dcm_n2b j.val (7 + i.val)) ∧
    ((getA E cfg s accel gyro dcm_e2n dcm_n2b).entry 0 7 = some 0 ∧
      (getA E cfg s accel gyro dcm_e2n dcm_n2b).entry 1 8 = some 0 ∧
      (getA E cfg s accel gyro dcm_e2n dcm_n2b).entry 2 9 = some 0) ∧
    ((getA E cfg s accel gyro dcm_e2n dcm_n2b).entry 0 8
        = some (2 * lever_force accel dcm_n2b 2) ∧
      (getA E cfg s accel gyro dcm_e2n dcm_n2b).entry 0 9
        = some (-2 * lever_force accel dcm_n2b 1) ∧
      (getA E cfg s accel gyro dcm_e2n dcm_n2b).entry 1 9
        = some (2 * lever_force accel dcm_n2b 0)) := by
  obtain ⟨a07, a08, a09, a17, a18, a19, a27, a28, a29⟩ :=
    A_serialized_lever_block E cfg s accel gyro dcm_e2n dcm_n2b
  have f0 : lever_force accel dcm_n2b 0
      = dcm_n2b 0 0 * accel 0 + dcm_n2b 1 0 * accel 1 + dcm_n2b 2 0 * accel 2 := rfl
  have f1 : lever_force accel dcm_n2b 1
      = dcm_n2b 0 1 * accel 0 + dcm_n2b 1 1 * accel 1 + dcm_n2b 2 1 * accel 2 := rfl
  have f2 : lever_force accel dcm_n2b 2
      = dcm_n2b 0 2 * accel 0 + dcm_n2b 1 2 * accel 1 + dcm_n2b 2 2 * accel 2 := rfl
  refine ⟨?_, ?_, ⟨?_, ?_, ?_⟩, ⟨?_, ?_, ?_⟩⟩
  · intro u i
    have c0 : cross u (lever_force accel dcm_n2b) 0
        = u 1 * lever_force accel dcm_n2b 2 - u 2 * lever_force accel dcm_n2b 1 := rfl
    have c1 : cross u (lever_force accel dcm_n2b) 1
        = u 2 * lever_force accel dcm_n2b 0 - u 0 * lever_force accel dcm_n2b 2 := rfl
    have c2 : cross u (lever_force accel dcm_n2b) 2
        = u 0 * lever_force accel dcm_n2b 1 - u 1 * lever_force accel dcm_n2b 0 := rfl
    fin_cases i
    · show A_serialized E cfg s accel gyro dcm_e2n dcm_n2b 0 7 * u 0
          + A_serialized E cfg s accel gyro dcm_e2n dcm_n2b 0 8 * u 1
          + A_serialized E cfg s accel gyro dcm_e2n dcm_n2b 0 9 * u 2
        = 2 * cross u (lever_force accel dcm_n2b) 0
      rw [a07, a08, a09, c0, f1, f2]
      ring
    · show A_serialized E cfg s accel gyro dcm_e2n dcm_n2b 1 7 * u 0
          + A_serialized E cfg s accel gyro dcm_e2n dcm_n2b 1 8 * u 1
          + A_serialized E cfg s accel gyro dcm_e2n dcm_n2b 1 9 * u 2
        = 2 * cross u (lever_force accel dcm_n2b) 1
      rw [a17, a18, a19, c1, f0, f2]
      ring
    · show A_serialized E cfg s accel gyro dcm_e2n dcm_n2b 2 7 * u 0
          + A_serialized E cfg s accel gyro dcm_e2n dcm_n2b 2 8 * u 1
          + A_serialized E cfg s accel gyro dcm_e2n dcm_n2b 2 9 * u 2
        = 2 * cross u (lever_force accel dcm_n2b) 2
      rw [a27, a28, a29, c2, f0, f1]
      ring
  · intro i j
    fin_cases i <;> fin_cases j <;>
      simp only [Fin.val_zero, Fin.val_one, Fin.val_two, Fin.zero_eta, Fin.mk_one,
        Fin.reduceFinMk, Nat.add_zero, Nat.reduceAdd, a07, a08, a09, a17, a18, a19, a27, a28,
        a29, neg_zero, neg_neg]
  · rw [getA_entry _ _ _ _ _ _ _ _ _ (by norm_num) (by norm_num), a07]
  · rw [getA_entry _ _ _ _ _ _ _ _ _ (by norm_num) (by norm_num), a18]
  · rw [getA_entry _ _ _ _ _ _ _ _ _ (by norm_num) (by norm_num), a29]
  · rw [getA_entry _ _ _ _ _ _ _ _ _ (by norm_num) (by norm_num), a08, f2, mul_comm]
  · rw [getA_entry _ _ _ _ _ _ _ _ _ (by norm_num) (by norm_num), a09, f1, mul_comm]
  · rw [getA_entry _ _ _ _ _ _ _ _ _ (by norm_num) (by norm_num), a19, f0, mul_comm]

/-- C22: attitude block. In every configuration `A[7..9][7..9]` is the matrix of
`u ↦ u × omega_2` with `omega_2 = omega_e2i_4n + omega_n2e_4n` (no factor 2 on
the Earth rate); it is skew-symmetric with zero diagonal. -/
theorem getA_attitude_block (E : Earth F) (cfg : Config) (s : INS F)
    (accel gyro : Vector3 F) (dcm_e2n dcm_n2b : DCM F) :
    (∀ i, omega_2 s i = s.omega_e2i_4n i + s.omega_n2e_4n i) ∧
    (∀ u : Vector3 F, ∀ i : Fin 3,
      A_serialized E cfg s accel gyro dcm_e2n dcm_n2b (7 + i.val) 7 * u 0
          + A_serialized E cfg s accel gyro dcm_e2n dcm_n2b (7 + i.val) 8 * u 1
          + A_serialized E cfg s accel gyro dcm_e2n dcm_n2b (7 + i.val) 9 * u 2
        = cross u (omega_2 s) i) ∧
    (∀ i j : Fin 3,
      A_serialized E cfg s accel gyro dcm_e2n dcm_n2b (7 + i.val) (7 + j.val)
        = -A_serialized E cfg s accel gyro dcm_e2n dcm_n2b (7 + j.val) (7 + i.val)) ∧
    ((getA E cfg s accel gyro dcm_e2n dcm_n2b).entry 7 7 = some 0 ∧
      (getA E cfg s accel gyro dcm_e2n dcm_n2b).entry 8 8 = some 0 ∧
      (getA E cfg s accel gyro dcm_e2n dcm_n2b).entry 9 9 = some 0) ∧
    ((getA E cfg s accel gyro dcm_e2n dcm_n2b).entry 7 8 = some (omega_2 s 2) ∧
      (getA E cfg s accel gyro dcm_e2n dcm_n2b).entry 7 9 = some (-omega_2 s 1) ∧
      (getA E cfg s accel gyro dcm_e2n dcm_n2b).entry 8 9 = some (omega_2 s 0)) := by
  obtain ⟨_, ⟨a77, a78, a79, a87, a88, a89, a97, a98, a99⟩⟩ :=
    A_serialized_rotation_blocks E cfg s accel gyro dcm_e2n dcm_n2b
  refine ⟨fun _ => rfl, ?_, ?_, ⟨?_, ?_, ?_⟩, ⟨?_, ?_, ?_⟩⟩
  · intro u i
    have c0 : cross u (omega_2 s) 0 = u 1 * omega_2 s 2 - u 2 * omega_2 s 1 := rfl
    have c1 : cross u (omega_2 s) 1 = u 2 * omega_2 s 0 - u 0 * omega_2 s 2 := rfl
    have c2 : cross u (omega_2 s) 2 = u 0 * omega_2 s 1 - u 1 * omega_2 s 0 := rfl
    fin_cases i
    · show A_serialized E cfg s accel gyro dcm_e2n dcm_n2b 7 7 * u 0
          + A_serialized E cfg s accel gyro dcm_e2n dcm_n2b 7 8 * u 1
          + A_serialized E cfg s accel gyro dcm_e2n dcm_n2b 7 9 * u 2
        = cross u (omega_2 s) 0
      rw [a77, a78, a79, c0]
      ring
    · show A_serialized E cfg s accel gyro dcm_e2n dcm_n2b 8 7 * u 0
          + A_serialized E cfg s accel gyro dcm_e2n dcm_n2b 8 8 * u 1
          + A_serialized E cfg s accel gyro dcm_e2n dcm_n2b 8 9 * u 2
        = cross u (omega_2 s) 1
      rw [a87, a88, a89, c1]
      ring
    · show A_serialized E cfg s accel gyro dcm_e2n dcm_n2b 9 7 * u 0
          + A_serialized E cfg s accel gyro dcm_e2n dcm_n2b 9 8 * u 1
          + A_serialized E cfg s accel gyro dcm_e2n dcm_n2b 9 9 * u 2
        = cross u (omega_2 s) 2
      rw [a97, a98, a99, c2]
      ring
  · intro i j
    fin_cases i <;> fin_cases j <;>
      simp only [Fin.val_zero, Fin.val_one, Fin.val_two, Fin.zero_eta, Fin.mk_one,
        Fin.reduceFinMk, Nat.add_zero, Nat.reduceAdd, a77, a78, a79, a87, a88, a89, a97, a98,
        a99, neg_zero, neg_neg]
  · rw [getA_entry _ _ _ _ _ _ _ _ _ (by norm_num) (by norm_num), a77]
  · rw [getA_entry _ _ _ _ _ _ _ _ _ (by norm_num) (by norm_num), a88]
  · rw [getA_entry _ _ _ _ _ _ _ _ _ (by norm_num) (by norm_num), a99]
  · rw [getA_entry _ _ _ _ _ _ _ _ _ (by norm_num) (by norm_num), a78]
  · rw [getA_entry _ _ _ _ _ _ _ _ _ (by norm_num) (by norm_num), a79]
  · rw [getA_entry _ _ _ _ _ _ _ _ _ (by norm_num) (by norm_num), a89]

/-- C23: attitude rows, non-rotational couplings. In every configuration
`A(7,1) = -1/(2*Rn_1)`, `A(8,0) = 1/(2*Rm_1)` and every other entry of
`A[7..9][0..2]` is zero; `A(7+i,3) = -Omega_Earth * dcm_e2n(i,1)` and
`A(7+i,4) = Omega_Earth * dcm_e2n(i,0)` for `i = 0, 1, 2`. -/
theorem getA_attitude_couplings (E : Earth F) (cfg : Config) (s : INS F)
    (accel gyro : Vector3 F) (dcm_e2n dcm_n2b : DCM F) :
    ((getA E cfg s accel gyro dcm_e2n dcm_n2b).entry 7 1 = some (-1 / (2 * Rn_1 E cfg s)) ∧
      (getA E cfg s accel gyro dcm_e2n dcm_n2b).entry 8 0 = some (1 / (2 * Rm_1 E cfg s))) ∧
    (∀ i j : Fin 3, ¬(i = 0 ∧ j = 1) → ¬(i = 1 ∧ j = 0) →
      (getA E cfg s accel gyro dcm_e2n dcm_n2b).entry (7 + i.val) j.val = some 0) ∧
    (∀ i : Fin 3,
      (getA E cfg s accel gyro dcm_e2n dcm_n2b).entry (7 + i.val) 3
        = some (-E.Omega_Earth * dcm_e2n i 1) ∧
      (getA E cfg s accel gyro dcm_e2n dcm_n2b).entry (7 + i.val) 4
        = some (E.Omega_Earth * dcm_e2n i 0)) := by
  obtain ⟨_, ⟨a70, a71, a72, a80, a81, a82, a90, a91, a92⟩⟩ :=
    A_serialized_velocity_columns E cfg s accel gyro dcm_e2n dcm_n2b
  obtain ⟨e73, e74, e83, e84, e93, e94⟩ :=
    A_serialized_attitude_earth_rate E cfg s accel gyro dcm_e2n dcm_n2b
  have ent : ∀ r c (_ : r < 10) (_ : c < 10) (x : F),
      A_serialized E cfg s accel gyro dcm_e2n dcm_n2b r c = x →
      (getA E cfg s accel gyro dcm_e2n dcm_n2b).entry r c = some x := by
    intro r c hr hc x h
    rw [getA_entry _ _ _ _ _ _ _ _ _ hr hc, h]
  refine ⟨⟨?_, ?_⟩, ?_, ?_⟩
  · refine ent 7 1 (by norm_num) (by norm_num) _ ?_
    rw [a71, div_div, mul_comm]
  · refine ent 8 0 (by norm_num) (by norm_num) _ ?_
    rw [a80, div_div, mul_comm]
  · intro i j h01 h10
    fin_cases i <;> fin_cases j
    · exact ent 7 0 (by norm_num) (by norm_num) _ a70
    · exact absurd ⟨rfl, rfl⟩ h01
    · exact ent 7 2 (by norm_num) (by norm_num) _ a72
    · exact absurd ⟨rfl, rfl⟩ h10
    · exact ent 8 1 (by norm_num) (by norm_num) _ a81
    · exact ent 8 2 (by norm_num) (by norm_num) _ a82
    · exact ent 9 0 (by norm_num) (by norm_num) _ a90
    · exact ent 9 1 (by norm_num) (by norm_num) _ a91
    · exact ent 9 2 (by norm_num) (by norm_num) _ a92
  · intro i
    fin_cases i
    · exact ⟨ent 7 3 (by norm_num) (by norm_num) _ e73,
        ent 7 4 (by norm_num) (by norm_num) _ e74⟩
    · exact ⟨ent 8 3 (by norm_num) (by norm_num) _ e83,
        ent 8 4 (by norm_num) (by norm_num) _ e84⟩
    · exact ⟨ent 9 3 (by norm_num) (by norm_num) _ e93,
        ent 9 4 (by norm_num) (by norm_num) _ e94⟩

/-- C24: horizontal-position rows. In every configuration, for `k = 0, 1, 2`,
`A(3+k,0) = -dcm_e2n(1,k) / (2*Rm_1)`, `A(3+k,1) = dcm_e2n(0,k) / (2*Rn_1)` and
`A(3+k,2) = 0`. -/
theorem getA_position_rows (E : Earth F) (cfg : Config) (s : INS F)
    (accel gyro : Vector3 F) (dcm_e2n dcm_n2b : DCM F) (k : Fin 3) :
    (getA E cfg s accel gyro dcm_e2n dcm_n2b).entry (3 + k.val) 0
      = some (-dcm_e2n 1 k / (2 * Rm_1 E cfg s)) ∧
    (getA E cfg s accel gyro dcm_e2n dcm_n2b).entry (3 + k.val) 1
      = some (dcm_e2n 0 k / (2 * Rn_1 E cfg s)) ∧
    (getA E cfg s accel gyro dcm_e2n dcm_n2b).entry (3 + k.val) 2 = some 0 := by
  obtain ⟨⟨a30, a31, a32, a40, a41, a42, a50, a51, a52⟩, _⟩ :=
    A_serialized_velocity_columns E cfg s accel gyro dcm_e2n dcm_n2b
  have ent : ∀ r c (_ : r < 10) (_ : c < 10) (x : F),
      A_serialized E cfg s accel gyro dcm_e2n dcm_n2b r c = x →
      (getA E cfg s accel gyro dcm_e2n dcm_n2b).entry r c = some x := by
    intro r c hr hc x h
    rw [getA_entry _ _ _ _ _ _ _ _ _ hr hc, h]
  fin_cases k
  · exact ⟨ent 3 0 (by norm_num) (by norm_num) _ (by rw [a30, div_div]; rfl),
      ent 3 1 (by norm_num) (by norm_num) _ (by rw [a31, div_div]; rfl),
      ent 3 2 (by norm_num) (by norm_num) _ a32⟩
  · exact ⟨ent 4 0 (by norm_num) (by norm_num) _ (by rw [a40, div_div]; rfl),
      ent 4 1 (by norm_num) (by norm_num) _ (by rw [a41, div_div]; rfl),
      ent 4 2 (by norm_num) (by norm_num) _ a42⟩
  · exact ⟨ent 5 0 (by norm_num) (by norm_num) _ (by rw [a50, div_div]; rfl),
      ent 5 1 (by norm_num) (by norm_num) _ (by rw [a51, div_div]; rfl),
      ent 5 2 (by norm_num) (by norm_num) _ a52⟩

/-- C25: with the centripetal block disabled, column 6 of `A` is the altitude
derivative of the curvature terms: for rows `r` in {3, 4, 5, 7, 8},
`A(r,6) = -(A(r,0) * v0 / Rm_1 + A(r,1) * v1 / Rn_1)`; in the velocity rows
`A(0,6) = -A(0,0) * v0 / Rm_1 = -v0*v2/Rm_1^2`,
`A(1,6) = -A(1,1) * v1 / Rn_1 = -v1*v2/Rn_1^2` and
`A(2,6) = v0^2/Rm_1^2 + v1^2/Rn_1^2`; `A(9,6) = 0`. The identities hold for all
values of the radii, in particular for nonzero ones. -/
theorem getA_altitude_column (E : Earth F) (rs : Bool) (s : INS F)
    (accel gyro : Vector3 F) (dcm_e2n dcm_n2b : DCM F) :
    (∀ r, r = 3 ∨ r = 4 ∨ r = 5 ∨ r = 7 ∨ r = 8 →
      A_serialized E ⟨rs, false⟩ s accel gyro dcm_e2n dcm_n2b r 6
        = -(A_serialized E ⟨rs, false⟩ s accel gyro dcm_e2n dcm_n2b r 0 * s.v 0
              / Rm_1 E ⟨rs, false⟩ s
            + A_serialized E ⟨rs, false⟩ s accel gyro dcm_e2n dcm_n2b r 1 * s.v 1
              / Rn_1 E ⟨rs, false⟩ s)) ∧
    (A_serialized E ⟨rs, false⟩ s accel gyro dcm_e2n dcm_n2b 0 6
        = -A_serialized E ⟨rs, false⟩ s accel gyro dcm_e2n dcm_n2b 0 0 * s.v 0
          / Rm_1 E ⟨rs, false⟩ s ∧
      A_serialized E ⟨rs, false⟩ s accel gyro dcm_e2n dcm_n2b 1 6
        = -A_serialized E ⟨rs, false⟩ s accel gyro dcm_e2n dcm_n2b 1 1 * s.v 1
          / Rn_1 E ⟨rs, false⟩ s) ∧
    ((getA E ⟨rs, false⟩ s accel gyro dcm_e2n dcm_n2b).entry 0 6
        = some (-s.v 0 * s.v 2 / Rm_1 E ⟨rs, false⟩ s ^ 2) ∧
      (getA E ⟨rs, false⟩ s accel gyro dcm_e2n dcm_n2b).entry 1 6
        = some (-s.v 1 * s.v 2 / Rn_1 E ⟨rs, false⟩ s ^ 2) ∧
      (getA E ⟨rs, false⟩ s accel gyro dcm_e2n dcm_n2b).entry 2 6
        = some (s.v 0 ^ 2 / Rm_1 E ⟨rs, false⟩ s ^ 2 + s.v 1 ^ 2 / Rn_1 E ⟨rs, false⟩ s ^ 2) ∧
      (getA E ⟨rs, false⟩ s accel gyro dcm_e2n dcm_n2b).entry 9 6 = some 0) := by
  obtain ⟨hrows, ⟨a06, a16, a26⟩, _⟩ :=
    A_serialized_altitude_column E rs s accel gyro dcm_e2n dcm_n2b
  obtain ⟨a36, a46, a56, a76, a86, a96⟩ := hrows false
  obtain ⟨⟨a30, a31, _, a40, a41, _, a50, a51, _⟩, ⟨a70, a71, _, a80, a81, _, _, _, _⟩⟩ :=
    A_serialized_velocity_columns E ⟨rs, false⟩ s accel gyro dcm_e2n dcm_n2b
  obtain ⟨⟨a00, _, _, _, a11, _, _, _, _⟩, _⟩ :=
    A_serialized_rotation_blocks E ⟨rs, false⟩ s accel gyro dcm_e2n dcm_n2b
  have ent : ∀ r c (_ : r < 10) (_ : c < 10) (x : F),
      A_serialized E ⟨rs, false⟩ s accel gyro dcm_e2n dcm_n2b r c = x →
      (getA E ⟨rs, false⟩ s accel gyro dcm_e2n dcm_n2b).entry r c = some x := by
    intro r c hr hc x h
    rw [getA_entry _ _ _ _ _ _ _ _ _ hr hc, h]
  refine ⟨?_, ⟨?_, ?_⟩, ⟨?_, ?_, ?_, ?_⟩⟩
  · intro r hr
    rcases hr with rfl | rfl | rfl | rfl | rfl
    · rw [a36, a30, a31, pow2, pow2]
      ring
    · rw [a46, a40, a41, pow2, pow2]
      ring
    · rw [a56, a50, a51, pow2, pow2]
      ring
    · rw [a76, a70, a71, pow2]
      ring
    · rw [a86, a80, a81, pow2]
      ring
  · rw [a06, a00, pow2]
    ring
  · rw [a16, a11, pow2]
    ring
  · refine ent 0 6 (by norm_num) (by norm_num) _ ?_
    rw [a06, pow2]
    ring
  · refine ent 1 6 (by norm_num) (by norm_num) _ ?_
    rw [a16, pow2]
    ring
  · refine ent 2 6 (by norm_num) (by norm_num) _ ?_
    rw [a26, pow2, pow2, pow2, pow2]
    ring
  · exact ent 9 6 (by norm_num) (by norm_num) _ a96

/-- C26 (amended): with the centripetal block disabled, the Earth-rate entries of
the velocity rows read `dcm_e2n` through its columns 0 and 1 only: `A(i,3)`,
`i = 0, 1, 2`, is the same for two `dcm_e2n` with equal column 1, `A(i,4)` is
the same for two `dcm_e2n` with equal column 0, all other inputs being equal;
the third column does not enter. -/
theorem getA_earth_rate_columns_depend_on (E : Earth F) (rs : Bool) (s : INS F)
    (accel gyro : Vector3 F) (dcm_e2n dcm_e2n' dcm_n2b : DCM F) :
    ((∀ r, dcm_e2n r 1 = dcm_e2n' r 1) → ∀ i, i < 3 →
      (getA E ⟨rs, false⟩ s accel gyro dcm_e2n dcm_n2b).entry i 3
        = (getA E ⟨rs, false⟩ s accel gyro dcm_e2n' dcm_n2b).entry i 3) ∧
    ((∀ r, dcm_e2n r 0 = dcm_e2n' r 0) → ∀ i, i < 3 →
      (getA E ⟨rs, false⟩ s accel gyro dcm_e2n dcm_n2b).entry i 4
        = (getA E ⟨rs, false⟩ s accel gyro dcm_e2n' dcm_n2b).entry i 4) := by
  obtain ⟨e03, e04, e13, e14, e23, e24⟩ :=
    A_serialized_earth_rate_columns E rs s accel gyro dcm_e2n dcm_n2b
  obtain ⟨e03', e04', e13', e14', e23', e24'⟩ :=
    A_serialized_earth_rate_columns E rs s accel gyro dcm_e2n' dcm_n2b
  refine ⟨?_, ?_⟩
  · intro h i hi
    rw [getA_entry _ _ _ _ _ _ _ _ _ (by omega) (by norm_num),
      getA_entry _ _ _ _ _ _ _ _ _ (by omega) (by norm_num)]
    interval_cases i
    · rw [e03, e03', h 2, h 1]
    · rw [e13, e13', h 0, h 2]
    · rw [e23, e23', h 1, h 0]
  · intro h i hi
    rw [getA_entry _ _ _ _ _ _ _ _ _ (by omega) (by norm_num),
      getA_entry _ _ _ _ _ _ _ _ _ (by omega) (by norm_num)]
    interval_cases i
    · rw [e04, e04', h 1, h 2]
    · rw [e14, e14', h 2, h 0]
    · rw [e24, e24', h 0, h 1]

/-- C26, counterexample: the identity and the quarter turn about the third axis
have the same third column (0, 0, 1); with rotation rate 1 and velocity
(1, 2, 3), all other inputs equal and the centripetal block disabled, `A(0,3)`
is -12 for the first and 0 for the second. -/
theorem getA_third_column_counterexample :
    (identityDCM 0 2 = quarterTurnDCM 0 2 ∧ identityDCM 1 2 = quarterTurnDCM 1 2 ∧
      identityDCM 2 2 = quarterTurnDCM 2 2) ∧
    (getA sampleEarth ⟨true, false⟩ sampleINS ![0, 0, 1] ![0, 0, 0] identityDCM
      identityDCM).entry 0 3 = some (-12) ∧
    (getA sampleEarth ⟨true, false⟩ sampleINS ![0, 0, 1] ![0, 0, 0] quarterTurnDCM
      identityDCM).entry 0 3 = some 0 ∧
    (getA sampleEarth ⟨true, false⟩ sampleINS ![0, 0, 1] ![0, 0, 0] identityDCM
        identityDCM).entry 0 3
      ≠ (getA sampleEarth ⟨true, false⟩ sampleINS ![0, 0, 1] ![0, 0, 0] quarterTurnDCM
        identityDCM).entry 0 3 := by
  obtain ⟨_, _, _, _, d11, _, _, d21, _⟩ := identityDCM_entries
  obtain ⟨_, _, _, _, q11, _, _, q21, _⟩ := quarterTurnDCM_entries
  have h1 : (getA sampleEarth ⟨true, false⟩ sampleINS ![0, 0, 1] ![0, 0, 0] identityDCM
      identityDCM).entry 0 3 = some (-12) := by
    rw [getA_entry _ _ _ _ _ _ _ _ _ (by norm_num) (by norm_num),
      (A_serialized_earth_rate_columns sampleEarth true sampleINS ![0, 0, 1] ![0, 0, 0]
        identityDCM identityDCM).1, d21, d11]
    norm_num [sampleEarth, sampleINS, INS.get]
  have h2 : (getA sampleEarth ⟨true, false⟩ sampleINS ![0, 0, 1] ![0, 0, 0] quarterTurnDCM
      identityDCM).entry 0 3 = some 0 := by
    rw [getA_entry _ _ _ _ _ _ _ _ _ (by norm_num) (by norm_num),
      (A_serialized_earth_rate_columns sampleEarth true sampleINS ![0, 0, 1] ![0, 0, 0]
        quarterTurnDCM identityDCM).1, q21, q11]
    norm_num
  refine ⟨⟨rfl, rfl, rfl⟩, h1, h2, ?_⟩
  rw [h1, h2]
  norm_num

/-- C26 (amended), at a concrete input: the identity and a DCM that differs from
it in the third column only give the same `A(0,3)` and `A(0,4)`. -/
theorem getA_earth_rate_columns_depend_on_witness :
    ((∀ r, identityDCM r 1 = thirdColumnDCM r 1) ∧
      (∀ r, identityDCM r 0 = thirdColumnDCM r 0) ∧ identityDCM 0 2 ≠ thirdColumnDCM 0 2) ∧
    (getA sampleEarth ⟨true, false⟩ sampleINS ![0, 0, 1] ![0, 0, 0] identityDCM
        identityDCM).entry 0 3
      = (getA sampleEarth ⟨true, false⟩ sampleINS ![0, 0, 1] ![0, 0, 0] thirdColumnDCM
        identityDCM).entry 0 3 ∧
    (getA sampleEarth ⟨true, false⟩ sampleINS ![0, 0, 1] ![0, 0, 0] identityDCM
        identityDCM).entry 0 4
      = (getA sampleEarth ⟨true, false⟩ sampleINS ![0, 0, 1] ![0, 0, 0] thirdColumnDCM
        identityDCM).entry 0 4 :=
  ⟨⟨by decide, by decide, by decide⟩,
    (getA_earth_rate_columns_depend_on sampleEarth true sampleINS ![0, 0, 1] ![0, 0, 0]
      identityDCM thirdColumnDCM identityDCM).1 (by decide) 0 (by decide),
    (getA_earth_rate_columns_depend_on sampleEarth true sampleINS ![0, 0, 1] ![0, 0, 0]
      identityDCM thirdColumnDCM identityDCM).2 (by decide) 0 (by decide)⟩

/-- C28: `correct_INS` does not renormalize. For `x_hat` with at least ten rows
the call returns `recalc` of a state `t` (the state right before
`INS::recalc`, the same for every mechanizer) in which the squared norm of
`q_e2n` is `(1 + x_hat[3]^2 + x_hat[4]^2 + x_hat[5]^2)` times its squared norm
before, and the squared norm of `q_n2b` is
`(1 + x_hat[7]^2 + x_hat[8]^2 + x_hat[9]^2)` times its squared norm before; the
change of either squared norm is of second order in the correction. What
`recalc` returns are these two quaternions renormalized. -/
theorem correct_INS_norm_growth (M : Strapdown F) (x_hat : Matrix F) (s : INS F)
    (hr : 10 ≤ x_hat.rows) (hc : 0 < x_hat.columns) :
    ∃ t, correct_INS M x_hat s = .returned (INS.recalc M t) ∧
      (∀ M' : Strapdown F, correct_INS M' x_hat s = .returned (INS.recalc M' t)) ∧
      t.q_e2n.abs2
        = (1 + x_hat.col0 3 ^ 2 + x_hat.col0 4 ^ 2 + x_hat.col0 5 ^ 2) * s.q_e2n.abs2 ∧
      t.q_n2b.abs2
        = (1 + x_hat.col0 7 ^ 2 + x_hat.col0 8 ^ 2 + x_hat.col0 9 ^ 2) * s.q_n2b.abs2 ∧
      t.q_e2n.abs2 - s.q_e2n.abs2
        = (x_hat.col0 3 ^ 2 + x_hat.col0 4 ^ 2 + x_hat.col0 5 ^ 2) * s.q_e2n.abs2 ∧
      t.q_n2b.abs2 - s.q_n2b.abs2
        = (x_hat.col0 7 ^ 2 + x_hat.col0 8 ^ 2 + x_hat.col0 9 ^ 2) * s.q_n2b.abs2 ∧
      (INS.recalc M t).q_e2n = t.q_e2n.renormalize M.sqrt ∧
      (INS.recalc M t).q_n2b = t.q_n2b.renormalize M.sqrt := by
  refine ⟨_, correct_INS_returned M x_hat s hr hc,
    fun M' => correct_INS_returned M' x_hat s hr hc, ?_, ?_, ?_, ?_, rfl, rfl⟩
  · show (Quaternion.mul ⟨1, -x_hat.col0 3, -x_hat.col0 4, -x_hat.col0 5⟩ s.q_e2n).abs2 = _
    rw [Quaternion.abs2_delta_mul]
    ring
  · show (Quaternion.mul ⟨1, -x_hat.col0 7, -x_hat.col0 8, -x_hat.col0 9⟩ s.q_n2b).abs2 = _
    rw [Quaternion.abs2_delta_mul]
    ring
  · show (Quaternion.mul ⟨1, -x_hat.col0 3, -x_hat.col0 4, -x_hat.col0 5⟩ s.q_e2n).abs2
      - s.q_e2n.abs2 = _
    rw [Quaternion.abs2_delta_mul]
    ring
  · show (Quaternion.mul ⟨1, -x_hat.col0 7, -x_hat.col0 8, -x_hat.col0 9⟩ s.q_n2b).abs2
      - s.q_n2b.abs2 = _
    rw [Quaternion.abs2_delta_mul]
    ring

/-- C28, at a concrete input: on the sample state both quaternions have squared
norm 1; with `x_hat[3] = 1/2` and `x_hat[8] = 1/2` both squared norms are 5/4
right before `recalc`. -/
theorem correct_INS_norm_growth_witness :
    (10 ≤ sampleXhat.rows ∧ 0 < sampleXhat.columns) ∧
    (sampleINS.q_e2n.abs2 = 1 ∧ sampleINS.q_n2b.abs2 = 1) ∧
    ∃ t, correct_INS sampleStrapdown sampleXhat sampleINS
        = .returned (INS.recalc sampleStrapdown t) ∧
      t.q_e2n.abs2 = 5 / 4 ∧ t.q_n2b.abs2 = 5 / 4 := by
  have n1 : sampleINS.q_e2n.abs2 = 1 := by norm_num [sampleINS, Quaternion.abs2]
  have n2 : sampleINS.q_n2b.abs2 = 1 := by norm_num [sampleINS, Quaternion.abs2]
  refine ⟨⟨by decide, by decide⟩, ⟨n1, n2⟩, ?_⟩
  obtain ⟨t, ht, _, he, hb, _, _, _, _⟩ :=
    correct_INS_norm_growth sampleStrapdown sampleXhat sampleINS (by decide) (by decide)
  obtain ⟨_, _, _, h3, h4, h5, _, h7, h8, h9, _, _⟩ := sampleXhat_col0
  refine ⟨t, ht, ?_, ?_⟩
  · rw [he, h3, h4, h5, n1]
    norm_num
  · rw [hb, h7, h8, h9, n2]
    norm_num

/-- C29: input independence. For a fixed nominal state, `accel` and DCMs, `getA`
returns the same matrix for any two `gyro` vectors, and `getB` returns the same
matrix for any two `(accel, gyro)` pairs. -/
theorem getA_getB_input_independence (E : Earth F) (cfg : Config) (s : INS F)
    (accel accel' gyro gyro' : Vector3 F) (dcm_e2n dcm_n2b : DCM F) :
    getA E cfg s accel gyro dcm_e2n dcm_n2b = getA E cfg s accel gyro' dcm_e2n dcm_n2b ∧
    getB accel gyro dcm_n2b = getB accel' gyro' dcm_n2b :=
  ⟨rfl, rfl⟩

/-- C30: with the centripetal block disabled the Earth-rate columns of the
velocity rows are cross products with the nominal velocity `v`:
`(A(0,3), A(1,3), A(2,3)) = 4 * Omega_Earth * (v × c1)` and
`(A(0,4), A(1,4), A(2,4)) = 4 * Omega_Earth * (c0 × v)`, with `c0`, `c1` the
columns 0 and 1 of `dcm_e2n`; each column is orthogonal to `v`. -/
theorem getA_earth_rate_cross (E : Earth F) (rs : Bool) (s : INS F)
    (accel gyro : Vector3 F) (dcm_e2n dcm_n2b : DCM F) :
    (∀ i : Fin 3,
      (getA E ⟨rs, false⟩ s accel gyro dcm_e2n dcm_n2b).entry i.val 3
        = some (4 * E.Omega_Earth * cross s.v (fun r => dcm_e2n r 1) i) ∧
      (getA E ⟨rs, false⟩ s accel gyro dcm_e2n dcm_n2b).entry i.val 4
        = some (4 * E.Omega_Earth * cross (fun r => dcm_e2n r 0) s.v i)) ∧
    s.v 0 * A_serialized E ⟨rs, false⟩ s accel gyro dcm_e2n dcm_n2b 0 3
      + s.v 1 * A_serialized E ⟨rs, false⟩ s accel gyro dcm_e2n dcm_n2b 1 3
      + s.v 2 * A_serialized E ⟨rs, false⟩ s accel gyro dcm_e2n dcm_n2b 2 3 = 0 ∧
    s.v 0 * A_serialized E ⟨rs, false⟩ s accel gyro dcm_e2n dcm_n2b 0 4
      + s.v 1 * A_serialized E ⟨rs, false⟩ s accel gyro dcm_e2n dcm_n2b 1 4
      + s.v 2 * A_serialized E ⟨rs, false⟩ s accel gyro dcm_e2n dcm_n2b 2 4 = 0 := by
  obtain ⟨e03, e04, e13, e14, e23, e24⟩ :=
    A_serialized_earth_rate_columns E rs s accel gyro dcm_e2n dcm_n2b
  have g0 : s.get 0 = s.v 0 := rfl
  have g1 : s.get 1 = s.v 1 := rfl
  have g2 : s.get 2 = s.v 2 := rfl
  simp only [g0, g1, g2] at e03 e04 e13 e14 e23 e24
  have ent : ∀ r c (_ : r < 10) (_ : c < 10) (x : F),
      A_serialized E ⟨rs, false⟩ s accel gyro dcm_e2n dcm_n2b r c = x →
      (getA E ⟨rs, false⟩ s accel gyro dcm_e2n dcm_n2b).entry r c = some x := by
    intro r c hr hc x h
    rw [getA_entry _ _ _ _ _ _ _ _ _ hr hc, h]
  have k0 : ∀ u w : Vector3 F, cross u w 0 = u 1 * w 2 - u 2 * w 1 := fun _ _ => rfl
  have k1 : ∀ u w : Vector3 F, cross u w 1 = u 2 * w 0 - u 0 * w 2 := fun _ _ => rfl
  have k2 : ∀ u w : Vector3 F, cross u w 2 = u 0 * w 1 - u 1 * w 0 := fun _ _ => rfl
  refine ⟨?_, ?_, ?_⟩
  · intro i
    fin_cases i
    · exact ⟨ent 0 3 (by norm_num) (by norm_num)
          (4 * E.Omega_Earth * cross s.v (fun r => dcm_e2n r 1) 0) (by rw [e03, k0]; ring),
        ent 0 4 (by norm_num) (by norm_num)
          (4 * E.Omega_Earth * cross (fun r => dcm_e2n r 0) s.v 0) (by rw [e04, k0]; ring)⟩
    · exact ⟨ent 1 3 (by norm_num) (by norm_num)
          (4 * E.Omega_Earth * cross s.v (fun r => dcm_e2n r 1) 1) (by rw [e13, k1]; ring),
        ent 1 4 (by norm_num) (by norm_num)
          (4 * E.Omega_Earth * cross (fun r => dcm_e2n r 0) s.v 1) (by rw [e14, k1]; ring)⟩
    · exact ⟨ent 2 3 (by norm_num) (by norm_num)
          (4 * E.Omega_Earth * cross s.v (fun r => dcm_e2n r 1) 2) (by rw [e23, k2]; ring),
        ent 2 4 (by norm_num) (by norm_num)
          (4 * E.Omega_Earth * cross (fun r => dcm_e2n r 0) s.v 2) (by rw [e24, k2]; ring)⟩
  · rw [e03, e13, e23]
    ring
  · rw [e04, e14, e24]
    ring

end Navigation

/-! # Theorems on `firmware/main.c` -/

namespace Firmware

/-- Or-ing a value below `2 ^ n` into a `DWORD` just shifted left by `n`. -/
theorem shl32_or (res n x : Nat) (hres : res * 2 ^ n < 2 ^ 32) (hx : x < 2 ^ n) :
    shl32 res n ||| x = res * 2 ^ n + x := by
  rw [shl32, Nat.shiftLeft_eq, Nat.mod_eq_of_lt hres, Nat.mul_comm,
    ← Nat.mul_add_lt_is_or hx]

/-- Within 32 bits an `int` that is not negative converts to itself. -/
theorem DWORD_ofNat (n : Nat) (h : n < 2 ^ 32) : DWORD (n : Int) = n := by
  unfold DWORD
  omega

/-- C17: FAT timestamp packing. With a time available whose fields satisfy
`80 ≤ tm_year ≤ 207`, `tm_mon ≤ 11`, `tm_mday ≤ 31`, `tm_hour ≤ 23`,
`tm_min ≤ 59`, `tm_sec ≤ 59`, `get_fattime` returns the 32-bit value with
`tm_year + 1900 - 1980` in bits 31:25, `tm_mon + 1` in bits 24:21, `tm_mday` in
bits 20:16, `tm_hour` in bits 15:11, `tm_min` in bits 10:5 and `tm_sec / 2` in
bits 4:0; the fields do not overlap, so shifting and masking recovers each. -/
theorem get_fattime_packing (res : Nat) (t : Tm)
    (hy : 80 ≤ t.tm_year) (hy2 : t.tm_year ≤ 207) (hmon : t.tm_mon ≤ 11)
    (hday : t.tm_mday ≤ 31) (hhour : t.tm_hour ≤ 23) (hmin : t.tm_min ≤ 59)
    (hsec : t.tm_sec ≤ 59) :
    get_fattime res (some t)
      = (t.tm_year + 1900 - 1980).toNat * 2 ^ 25 + (t.tm_mon + 1) * 2 ^ 21
        + t.tm_mday * 2 ^ 16 + t.tm_hour * 2 ^ 11 + t.tm_min * 2 ^ 5 + t.tm_sec / 2 ∧
    get_fattime res (some t) < 2 ^ 32 ∧
    get_fattime res (some t) >>> 25 = (t.tm_year + 1900 - 1980).toNat ∧
    (get_fattime res (some t) >>> 21) &&& 0xF = t.tm_mon + 1 ∧
    (get_fattime res (some t) >>> 16) &&& 0x1F = t.tm_mday ∧
    (get_fattime res (some t) >>> 11) &&& 0x1F = t.tm_hour ∧
    (get_fattime res (some t) >>> 5) &&& 0x3F = t.tm_min ∧
    get_fattime res (some t) &&& 0x1F = t.tm_sec / 2 := by
  obtain ⟨y, hyy⟩ : ∃ y : Nat, t.tm_year + 1900 - 1980 = (y : Int) :=
    ⟨(t.tm_year + 1900 - 1980).toNat, by omega⟩
  have hy127 : y ≤ 127 := by omega
  have h0 : DWORD (t.tm_year + 1900 - 1980) = y := by
    rw [hyy]
    exact DWORD_ofNat y (by omega)
  have h1 : DWORD ((t.tm_mon : Int) + 1) = t.tm_mon + 1 := by
    have := DWORD_ofNat (t.tm_mon + 1) (by omega)
    simpa using this
  have h2 : DWORD (t.tm_mday : Int) = t.tm_mday := DWORD_ofNat _ (by omega)
  have h3 : DWORD (t.tm_hour : Int) = t.tm_hour := DWORD_ofNat _ (by omega)
  have h4 : DWORD (t.tm_min : Int) = t.tm_min := DWORD_ofNat _ (by omega)
  have h5 : DWORD ((t.tm_sec : Int) / 2) = t.tm_sec / 2 := by
    have := DWORD_ofNat (t.tm_sec / 2) (by omega)
    simpa using this
  have hval : get_fattime res (some t)
      = y * 2 ^ 25 + (t.tm_mon + 1) * 2 ^ 21
        + t.tm_mday * 2 ^ 16 + t.tm_hour * 2 ^ 11 + t.tm_min * 2 ^ 5 + t.tm_sec / 2 := by
    have e1 : shl32 y 4 ||| (t.tm_mon + 1) = y * 2 ^ 4 + (t.tm_mon + 1) :=
      shl32_or y 4 _ (by omega) (by norm_num; omega)
    have e2 : shl32 (y * 2 ^ 4 + (t.tm_mon + 1)) 5 ||| t.tm_mday
        = (y * 2 ^ 4 + (t.tm_mon + 1)) * 2 ^ 5 + t.tm_mday :=
      shl32_or _ 5 _ (by norm_num; omega) (by norm_num; omega)
    have e3 : shl32 ((y * 2 ^ 4 + (t.tm_mon + 1)) * 2 ^ 5 + t.tm_mday) 5 ||| t.tm_hour
        = ((y * 2 ^ 4 + (t.tm_mon + 1)) * 2 ^ 5 + t.tm_mday) * 2 ^ 5 + t.tm_hour :=
      shl32_or _ 5 _ (by norm_num; omega) (by norm_num; omega)
    have e4 : shl32 (((y * 2 ^ 4 + (t.tm_mon + 1)) * 2 ^ 5 + t.tm_mday) * 2 ^ 5 + t.tm_hour) 6
          ||| t.tm_min
        = (((y * 2 ^ 4 + (t.tm_mon + 1)) * 2 ^ 5 + t.tm_mday) * 2 ^ 5 + t.tm_hour) * 2 ^ 6
          + t.tm_min :=
      shl32_or _ 6 _ (by norm_num; omega) (by norm_num; omega)
    have e5 : shl32 ((((y * 2 ^ 4 + (t.tm_mon + 1)) * 2 ^ 5 + t.tm_mday) * 2 ^ 5 + t.tm_hour)
          * 2 ^ 6 + t.tm_min) 5 ||| t.tm_sec / 2
        = ((((y * 2 ^ 4 + (t.tm_mon + 1)) * 2 ^ 5 + t.tm_mday) * 2 ^ 5 + t.tm_hour) * 2 ^ 6
          + t.tm_min) * 2 ^ 5 + t.tm_sec / 2 :=
      shl32_or _ 5 _ (by norm_num; omega) (by norm_num; omega)
    simp only [get_fattime, h0, h1, h2, h3, h4, h5, e1, e2, e3, e4, e5]
    ring
  have hto : (t.tm_year + 1900 - 1980).toNat = y := by omega
  rw [hval, hto]
  have m4 : (0xF : Nat) = 2 ^ 4 - 1 := by norm_num
  have m5 : (0x1F : Nat) = 2 ^ 5 - 1 := by norm_num
  have m6 : (0x3F : Nat) = 2 ^ 6 - 1 := by norm_num
  rw [m4, m5, m6]
  simp only [Nat.shiftRight_eq_div_pow, Nat.and_pow_two_sub_one_eq_mod]
  norm_num
  refine ⟨?_, ?_, ?_, ?_, ?_, ?_, ?_⟩ <;> omega

/-- C17, at a concrete input: 2015-06-15 12:34:56 packs to 1187996764, whose top
seven bits hold 35 = 2015 - 1980. -/
theorem get_fattime_packing_witness :
    get_fattime 0 (some sampleTime) = 1187996764 ∧
    get_fattime 0 (some sampleTime) >>> 25 = 35 :=
  ⟨(get_fattime_packing 0 sampleTime (by decide) (by decide) (by decide) (by decide)
      (by decide) (by decide) (by decide)).1,
    (get_fattime_packing 0 sampleTime (by decide) (by decide) (by decide) (by decide)
      (by decide) (by decide) (by decide)).2.2.1⟩

/-! ## The timer-3 interrupt -/

/-- The first part of `interrupt_timer3` adds 10 to `global_ms` and 1 to
`tickcount`, modulo 2^32, and leaves `sys_state` and `gps_num_of_sat` as they
are. -/
theorem timer3_tick_globals (lsb : Nat → Nat) (g : Timer3Globals) :
    (timer3_tick lsb g).global_ms = (g.global_ms + 10) % 2 ^ 32 ∧
    (timer3_tick lsb g).tickcount = (g.tickcount + 1) % 2 ^ 32 ∧
    (timer3_tick lsb g).sys_state = g.sys_state ∧
    (timer3_tick lsb g).gps_num_of_sat = g.gps_num_of_sat := by
  unfold timer3_tick
  dsimp only
  split_ifs <;> exact ⟨rfl, rfl, rfl, rfl⟩

/-- The last part of `interrupt_timer3` on a counter within its range. -/
theorem timer3_blink_effect (PA : Nat) (g : Timer3Globals) (st : Timer3Statics)
    (h10 : st.loop_10s ≤ 199) :
    (timer3_blink PA g st).statics.loop_50ms = st.loop_50ms ∧
    (timer3_blink PA g st).statics.loop_10s = (st.loop_10s + 1) % 200 ∧
    (timer3_blink PA g st).globals.global_ms = g.global_ms ∧
    (timer3_blink PA g st).globals.tickcount = g.tickcount ∧
    (timer3_blink PA g st).globals.sys_state
      = (if (st.loop_10s + 1) % 40 = 0 then 0 else g.sys_state) ∧
    (timer3_blink PA g st).statics.snapshot_state
      = (if (st.loop_10s + 1) % 40 = 0 then (PA ||| g.sys_state) % 2 ^ 8
        else if (st.loop_10s + 1) % 5 = 1 then st.snapshot_state >>> 1
        else st.snapshot_state) ∧
    (timer3_blink PA g st).statics.snapshot_gps
      = (if st.loop_10s + 1 = 200 then g.gps_num_of_sat - 1
        else if (st.loop_10s + 1) % 5 = 0 then st.snapshot_gps - 1
        else st.snapshot_gps) := by
  have e10 : (st.loop_10s + 1) % 2 ^ 8 = st.loop_10s + 1 := Nat.mod_eq_of_lt (by omega)
  have m200 : (st.loop_10s + 1) % 200 = if st.loop_10s + 1 ≥ 200 then 0 else st.loop_10s + 1 := by
    split_ifs <;> omega
  unfold timer3_blink
  dsimp only
  rw [e10, m200]
  by_cases k0 : (st.loop_10s + 1) % 5 = 0
  · have n1 : ¬(st.loop_10s + 1) % 5 = 1 := by omega
    by_cases k8 : (st.loop_10s + 1) % 8 = 0
    · have c40 : (st.loop_10s + 1) % 40 = 0 := by omega
      by_cases k200 : st.loop_10s + 1 ≥ 200
      · have c200 : st.loop_10s + 1 = 200 := by omega
        simp only [if_pos k0, if_pos k8, if_pos k200, if_pos c40, if_pos c200]
        split_ifs <;> (try dsimp only at *) <;> refine ⟨?_, ?_, ?_, ?_, ?_, ?_, ?_⟩ <;>
          first | rfl | omega
      · have c200 : ¬st.loop_10s + 1 = 200 := by omega
        simp only [if_pos k0, if_pos k8, if_neg k200, if_pos c40, if_neg c200]
        split_ifs <;> (try dsimp only at *) <;> refine ⟨?_, ?_, ?_, ?_, ?_, ?_, ?_⟩ <;>
          first | rfl | omega
    · have c40 : ¬(st.loop_10s + 1) % 40 = 0 := by omega
      have k200 : ¬st.loop_10s + 1 ≥ 200 := by omega
      have c200 : ¬st.loop_10s + 1 = 200 := by omega
      simp only [if_pos k0, if_neg k8, if_neg k200, if_neg c40, if_neg c200, if_neg n1]
      split_ifs <;> (try dsimp only at *) <;> refine ⟨?_, ?_, ?_, ?_, ?_, ?_, ?_⟩ <;>
          first | rfl | omega
  · have c40 : ¬(st.loop_10s + 1) % 40 = 0 := by omega
    have k200 : ¬st.loop_10s + 1 ≥ 200 := by omega
    have c200 : ¬st.loop_10s + 1 = 200 := by omega
    simp only [if_neg k0, if_neg k200, if_neg c40, if_neg c200]
    split_ifs <;> exact ⟨rfl, rfl, rfl, rfl, rfl, rfl, rfl⟩

/-- The last part of `interrupt_timer3` does not write the clocks. -/
theorem timer3_blink_clocks (PA : Nat) (g : Timer3Globals) (st : Timer3Statics) :
    (timer3_blink PA g st).globals.global_ms = g.global_ms ∧
    (timer3_blink PA g st).globals.tickcount = g.tickcount := by
  unfold timer3_blink
  dsimp only
  split_ifs <;> exact ⟨rfl, rfl⟩

/-- One run of `interrupt_timer3` adds 10 to `global_ms` and 1 to `tickcount`,
modulo 2^32, on every path. -/
theorem interrupt_timer3_clocks (PA : Nat) (lsb : Nat → Nat) (g : Timer3Globals)
    (st : Timer3Statics) :
    (interrupt_timer3 PA lsb g st).globals.global_ms = (g.global_ms + 10) % 2 ^ 32 ∧
    (interrupt_timer3 PA lsb g st).globals.tickcount = (g.tickcount + 1) % 2 ^ 32 := by
  obtain ⟨t1, t2, _, _⟩ := timer3_tick_globals lsb g
  unfold interrupt_timer3
  dsimp only
  split_ifs
  · exact ⟨t1, t2⟩
  · obtain ⟨b1, b2⟩ := timer3_blink_clocks PA (timer3_tick lsb g)
      { st with loop_50ms := 0 }
    exact ⟨b1.trans t1, b2.trans t2⟩

/-- One run of `interrupt_timer3` on counters within their ranges: the new
counters, and what the run does to `sys_state`, `snapshot_state` and
`snapshot_gps`. -/
theorem interrupt_timer3_effect (PA : Nat) (lsb : Nat → Nat) (g : Timer3Globals)
    (st : Timer3Statics) (h5 : st.loop_50ms ≤ 4) (h10 : st.loop_10s ≤ 199) :
    (interrupt_timer3 PA lsb g st).statics.loop_50ms = (st.loop_50ms + 1) % 5 ∧
    (interrupt_timer3 PA lsb g st).statics.loop_10s
      = (if st.loop_50ms = 4 then (st.loop_10s + 1) % 200 else st.loop_10s) ∧
    (interrupt_timer3 PA lsb g st).globals.sys_state
      = (if st.loop_50ms = 4 ∧ (st.loop_10s + 1) % 40 = 0 then 0 else g.sys_state) ∧
    (interrupt_timer3 PA lsb g st).statics.snapshot_state
      = (if st.loop_50ms = 4 ∧ (st.loop_10s + 1) % 40 = 0 then (PA ||| g.sys_state) % 2 ^ 8
        else if st.loop_50ms = 4 ∧ (st.loop_10s + 1) % 5 = 1 then st.snapshot_state >>> 1
        else st.snapshot_state) ∧
    (interrupt_timer3 PA lsb g st).statics.snapshot_gps
      = (if st.loop_50ms = 4 ∧ st.loop_10s + 1 = 200 then g.gps_num_of_sat - 1
        else if st.loop_50ms = 4 ∧ (st.loop_10s + 1) % 5 = 0 then st.snapshot_gps - 1
        else st.snapshot_gps) := by
  have e5 : (st.loop_50ms + 1) % 2 ^ 8 = st.loop_50ms + 1 := Nat.mod_eq_of_lt (by omega)
  obtain ⟨_, _, ts, tg⟩ := timer3_tick_globals lsb g
  by_cases h : st.loop_50ms + 1 < 5
  · have ne4 : ¬st.loop_50ms = 4 := by omega
    have hrun : interrupt_timer3 PA lsb g st
        = ⟨timer3_tick lsb g, { st with loop_50ms := st.loop_50ms + 1 }⟩ := by
      unfold interrupt_timer3
      dsimp only
      rw [e5, if_pos h]
    rw [hrun]
    simp only [ne4, false_and, if_false]
    refine ⟨?_, ?_, ?_, ?_, ?_⟩ <;>
      first | trivial | rfl | exact ts | (show st.loop_50ms + 1 = _; omega)
  · have h4 : st.loop_50ms = 4 := by omega
    have hrun : interrupt_timer3 PA lsb g st
        = timer3_blink PA (timer3_tick lsb g) { st with loop_50ms := 0 } := by
      unfold interrupt_timer3
      dsimp only
      rw [e5, if_neg h]
    obtain ⟨b5, b10, _, _, bs, bst, bg⟩ := timer3_blink_effect PA (timer3_tick lsb g)
      { st with loop_50ms := 0 } h10
    rw [hrun, b5, b10, bs, bst, bg, ts, tg]
    simp only [h4, true_and, if_true]

/-- The loop counters after `n` runs, whatever the rest of the firmware does to
the globals in between. -/
theorem timer3_invocations_statics (PA : Nat) (lsb : Nat → Nat)
    (env : Nat → Timer3Globals → Timer3Globals) (g0 : Timer3Globals) (n : Nat) :
    (timer3_invocations PA lsb env g0 n).statics.loop_50ms = n % 5 ∧
    (timer3_invocations PA lsb env g0 n).statics.loop_10s = n / 5 % 200 := by
  induction n with
  | zero => exact ⟨rfl, rfl⟩
  | succ n ih =>
    obtain ⟨i5, i10⟩ := ih
    have h5 : (timer3_invocations PA lsb env g0 n).statics.loop_50ms ≤ 4 := by
      rw [i5]
      omega
    have h10 : (timer3_invocations PA lsb env g0 n).statics.loop_10s ≤ 199 := by
      rw [i10]
      omega
    obtain ⟨a, b, _⟩ := interrupt_timer3_effect PA lsb
      (env n (timer3_invocations PA lsb env g0 n).globals)
      (timer3_invocations PA lsb env g0 n).statics h5 h10
    simp only [i5, i10] at a b
    refine ⟨?_, ?_⟩
    · show (interrupt_timer3 PA lsb (env n (timer3_invocations PA lsb env g0 n).globals)
        (timer3_invocations PA lsb env g0 n).statics).statics.loop_50ms = (n + 1) % 5
      rw [a]
      omega
    · show (interrupt_timer3 PA lsb (env n (timer3_invocations PA lsb env g0 n).globals)
        (timer3_invocations PA lsb env g0 n).statics).statics.loop_10s = (n + 1) / 5 % 200
      rw [b]
      split_ifs <;> omega

/-- What run `n + 1` does to `sys_state`, `snapshot_state` and `snapshot_gps`,
in terms of the number of the run. -/
theorem timer3_invocations_snapshots (PA : Nat) (lsb : Nat → Nat)
    (env : Nat → Timer3Globals → Timer3Globals) (g0 : Timer3Globals) (n : Nat) :
    (timer3_invocations PA lsb env g0 (n + 1)).globals.sys_state
      = (if (n + 1) % 200 = 0 then 0
        else (env n (timer3_invocations PA lsb env g0 n).globals).sys_state) ∧
    (timer3_invocations PA lsb env g0 (n + 1)).statics.snapshot_state
      = (if (n + 1) % 200 = 0
        then (PA ||| (env n (timer3_invocations PA lsb env g0 n).globals).sys_state) % 2 ^ 8
        else if (n + 1) % 25 = 5
        then (timer3_invocations PA lsb env g0 n).statics.snapshot_state >>> 1
        else (timer3_invocations PA lsb env g0 n).statics.snapshot_state) ∧
    (timer3_invocations PA lsb env g0 (n + 1)).statics.snapshot_gps
      = (if (n + 1) % 1000 = 0
        then (env n (timer3_invocations PA lsb env g0 n).globals).gps_num_of_sat - 1
        else if (n + 1) % 25 = 0
        then (timer3_invocations PA lsb env g0 n).statics.snapshot_gps - 1
        else (timer3_invocations PA lsb env g0 n).statics.snapshot_gps) := by
  obtain ⟨i5, i10⟩ := timer3_invocations_statics PA lsb env g0 n
  have h5 : (timer3_invocations PA lsb env g0 n).statics.loop_50ms ≤ 4 := by
    rw [i5]
    omega
  have h10 : (timer3_invocations PA lsb env g0 n).statics.loop_10s ≤ 199 := by
    rw [i10]
    omega
  obtain ⟨_, _, c, d, e⟩ := interrupt_timer3_effect PA lsb
    (env n (timer3_invocations PA lsb env g0 n).globals)
    (timer3_invocations PA lsb env g0 n).statics h5 h10
  simp only [i5, i10] at c d e
  have p200 : (n % 5 = 4 ∧ (n / 5 % 200 + 1) % 40 = 0) ↔ (n + 1) % 200 = 0 := by omega
  have p5 : (n % 5 = 4 ∧ (n / 5 % 200 + 1) % 5 = 1) ↔ (n + 1) % 25 = 5 := by omega
  have p1000 : (n % 5 = 4 ∧ n / 5 % 200 + 1 = 200) ↔ (n + 1) % 1000 = 0 := by omega
  have p25 : (n % 5 = 4 ∧ (n / 5 % 200 + 1) % 5 = 0) ↔ (n + 1) % 25 = 0 := by omega
  simp only [p200, p5, p1000, p25] at c d e
  exact ⟨c, d, e⟩

/-- The clocks after `n` runs when nothing else writes them. -/
theorem timer3_invocations_clocks (PA : Nat) (lsb : Nat → Nat) (g0 : Timer3Globals) (n : Nat) :
    (timer3_invocations PA lsb (fun _ g => g) g0 n).globals.global_ms % 2 ^ 32
      = (g0.global_ms + 10 * n) % 2 ^ 32 ∧
    (timer3_invocations PA lsb (fun _ g => g) g0 n).globals.tickcount % 2 ^ 32
      = (g0.tickcount + n) % 2 ^ 32 := by
  induction n with
  | zero =>
    exact ⟨rfl, rfl⟩
  | succ n ih =>
    obtain ⟨ims, itc⟩ := ih
    obtain ⟨a, b⟩ := interrupt_timer3_clocks PA lsb
      (timer3_invocations PA lsb (fun _ g => g) g0 n).globals
      (timer3_invocations PA lsb (fun _ g => g) g0 n).statics
    refine ⟨?_, ?_⟩
    · show (interrupt_timer3 PA lsb (timer3_invocations PA lsb (fun _ g => g) g0 n).globals
        (timer3_invocations PA lsb (fun _ g => g) g0 n).statics).globals.global_ms % 2 ^ 32 = _
      rw [a]
      omega
    · show (interrupt_timer3 PA lsb (timer3_invocations PA lsb (fun _ g => g) g0 n).globals
        (timer3_invocations PA lsb (fun _ g => g) g0 n).statics).globals.tickcount % 2 ^ 32 = _
      rw [b]
      omega

/-- C32: timer-3 tick counters. Starting from the static initialisers, after
every run of `interrupt_timer3`, whatever the rest of the firmware does to the
globals between the runs, `loop_50ms ≤ 4` and `loop_10s ≤ 199` (after `n` runs
they are `n % 5` and `n / 5 % 200`), so the next `++` of either `u8` counter
does not wrap; each run advances `global_ms` by 10 and `tickcount` by 1 modulo
2^32, so with no other writer they are the start values plus `10 * n` and `n`
modulo 2^32. The system-state snapshot is taken exactly in the runs whose number
is a multiple of 200: such a run stores `SYS_PERIODIC_ACTIVE | sys_state` in
`snapshot_state` and clears `sys_state`, every other run leaves `sys_state` as
it found it and `snapshot_state` as it was or shifted right by one. The
satellite-count snapshot is taken exactly in the runs whose number is a multiple
of 1000: such a run stores `gps_num_of_sat` in `snapshot_gps` (and counts it
down by one at once when it is positive), every other run leaves `snapshot_gps`
as it was or counts it down by one. -/
theorem interrupt_timer3_counters (SYS_PERIODIC_ACTIVE : Nat) (u32_lsbyte : Nat → Nat)
    (env : Nat → Timer3Globals → Timer3Globals) (g0 : Timer3Globals) (n : Nat) :
    ((timer3_invocations SYS_PERIODIC_ACTIVE u32_lsbyte env g0 n).statics.loop_50ms ≤ 4 ∧
      (timer3_invocations SYS_PERIODIC_ACTIVE u32_lsbyte env g0 n).statics.loop_10s ≤ 199) ∧
    ((timer3_invocations SYS_PERIODIC_ACTIVE u32_lsbyte env g0 n).statics.loop_50ms = n % 5 ∧
      (timer3_invocations SYS_PERIODIC_ACTIVE u32_lsbyte env g0 n).statics.loop_10s
        = n / 5 % 200) ∧
    (((timer3_invocations SYS_PERIODIC_ACTIVE u32_lsbyte env g0 n).statics.loop_50ms + 1) % 2 ^ 8
        = (timer3_invocations SYS_PERIODIC_ACTIVE u32_lsbyte env g0 n).statics.loop_50ms + 1 ∧
      ((timer3_invocations SYS_PERIODIC_ACTIVE u32_lsbyte env g0 n).statics.loop_10s + 1) % 2 ^ 8
        = (timer3_invocations SYS_PERIODIC_ACTIVE u32_lsbyte env g0 n).statics.loop_10s + 1) ∧
    (∀ (g : Timer3Globals) (st : Timer3Statics),
      (interrupt_timer3 SYS_PERIODIC_ACTIVE u32_lsbyte g st).globals.global_ms
        = (g.global_ms + 10) % 2 ^ 32 ∧
      (interrupt_timer3 SYS_PERIODIC_ACTIVE u32_lsbyte g st).globals.tickcount
        = (g.tickcount + 1) % 2 ^ 32) ∧
    ((timer3_invocations SYS_PERIODIC_ACTIVE u32_lsbyte (fun _ g => g) g0 n).globals.global_ms
          % 2 ^ 32
        = (g0.global_ms + 10 * n) % 2 ^ 32 ∧
      (timer3_invocations SYS_PERIODIC_ACTIVE u32_lsbyte (fun _ g => g) g0 n).globals.tickcount
          % 2 ^ 32
        = (g0.tickcount + n) % 2 ^ 32) ∧
    ((timer3_invocations SYS_PERIODIC_ACTIVE u32_lsbyte env g0 (n + 1)).globals.sys_state
        = (if (n + 1) % 200 = 0 then 0
          else (env n (timer3_invocations SYS_PERIODIC_ACTIVE u32_lsbyte env g0 n).globals
            ).sys_state) ∧
      (timer3_invocations SYS_PERIODIC_ACTIVE u32_lsbyte env g0 (n + 1)).statics.snapshot_state
        = (if (n + 1) % 200 = 0
          then (SYS_PERIODIC_ACTIVE
            ||| (env n (timer3_invocations SYS_PERIODIC_ACTIVE u32_lsbyte env g0 n).globals
              ).sys_state) % 2 ^ 8
          else if (n + 1) % 25 = 5
          then (timer3_invocations SYS_PERIODIC_ACTIVE u32_lsbyte env g0 n
            ).statics.snapshot_state >>> 1
          else (timer3_invocations SYS_PERIODIC_ACTIVE u32_lsbyte env g0 n
            ).statics.snapshot_state)) ∧
    (timer3_invocations SYS_PERIODIC_ACTIVE u32_lsbyte env g0 (n + 1)).statics.snapshot_gps
      = (if (n + 1) % 1000 = 0
        then (env n (timer3_invocations SYS_PERIODIC_ACTIVE u32_lsbyte env g0 n).globals
          ).gps_num_of_sat - 1
        else if (n + 1) % 25 = 0
        then (timer3_invocations SYS_PERIODIC_ACTIVE u32_lsbyte env g0 n
          ).statics.snapshot_gps - 1
        else (timer3_invocations SYS_PERIODIC_ACTIVE u32_lsbyte env g0 n
          ).statics.snapshot_gps) := by
  obtain ⟨i5, i10⟩ := timer3_invocations_statics SYS_PERIODIC_ACTIVE u32_lsbyte env g0 n
  obtain ⟨s1, s2, s3⟩ := timer3_invocations_snapshots SYS_PERIODIC_ACTIVE u32_lsbyte env g0 n
  have b5 : (timer3_invocations SYS_PERIODIC_ACTIVE u32_lsbyte env g0 n).statics.loop_50ms ≤ 4 := by
    rw [i5]
    omega
  have b10 :
      (timer3_invocations SYS_PERIODIC_ACTIVE u32_lsbyte env g0 n).statics.loop_10s ≤ 199 := by
    rw [i10]
    omega
  exact ⟨⟨b5, b10⟩, ⟨i5, i10⟩,
    ⟨Nat.mod_eq_of_lt (by omega), Nat.mod_eq_of_lt (by omega)⟩,
    fun g st => interrupt_timer3_clocks SYS_PERIODIC_ACTIVE u32_lsbyte g st,
    timer3_invocations_clocks SYS_PERIODIC_ACTIVE u32_lsbyte g0 n, ⟨s1, s2⟩, s3⟩

end Firmware

/-! # Theorems on `tool/param/complex.h` -/

namespace Param

variable {F : Type} [Field F]

/-- C18, what the code returns: the friend `operator-(scalar, complex)` returns
`complex - scalar`, with real part `Re(z) - s` and imaginary part `Im(z)`; at
`s = 1`, `z = 2 + 3i` it returns `1 + 3i`, while `Complex(1) - z` is `-1 - 3i`. -/
theorem scalar_sub_is_complex_minus_scalar :
    (∀ (K : Type) [Field K] (s : K) (z : Complex K),
      Complex.scalar_sub s z = ⟨z.m_Real - s, z.m_Imaginary⟩ ∧
      (Complex.ofReal s).sub z = ⟨s - z.m_Real, -z.m_Imaginary⟩) ∧
    Complex.scalar_sub (1 : ℚ) ⟨2, 3⟩ = ⟨1, 3⟩ ∧
    (Complex.ofReal (1 : ℚ)).sub ⟨2, 3⟩ = ⟨-1, -3⟩ ∧
    Complex.scalar_sub (1 : ℚ) ⟨2, 3⟩ ≠ (Complex.ofReal (1 : ℚ)).sub ⟨2, 3⟩ := by
  have h : ∀ (K : Type) [Field K] (s : K) (z : Complex K),
      Complex.scalar_sub s z = ⟨z.m_Real - s, z.m_Imaginary⟩ ∧
      (Complex.ofReal s).sub z = ⟨s - z.m_Real, -z.m_Imaginary⟩ := by
    intro K _ s z
    constructor
    · simp only [Complex.scalar_sub, Complex.sub_scalar, Complex.add_scalar,
        Complex.add_assign_scalar, Complex.mk.injEq, and_true]
      ring
    · simp only [Complex.sub, Complex.neg, Complex.mul_scalar, Complex.mul_assign_scalar,
        Complex.add_assign, Complex.ofReal, Complex.mk.injEq]
      constructor <;> ring
  refine ⟨h, ?_, ?_, ?_⟩
  · rw [(h ℚ 1 ⟨2, 3⟩).1]
    norm_num
  · rw [(h ℚ 1 ⟨2, 3⟩).2]
    norm_num
  · rw [(h ℚ 1 ⟨2, 3⟩).1, (h ℚ 1 ⟨2, 3⟩).2]
    norm_num

/-- C19: complex division undoes multiplication. For `w` with `abs2(w) ≠ 0`,
`z / w` has real part `(Re z * Re w + Im z * Im w) / abs2(w)` and imaginary part
`(Im z * Re w - Re z * Im w) / abs2(w)`, so `(z / w) * w = z` and
`(z * w) / w = z`; `/=` gives the same value as `/`. -/
theorem div_undoes_mul (z w : Complex F) (hw : w.abs2 ≠ 0) :
    (z.div w).m_Real = (z.m_Real * w.m_Real + z.m_Imaginary * w.m_Imaginary) / w.abs2 ∧
    (z.div w).m_Imaginary
      = (z.m_Imaginary * w.m_Real - z.m_Real * w.m_Imaginary) / w.abs2 ∧
    (z.div w).mul w = z ∧ (z.mul w).div w = z ∧ z.div_assign w = z.div w := by
  have hw2 : w.m_Real ^ 2 + w.m_Imaginary ^ 2 ≠ 0 := hw
  obtain ⟨a, b⟩ := z
  obtain ⟨c, d⟩ := w
  have hw3 : c ^ 2 + d ^ 2 ≠ 0 := hw2
  refine ⟨?_, ?_, ?_, ?_, rfl⟩
  · simp only [Complex.div, Complex.div_assign, Complex.mul_assign, Complex.div_scalar,
      Complex.mul_scalar, Complex.mul_assign_scalar, Complex.conjugate, Complex.abs2]
    field_simp
  · simp only [Complex.div, Complex.div_assign, Complex.mul_assign, Complex.div_scalar,
      Complex.mul_scalar, Complex.mul_assign_scalar, Complex.conjugate, Complex.abs2]
    field_simp
    ring
  · simp only [Complex.div, Complex.div_assign, Complex.mul_assign, Complex.mul,
      Complex.div_scalar, Complex.mul_scalar, Complex.mul_assign_scalar, Complex.conjugate,
      Complex.abs2, Complex.mk.injEq]
    constructor <;> field_simp <;> ring
  · simp only [Complex.div, Complex.div_assign, Complex.mul_assign, Complex.mul,
      Complex.div_scalar, Complex.mul_scalar, Complex.mul_assign_scalar, Complex.conjugate,
      Complex.abs2, Complex.mk.injEq]
    constructor <;> field_simp <;> ring

/-- C19, at a concrete input: `(1 + 2i) / (3 + 4i) = 11/25 + 2/25 i`. -/
theorem div_undoes_mul_witness :
    (⟨3, 4⟩ : Complex ℚ).abs2 ≠ 0 ∧
    ((⟨1, 2⟩ : Complex ℚ).div ⟨3, 4⟩).m_Real = 11 / 25 ∧
    ((⟨1, 2⟩ : Complex ℚ).div ⟨3, 4⟩).mul ⟨3, 4⟩ = ⟨1, 2⟩ := by
  have hw : (⟨3, 4⟩ : Complex ℚ).abs2 ≠ 0 := by norm_num [Complex.abs2]
  obtain ⟨hre, _, hmul, _, _⟩ := div_undoes_mul (⟨1, 2⟩ : Complex ℚ) ⟨3, 4⟩ hw
  refine ⟨hw, ?_, hmul⟩
  rw [hre]
  norm_num [Complex.abs2]

end Param
